import Mathlib

/-!
Verification of dental_backend: dashboard aggregation, authorization gate and routes.

A shallow embedding of `src/models/dbUtils.js` (`DatabaseService.getDashboardStats`, the user
lookups, `createUser`, `createClaim`, `updateClaim`, the `delete` methods and the list methods),
`src/middleware/auth.js` (`authMiddleware`, `optionalAuthMiddleware`, `requireRole`),
`src/middleware/dbLogger.js` (`withDbLogging`), `src/routes/auth.js` (login, register, verify),
`src/routes/dashboard.js`, the list, `POST`, `PUT` and `DELETE` handlers of the entity routes and
the route table of `src/server.js`, followed by the properties proved about them.

Conventions of the embedding

* A JavaScript number is a `JsNumber`: `NaN`, an infinity, or a finite value given by the rational
  it denotes.  Addition and the reading of a decimal numeral round to the nearest IEEE 754 double
  (`roundToDouble`: ties to even, subnormal numbers, overflow to an infinity).  The sign of zero is
  not represented.
* Rows are records whose fields are JavaScript values (`JsValue`), one field per column.
* An `async` function that can reject is a function into `Except JsError`.
* A middleware is a function from the request to a `MiddlewareResult`, which records the request
  as the middleware left it, the response sent (if any), how many times `next` was called and the
  user ids looked up in the store.
* Library and host functions whose code is not part of the repository (`jwt.sign`, `jwt.verify`,
  `bcrypt`, `Date.parse`, the checks of `express-validator`, the SQL engine behind the `sql`
  handle) are parameters.  So is `Logger.database` of `src/utils/logger.js`, which writes to the
  console and to the log files: it is a function that returns or throws.
* A route handler is a function from the request to a `HandlerResult`: the response sent and the
  calls made to `DatabaseService`, `bcrypt` and `jwt`, in order.
* In the stored tables identifiers are compared as text; the syntax check of the `uuid` type is
  not represented.
-/

namespace DentalBackend

/-! ## JavaScript values -/

/-- A JavaScript number: `NaN`, `+Infinity`/`-Infinity`, or a finite value. -/
inductive JsNumber where
  | nan
  | fin (q : ℚ)
  | inf (negative : Bool)
deriving DecidableEq

/-- The JavaScript values that occur in rows, headers and token payloads.  A `Date` object is
given by its time value in milliseconds since the epoch, `none` for an invalid date. -/
inductive JsValue where
  | undefined
  | null
  | bool (b : Bool)
  | number (n : JsNumber)
  | string (s : String)
  | date (time : Option Int)
deriving DecidableEq

/-- A thrown JavaScript error (or the rejection reason of a promise). -/
structure JsError where
  name : String
  message : String
deriving DecidableEq

/-- JSON data sent in a response body, as the value handed to `res.json`: besides the JSON forms
it can hold `undefined` (a property dropped when the body is serialised) and a `Date` (serialised
as its ISO text). -/
inductive Json where
  | null
  | bool (b : Bool)
  | number (n : JsNumber)
  | string (s : String)
  | array (items : List Json)
  | object (fields : List (String × Json))
  | undefined
  | date (time : Option Int)

/-- Rounding of a rational to the nearest whole number, a tie going to the even one. -/
def roundHalfEven (m : ℚ) : ℤ :=
  if m - ⌊m⌋ < 1 / 2 then ⌊m⌋
  else if 1 / 2 < m - ⌊m⌋ then ⌊m⌋ + 1
  else if ⌊m⌋ % 2 = 0 then ⌊m⌋ else ⌊m⌋ + 1

/-- The exponent of the binade of doubles a rational lies in: the `e` with
`2 ^ e ≤ |q| < 2 ^ (e + 1)`, and -1022, the exponent of the subnormal doubles, when that is
larger. -/
def doubleExponent (q : ℚ) : ℤ :=
  max (Int.log 2 |q|) (-1022)

/-- The Number value for a rational: the IEEE 754 double nearest to it, a tie going to the double
with the even significand, and an infinity when that is beyond the range of doubles.  The doubles
of the binade with exponent `e` are the whole multiples of `2 ^ (e - 52)`. -/
def roundToDouble (q : ℚ) : JsNumber :=
  if (2 : ℚ) ^ (1024 : ℤ)
      ≤ |(roundHalfEven (q / 2 ^ (doubleExponent q - 52)) : ℚ) * 2 ^ (doubleExponent q - 52)| then
    .inf (decide (q < 0))
  else .fin (roundHalfEven (q / 2 ^ (doubleExponent q - 52)) * 2 ^ (doubleExponent q - 52))

/-- JavaScript `+` on two numbers: the sum of two finite values is rounded to the nearest
double. -/
def JsNumber.add : JsNumber → JsNumber → JsNumber
  | .nan, _ => .nan
  | _, .nan => .nan
  | .fin a, .fin b => roundToDouble (a + b)
  | .fin _, .inf s => .inf s
  | .inf s, .fin _ => .inf s
  | .inf s, .inf t => if s = t then .inf s else .nan

/-- JavaScript `-` on two numbers.  The difference of two finite values is kept exact: it is used
for the sign of a difference of two time values and for the negation of a numeral, neither of
which rounding changes. -/
def JsNumber.sub : JsNumber → JsNumber → JsNumber
  | .nan, _ => .nan
  | _, .nan => .nan
  | .fin a, .fin b => .fin (a - b)
  | .fin _, .inf s => .inf (!s)
  | .inf s, .fin _ => .inf s
  | .inf s, .inf t => if s = t then .nan else .inf s

instance : Add JsNumber := ⟨JsNumber.add⟩

instance : Zero JsNumber := ⟨JsNumber.fin 0⟩

/-- Truthiness of a number (`ToBoolean`): `NaN` and zero are falsy. -/
def JsNumber.truthy : JsNumber → Bool
  | .nan => false
  | .fin q => decide (q ≠ 0)
  | .inf _ => true

/-- The expression `x || y` for numbers `x`, `y`. -/
def JsNumber.or (x y : JsNumber) : JsNumber :=
  if x.truthy then x else y

/-- Truthiness of a value (`ToBoolean`). -/
def JsValue.truthy : JsValue → Bool
  | .undefined => false
  | .null => false
  | .bool b => b
  | .number n => n.truthy
  | .string s => decide (s ≠ "")
  | .date _ => true

/-! ## `parseFloat` -/

/-- The characters `parseFloat` strips from the front of its input (`WhiteSpace` and
`LineTerminator` of the language grammar). -/
def isJsWhiteSpace (c : Char) : Bool :=
  c.toNat = 0x09 || c.toNat = 0x0A || c.toNat = 0x0B || c.toNat = 0x0C || c.toNat = 0x0D
    || c.toNat = 0x20 || c.toNat = 0xA0 || c.toNat = 0x1680
    || (0x2000 ≤ c.toNat && c.toNat ≤ 0x200A)
    || c.toNat = 0x2028 || c.toNat = 0x2029 || c.toNat = 0x202F || c.toNat = 0x205F
    || c.toNat = 0x3000 || c.toNat = 0xFEFF

/-- The value of a run of decimal digits. -/
def digitsValue (ds : List Char) : Nat :=
  ds.foldl (fun acc d => 10 * acc + (d.toNat - 48)) 0

/-- Whether the characters `p` begin the characters `s`. -/
def startsWithChars : List Char → List Char → Bool
  | [], _ => true
  | _ :: _, [] => false
  | a :: p, b :: s => a = b && startsWithChars p s

/-- The exponent denoted by what follows the mantissa: an `ExponentPart` (`e` or `E`, an optional
sign, at least one digit) when one is there, and zero otherwise. -/
def exponentValue : List Char → Int
  | e :: rest =>
    if e = 'e' ∨ e = 'E' then
      match rest with
      | '-' :: ds => -((digitsValue (ds.takeWhile Char.isDigit) : Nat) : Int)
      | '+' :: ds => ((digitsValue (ds.takeWhile Char.isDigit) : Nat) : Int)
      | ds => ((digitsValue (ds.takeWhile Char.isDigit) : Nat) : Int)
    else 0
  | [] => 0

/-- The number denoted by the longest `StrUnsignedDecimalLiteral` that begins `cs`, `NaN` when
there is none; `negative` is the sign read before it.  The value of the numeral is rounded to the
nearest double. -/
def unsignedLiteralValue (negative : Bool) (cs : List Char) : JsNumber :=
  if startsWithChars "Infinity".toList cs then .inf negative
  else
    let intDigits := cs.takeWhile Char.isDigit
    let afterInt := cs.dropWhile Char.isDigit
    let fracDigits := match afterInt with
      | '.' :: r => r.takeWhile Char.isDigit
      | _ => []
    let afterFrac := match afterInt with
      | '.' :: r => r.dropWhile Char.isDigit
      | _ => afterInt
    if intDigits = [] ∧ fracDigits = [] then .nan
    else
      let mantissa : ℚ :=
        (digitsValue intDigits : ℚ) + (digitsValue fracDigits : ℚ) / (10 : ℚ) ^ fracDigits.length
      let magnitude : ℚ := mantissa * (10 : ℚ) ^ exponentValue afterFrac
      roundToDouble (if negative then -magnitude else magnitude)

/-- The function `parseFloat` on a string: leading white space is dropped, then the longest prefix
that is a `StrDecimalLiteral` is read; `NaN` when there is none. -/
def parseFloatString (s : String) : JsNumber :=
  match s.toList.dropWhile isJsWhiteSpace with
  | '-' :: rest => unsignedLiteralValue true rest
  | '+' :: rest => unsignedLiteralValue false rest
  | rest => unsignedLiteralValue false rest

/-- The function `parseFloat(v)`: the argument is converted to a string and parsed.  `undefined`,
`null`, booleans and `Date` objects print as text that begins with no numeral; a number prints as
a numeral that reads back as itself. -/
def parseFloat : JsValue → JsNumber
  | .undefined => .nan
  | .null => .nan
  | .bool _ => .nan
  | .number n => n
  | .string s => parseFloatString s
  | .date _ => .nan

/-! ## `Date` and `Array.prototype.sort` -/

/-- The operation `TimeClip` on a number: a time value is an integral number of milliseconds of
magnitude at most `8.64e15`; anything else gives an invalid date. -/
def timeClip : JsNumber → Option Int
  | .nan => none
  | .inf _ => none
  | .fin q =>
    if |q| ≤ 8640000000000000 then some (if 0 ≤ q then ⌊q⌋ else ⌈q⌉) else none

/-- The time value of `new Date(v)`.  `dateParse` is the host's `Date.parse`, used when `v` is a
string. -/
def newDate (dateParse : String → JsNumber) : JsValue → Option Int
  | .undefined => none
  | .null => some 0
  | .bool b => some (if b then 1 else 0)
  | .number n => timeClip n
  | .string s => timeClip (dateParse s)
  | .date t => t

/-- The number a `Date` converts to in arithmetic: its time value, `NaN` for an invalid date. -/
def dateToNumber : Option Int → JsNumber
  | none => .nan
  | some t => .fin t

/-- Whether a number is greater than zero. -/
def JsNumber.positive : JsNumber → Bool
  | .nan => false
  | .fin q => decide (0 < q)
  | .inf negative => !negative

/-- The order `Array.prototype.sort` derives from a comparison function: `a` may stay before `b`
unless `comparefn(a, b)` is positive (`NaN` counts as zero). -/
def keepsBefore {α : Type} (comparefn : α → α → JsNumber) (a b : α) : Prop :=
  (comparefn a b).positive = false

instance {α : Type} (comparefn : α → α → JsNumber) : DecidableRel (keepsBefore comparefn) :=
  fun a b => inferInstanceAs (Decidable ((comparefn a b).positive = false))

/-- The method `Array.prototype.sort(comparefn)`.  The language requires the sort to be stable;
for a consistent comparison function that fixes the result, which is the one computed here by
stable insertion.  (For an inconsistent comparison function the order is implementation-defined.) -/
def sortWith {α : Type} (comparefn : α → α → JsNumber) (xs : List α) : List α :=
  xs.insertionSort (keepsBefore comparefn)

/-! ## Rows and the `sql` handle -/

/-- A row of the `claims` table. -/
structure ClaimRow where
  id : JsValue := .null
  practice_id : JsValue := .null
  patient_id : JsValue := .null
  external_claim_id : JsValue := .null
  insurer_name : JsValue := .null
  treatment_code : JsValue := .null
  treatment_description : JsValue := .null
  submitted_amount : JsValue := .null
  expected_amount : JsValue := .null
  received_amount : JsValue := .null
  status : JsValue := .null
  submission_date : JsValue := .null
  payment_date : JsValue := .null
  notes : JsValue := .null
  created_at : JsValue := .null
deriving DecidableEq

/-- A row of the `alerts` table. -/
structure AlertRow where
  id : JsValue := .null
  practice_id : JsValue := .null
  related_claim_id : JsValue := .null
  related_patient_id : JsValue := .null
  alert_type : JsValue := .null
  message : JsValue := .null
  priority : JsValue := .null
  is_resolved : JsValue := .bool false
  details : JsValue := .null
  created_at : JsValue := .null
  updated_at : JsValue := .null
deriving DecidableEq

/-- A row of the `automation_logs` table. -/
structure AutomationLogRow where
  id : JsValue := .null
  practice_id : JsValue := .null
  automation_type : JsValue := .null
  status : JsValue := .null
  details : JsValue := .null
  created_at : JsValue := .null
deriving DecidableEq

/-- A row of the `users` table. -/
structure UserRow where
  id : JsValue := .null
  practice_id : JsValue := .null
  email : JsValue := .null
  password_hash : JsValue := .null
  role : JsValue := .null
  first_name : JsValue := .null
  last_name : JsValue := .null
  is_active : JsValue := .bool true
  created_at : JsValue := .null
deriving DecidableEq

/-- A row of the `patients` table. -/
structure PatientRow where
  id : JsValue := .null
  practice_id : JsValue := .null
  external_id : JsValue := .null
  first_name : JsValue := .null
  last_name : JsValue := .null
  email : JsValue := .null
  phone : JsValue := .null
  insurance_info : JsValue := .null
  created_at : JsValue := .null
deriving DecidableEq

/-- A row of the `practices` table. -/
structure PracticeRow where
  id : JsValue := .null
  name : JsValue := .null
  system_type : JsValue := .null
  api_credentials : JsValue := .null
  created_at : JsValue := .null
deriving DecidableEq

/-- The statements issued through the `sql` handle by the functions embedded here, each as the
promise it returns: the rows, or a rejection.  The argument of the first three is the tenant of
the `WHERE practice_id = ...` clause, `none` for the statement without that clause. -/
structure SqlHandle where
  selectClaims : Option JsValue → Except JsError (List ClaimRow)
  selectUnresolvedAlerts : Option JsValue → Except JsError (List AlertRow)
  selectAutomationLogs : Option JsValue → Except JsError (List AutomationLogRow)
  selectUserById : JsValue → Except JsError (List UserRow)

/-- The stored tables. -/
structure Database where
  claims : List ClaimRow := []
  alerts : List AlertRow := []
  automation_logs : List AutomationLogRow := []
  users : List UserRow := []
  practices : List PracticeRow := []
  patients : List PatientRow := []

/-- The SQL comparison `column = parameter` as a `WHERE` condition: it holds when neither side is
`NULL` and the two are the same value. -/
def sqlEq (column parameter : JsValue) : Bool :=
  column != .null && parameter != .null && column == parameter

/-- The `sql` handle of a database that answers every statement: each statement returns the rows
of its table that satisfy its `WHERE` clause, in stored order. -/
def Database.sql (db : Database) : SqlHandle where
  selectClaims := fun scope =>
    match scope with
    | some practiceId => .ok (db.claims.filter (fun c => sqlEq c.practice_id practiceId))
    | none => .ok db.claims
  selectUnresolvedAlerts := fun scope =>
    match scope with
    | some practiceId =>
      .ok (db.alerts.filter
        (fun a => sqlEq a.practice_id practiceId && sqlEq a.is_resolved (.bool false)))
    | none => .ok (db.alerts.filter (fun a => sqlEq a.is_resolved (.bool false)))
  selectAutomationLogs := fun scope =>
    match scope with
    | some practiceId =>
      .ok (db.automation_logs.filter (fun l => sqlEq l.practice_id practiceId))
    | none => .ok db.automation_logs
  selectUserById := fun id => .ok (db.users.filter (fun u => sqlEq u.id id))

/-! ## `DatabaseService.getDashboardStats` -/

/-- The object `getDashboardStats` returns. -/
structure DashboardStats where
  totalClaims : Nat
  totalRevenue : JsNumber
  pendingClaims : Nat
  activeAlerts : Nat
  recentClaims : List ClaimRow
deriving DecidableEq

/-- The comparison function of the `recentClaims` sort:
`(a, b) => new Date(b.submission_date) - new Date(a.submission_date)`. -/
def bySubmissionDateDesc (dateParse : String → JsNumber) (a b : ClaimRow) : JsNumber :=
  (dateToNumber (newDate dateParse b.submission_date)).sub
    (dateToNumber (newDate dateParse a.submission_date))

/-- The reduction `claims.reduce((sum, claim) => sum + (parseFloat(claim.received_amount) || 0), 0)`. -/
def totalRevenue (claims : List ClaimRow) : JsNumber :=
  claims.foldl (fun sum claim => sum + (parseFloat claim.received_amount).or 0) 0

/-- The branch `if (practiceId)` of `getDashboardStats`: the statements carry the clause
`WHERE practice_id = practiceId` when `practiceId` is truthy, and no tenant clause otherwise. -/
def tenantScope (practiceId : JsValue) : Option JsValue :=
  if practiceId.truthy then some practiceId else none

/-- The method `DatabaseService.getDashboardStats(practiceId = null)`.  The three statements are
started together and awaited with `Promise.all`; a rejection of any of them rejects the call (when
several reject, the one listed first is reported here). -/
def getDashboardStats (dateParse : String → JsNumber) (sql : SqlHandle) (practiceId : JsValue) :
    Except JsError DashboardStats := do
  let claims ← sql.selectClaims (tenantScope practiceId)
  let alerts ← sql.selectUnresolvedAlerts (tenantScope practiceId)
  let _automationLogs ← sql.selectAutomationLogs (tenantScope practiceId)
  let totalClaims := claims.length
  let totalRevenue := totalRevenue claims
  let pendingClaims := (claims.filter (fun claim => claim.status = .string "pending")).length
  let activeAlerts := alerts.length
  let recentClaims := (sortWith (bySubmissionDateDesc dateParse) claims).take 5
  return { totalClaims, totalRevenue, pendingClaims, activeAlerts, recentClaims }

/-! ## `DatabaseService.getUserById` -/

/-- The method `DatabaseService.getUserById(id)`: the first row of
`SELECT * FROM users WHERE id = ...`, or `undefined` (`none`) when there is no row. -/
def getUserById (sql : SqlHandle) (id : JsValue) : Except JsError (Option UserRow) := do
  let result ← sql.selectUserById id
  return result.head?

/-! ## The authorization gate (`src/middleware/auth.js`) -/

/-- The variables of `process.env` the gate reads (`none` when unset). -/
structure Env where
  NODE_ENV : Option String := none
  JWT_SECRET : Option String := none

/-- The object attached to the request as `req.user`. -/
structure Identity where
  id : JsValue
  email : JsValue
  role : JsValue
  practiceId : JsValue
  firstName : JsValue
  lastName : JsValue
deriving DecidableEq

/-- The parts of an incoming request the gate reads or writes: the `authorization` header
(`none` when absent) and `req.user` (`none` when not set). -/
structure Request where
  authorization : Option String := none
  user : Option Identity := none
deriving DecidableEq

/-- A response sent with `res.status(status).json(body)`. -/
structure Response where
  status : Nat
  body : Json

/-- What a middleware did: the request as it left it, the response it sent (if any), the number
of times it called `next`, and the user ids it asked the store for, in order. -/
structure MiddlewareResult where
  req : Request
  response : Option Response := none
  nextCalls : Nat := 0
  userLookups : List JsValue := []

/-- The payload `jwt.verify` returns; a field the token does not carry is `undefined`. -/
structure JwtPayload where
  userId : JsValue := .undefined
  email : JsValue := .undefined
  role : JsValue := .undefined
  practiceId : JsValue := .undefined
  iat : JsValue := .undefined
  exp : JsValue := .undefined
deriving DecidableEq

/-- The body `{ success: false, error: message }`. -/
def errorBody (message : String) : Json :=
  .object [("success", .bool false), ("error", .string message)]

/-- The call `res.status(status).json({ success: false, error: message })`. -/
def errorResponse (status : Nat) (message : String) : Response :=
  { status := status, body := errorBody message }

/-- The key passed to `jwt.verify`: `process.env.JWT_SECRET || 'your-secret-key'`. -/
def jwtSecret (env : Env) : String :=
  match env.JWT_SECRET with
  | some secret => if secret ≠ "" then secret else "your-secret-key"
  | none => "your-secret-key"

/-- The mock user of development mode. -/
def devUser : Identity :=
  { id := .string "dev-user-id"
    email := .string "dev@example.com"
    role := .string "admin"
    practiceId := .null
    firstName := .string "Development"
    lastName := .string "User" }

/-- The object built from the stored user record and assigned to `req.user`. -/
def identityOfUser (user : UserRow) : Identity :=
  { id := user.id
    email := user.email
    role := user.role
    practiceId := user.practice_id
    firstName := user.first_name
    lastName := user.last_name }

/-- The `catch` block of `authMiddleware`: the response chosen from the name of the error. -/
def authErrorResponse (error : JsError) : Response :=
  if error.name = "JsonWebTokenError" then errorResponse 401 "Invalid token"
  else if error.name = "TokenExpiredError" then errorResponse 401 "Token expired"
  else errorResponse 500 "Authentication failed"

/-- The test `authHeader.startsWith('Bearer ')`. -/
def startsWithBearer (authHeader : String) : Bool :=
  startsWithChars "Bearer ".toList authHeader.toList

/-- The expression `authHeader.substring(7)`.  It is evaluated only on headers that start with
`Bearer `, whose first seven characters are one code unit each, so dropping seven characters is
dropping seven code units. -/
def substring7 (authHeader : String) : String :=
  String.mk (authHeader.toList.drop 7)

/-- The condition of the development bypass:
`process.env.NODE_ENV === 'development' && !req.headers.authorization`. -/
def devBypassApplies (env : Env) (req : Request) : Prop :=
  env.NODE_ENV = some "development" ∧ (req.authorization = none ∨ req.authorization = some "")

instance (env : Env) (req : Request) : Decidable (devBypassApplies env req) :=
  inferInstanceAs (Decidable (_ ∧ _))

/-- The middleware `authMiddleware(req, res, next)`.  `jwtVerify token secret` is the library call
`jwt.verify(token, secret)`: the decoded payload, or the error it throws. -/
def authMiddleware (env : Env) (jwtVerify : String → String → Except JsError JwtPayload)
    (sql : SqlHandle) (req : Request) : MiddlewareResult :=
  if devBypassApplies env req then
    { req := { req with user := some devUser }, nextCalls := 1 }
  else
    match req.authorization with
    | none => { req := req, response := some (errorResponse 401 "Access token required") }
    | some authHeader =>
      if authHeader = "" ∨ startsWithBearer authHeader = false then
        { req := req, response := some (errorResponse 401 "Access token required") }
      else
        let token := substring7 authHeader
        if token = "" then
          { req := req, response := some (errorResponse 401 "Access token required") }
        else
          match jwtVerify token (jwtSecret env) with
          | .error error => { req := req, response := some (authErrorResponse error) }
          | .ok decoded =>
            match getUserById sql decoded.userId with
            | .error error =>
              { req := req, response := some (authErrorResponse error),
                userLookups := [decoded.userId] }
            | .ok none =>
              { req := req, response := some (errorResponse 401 "User not found"),
                userLookups := [decoded.userId] }
            | .ok (some user) =>
              if user.is_active.truthy = false then
                { req := req, response := some (errorResponse 401 "User account is deactivated"),
                  userLookups := [decoded.userId] }
              else
                { req := { req with user := some (identityOfUser user) }, nextCalls := 1,
                  userLookups := [decoded.userId] }

/-- The middleware `optionalAuthMiddleware(req, res, next)`. -/
def optionalAuthMiddleware (env : Env) (jwtVerify : String → String → Except JsError JwtPayload)
    (sql : SqlHandle) (req : Request) : MiddlewareResult :=
  match req.authorization with
  | none => { req := req, nextCalls := 1 }
  | some authHeader =>
    if authHeader = "" ∨ startsWithBearer authHeader = false then
      { req := req, nextCalls := 1 }
    else
      let token := substring7 authHeader
      if token = "" then
        { req := req, nextCalls := 1 }
      else
        match jwtVerify token (jwtSecret env) with
        | .error _ => { req := req, nextCalls := 1 }
        | .ok decoded =>
          match getUserById sql decoded.userId with
          | .error _ => { req := req, nextCalls := 1, userLookups := [decoded.userId] }
          | .ok none => { req := req, nextCalls := 1, userLookups := [decoded.userId] }
          | .ok (some user) =>
            if user.is_active.truthy then
              { req := { req with user := some (identityOfUser user) }, nextCalls := 1,
                userLookups := [decoded.userId] }
            else
              { req := req, nextCalls := 1, userLookups := [decoded.userId] }

/-- The test `roles.includes(role)` for an array `roles` of strings. -/
def rolesInclude (roles : List String) (role : JsValue) : Bool :=
  match role with
  | .string r => decide (r ∈ roles)
  | _ => false

/-- The middleware returned by `requireRole(roles)`. -/
def requireRole (roles : List String) (req : Request) : MiddlewareResult :=
  match req.user with
  | none => { req := req, response := some (errorResponse 401 "Authentication required") }
  | some user =>
    if rolesInclude roles user.role = false then
      { req := req, response := some (errorResponse 403 "Insufficient permissions") }
    else
      { req := req, nextCalls := 1 }

/-! ## The `sql` handle of the route handlers -/

/-- The value the driver sends to the server for a statement parameter: `undefined` is sent as
`NULL`, every other value as it is. -/
def sqlParam : JsValue → JsValue
  | .undefined => .null
  | v => v

/-- The object passed to `DatabaseService.createUser`; a key the object lacks reads as
`undefined`. -/
structure UserData where
  practice_id : JsValue := .undefined
  email : JsValue := .undefined
  password_hash : JsValue := .undefined
  role : JsValue := .undefined
  first_name : JsValue := .undefined
  last_name : JsValue := .undefined
deriving DecidableEq

/-- The object passed to `DatabaseService.updateClaim`; a key the object lacks reads as
`undefined`. -/
structure ClaimUpdate where
  insurer_name : JsValue := .undefined
  treatment_code : JsValue := .undefined
  treatment_description : JsValue := .undefined
  submitted_amount : JsValue := .undefined
  expected_amount : JsValue := .undefined
  received_amount : JsValue := .undefined
  status : JsValue := .undefined
  payment_date : JsValue := .undefined
  notes : JsValue := .undefined
deriving DecidableEq

/-- The `sql` handle as the route handlers use it: the statements of `SqlHandle` and the further
statements issued by `getUserByEmail`, `createUser`, `updateClaim` and the four `delete` methods,
each as the promise it returns.  The arguments are the statement parameters as sent to the server;
the rows of a changing statement are those of its `RETURNING *` clause. -/
structure RouteSql extends SqlHandle where
  selectUserByEmail : JsValue → Except JsError (List UserRow)
  insertIntoUsers : UserData → Except JsError (List UserRow)
  updateClaims : JsValue → ClaimUpdate → Except JsError (List ClaimRow)
  deleteFromClaims : JsValue → Except JsError (List ClaimRow)
  deleteFromPatients : JsValue → Except JsError (List PatientRow)
  deleteFromPractices : JsValue → Except JsError (List PracticeRow)
  deleteFromAlerts : JsValue → Except JsError (List AlertRow)

/-- The `SET` clause of the `UPDATE claims` statement of `updateClaim`: each of the nine columns is
assigned its parameter.  (Values are stored as sent; the conversion to the column type is not
represented.) -/
def setClaimColumns (parameters : ClaimUpdate) (claim : ClaimRow) : ClaimRow :=
  { claim with
    insurer_name := parameters.insurer_name
    treatment_code := parameters.treatment_code
    treatment_description := parameters.treatment_description
    submitted_amount := parameters.submitted_amount
    expected_amount := parameters.expected_amount
    received_amount := parameters.received_amount
    status := parameters.status
    payment_date := parameters.payment_date
    notes := parameters.notes }

/-- The rejection of a statement that would break a foreign key of the schema. -/
def foreignKeyViolation : JsError :=
  { name := "NeonDbError", message := "violates foreign key constraint" }

/-- The `sql` handle of a database for the statements of the route handlers, at the state `db`.
A `SELECT` returns the rows that satisfy its `WHERE` clause, in stored order; `UPDATE claims`
returns the rows with the given id after the `SET` clause; a `DELETE` returns the rows with the
given id, and is rejected when one of them is still referenced through a foreign key of the schema
(`REFERENCES` without `ON DELETE`).  The `INSERT` on `users`, whose result depends on values the
server generates, is the parameter `insertIntoUsers`. -/
def Database.routeSql (db : Database)
    (insertIntoUsers : UserData → Except JsError (List UserRow)) : RouteSql where
  toSqlHandle := db.sql
  selectUserByEmail := fun email => .ok (db.users.filter (fun u => sqlEq u.email email))
  insertIntoUsers := insertIntoUsers
  updateClaims := fun id parameters =>
    .ok ((db.claims.filter (fun c => sqlEq c.id id)).map (setClaimColumns parameters))
  deleteFromClaims := fun id =>
    if (db.claims.any (fun c => sqlEq c.id id))
        && db.alerts.any (fun a => sqlEq a.related_claim_id id) then
      .error foreignKeyViolation
    else .ok (db.claims.filter (fun c => sqlEq c.id id))
  deleteFromPatients := fun id =>
    if (db.patients.any (fun p => sqlEq p.id id))
        && (db.claims.any (fun c => sqlEq c.patient_id id)
          || db.alerts.any (fun a => sqlEq a.related_patient_id id)) then
      .error foreignKeyViolation
    else .ok (db.patients.filter (fun p => sqlEq p.id id))
  deleteFromPractices := fun id =>
    if (db.practices.any (fun p => sqlEq p.id id))
        && (db.patients.any (fun p => sqlEq p.practice_id id)
          || db.claims.any (fun c => sqlEq c.practice_id id)
          || db.alerts.any (fun a => sqlEq a.practice_id id)
          || db.automation_logs.any (fun l => sqlEq l.practice_id id)
          || db.users.any (fun u => sqlEq u.practice_id id)) then
      .error foreignKeyViolation
    else .ok (db.practices.filter (fun p => sqlEq p.id id))
  deleteFromAlerts := fun id => .ok (db.alerts.filter (fun a => sqlEq a.id id))

/-! ## Further methods of `DatabaseService` -/

/-- The method `DatabaseService.getUserByEmail(email)`. -/
def getUserByEmail (sql : RouteSql) (email : JsValue) : Except JsError (Option UserRow) := do
  let result ← sql.selectUserByEmail (sqlParam email)
  return result.head?

/-- The method `DatabaseService.createUser(userData)`. -/
def createUser (sql : RouteSql) (userData : UserData) : Except JsError (Option UserRow) := do
  let result ← sql.insertIntoUsers
    { practice_id := sqlParam userData.practice_id
      email := sqlParam userData.email
      password_hash := sqlParam userData.password_hash
      role := sqlParam userData.role
      first_name := sqlParam userData.first_name
      last_name := sqlParam userData.last_name }
  return result.head?

/-- The method `DatabaseService.updateClaim(id, updateData)`: every one of the nine columns is
set from the corresponding property of `updateData`. -/
def updateClaim (sql : RouteSql) (id : JsValue) (updateData : ClaimUpdate) :
    Except JsError (Option ClaimRow) := do
  let result ← sql.updateClaims (sqlParam id)
    { insurer_name := sqlParam updateData.insurer_name
      treatment_code := sqlParam updateData.treatment_code
      treatment_description := sqlParam updateData.treatment_description
      submitted_amount := sqlParam updateData.submitted_amount
      expected_amount := sqlParam updateData.expected_amount
      received_amount := sqlParam updateData.received_amount
      status := sqlParam updateData.status
      payment_date := sqlParam updateData.payment_date
      notes := sqlParam updateData.notes }
  return result.head?

/-- The method `DatabaseService.deleteClaim(id)`. -/
def deleteClaim (sql : RouteSql) (id : JsValue) : Except JsError (Option ClaimRow) := do
  let result ← sql.deleteFromClaims (sqlParam id)
  return result.head?

/-- The method `DatabaseService.deletePatient(id)`. -/
def deletePatient (sql : RouteSql) (id : JsValue) : Except JsError (Option PatientRow) := do
  let result ← sql.deleteFromPatients (sqlParam id)
  return result.head?

/-- The method `DatabaseService.deletePractice(id)`. -/
def deletePractice (sql : RouteSql) (id : JsValue) : Except JsError (Option PracticeRow) := do
  let result ← sql.deleteFromPractices (sqlParam id)
  return result.head?

/-- The method `DatabaseService.deleteAlert(id)`. -/
def deleteAlert (sql : RouteSql) (id : JsValue) : Except JsError (Option AlertRow) := do
  let result ← sql.deleteFromAlerts (sqlParam id)
  return result.head?

/-! ## Requests, responses and library calls of the route handlers -/

/-- The parts of a request the route handlers read: the `authorization` header, `req.params.id`,
`req.query.practiceId` (`none` when the query has no such parameter; a parameter given several
times, which the query parser delivers as an array, is not represented), the properties of
`req.body` after the route's sanitizers, the errors the route's validators reported
(`validationResult(req).array()`), and the further query parameters the list routes read:
`req.query.status`, `resolved`, `priority`, `type`, `limit` and `offset`. -/
structure RouteRequest where
  authorization : Option String := none
  id : String := ""
  practiceId : Option String := none
  body : List (String × JsValue) := []
  validationErrors : List Json := []
  status : Option String := none
  resolved : Option String := none
  priority : Option String := none
  type : Option String := none
  limit : Option String := none
  offset : Option String := none

/-- The property `req.body[key]`, `undefined` when the body has no such property. -/
def RouteRequest.bodyField (req : RouteRequest) (key : String) : JsValue :=
  (req.body.lookup key).getD .undefined

/-- The library functions the authentication routes call, each as the value it returns or the
error it throws: `jwt.sign(payload, secret, { expiresIn })`, `jwt.verify(token, secret)`,
`bcrypt.compare(password, hash)` and `bcrypt.hash(password, rounds)`. -/
structure AuthLibs where
  jwtSign : JwtPayload → String → String → Except JsError String
  jwtVerify : String → String → Except JsError JwtPayload
  bcryptCompare : JsValue → JsValue → Except JsError Bool
  bcryptHash : JsValue → Nat → Except JsError String

/-- The object passed to `DatabaseService.createClaim`; a key the object lacks reads as
`undefined`. -/
structure ClaimData where
  practice_id : JsValue := .undefined
  patient_id : JsValue := .undefined
  external_claim_id : JsValue := .undefined
  insurer_name : JsValue := .undefined
  treatment_code : JsValue := .undefined
  treatment_description : JsValue := .undefined
  submitted_amount : JsValue := .undefined
  expected_amount : JsValue := .undefined
  received_amount : JsValue := .undefined
  status : JsValue := .undefined
  submission_date : JsValue := .undefined
  payment_date : JsValue := .undefined
  notes : JsValue := .undefined
deriving DecidableEq

/-- A call a handler makes to `DatabaseService`, `bcrypt` or `jwt`, with its arguments. -/
inductive ServiceCall where
  | getUserByEmail (email : JsValue)
  | getUserById (id : JsValue)
  | bcryptCompare (password hash : JsValue)
  | bcryptHash (password : JsValue) (rounds : Nat)
  | jwtSign (payload : JwtPayload) (secret expiresIn : String)
  | jwtVerify (token secret : String)
  | createUser (userData : UserData)
  | updateClaim (id : JsValue) (updateData : ClaimUpdate)
  | deleteClaim (id : JsValue)
  | deletePatient (id : JsValue)
  | deletePractice (id : JsValue)
  | deleteAlert (id : JsValue)
  | getDashboardStats (practiceId : JsValue)
  | createClaim (claimData : ClaimData)
  | getClaimsByPractice (practiceId : JsValue) (limit offset : JsNumber)
  | getAllClaims (limit offset : JsNumber)
  | getPatientsByPractice (practiceId : JsValue) (limit offset : JsNumber)
  | getAllPatients (limit offset : JsNumber)
  | getAlertsByPractice (practiceId : JsValue) (limit offset : JsNumber)
  | getAllAlerts (limit offset : JsNumber)
  | getUsersByPractice (practiceId : JsValue) (limit offset : JsNumber)
  | getAllUsers (limit offset : JsNumber)
  | getAutomationLogsByPractice (practiceId : JsValue) (limit offset : JsNumber)
  | getAllAutomationLogs (limit offset : JsNumber)
deriving DecidableEq

/-- What a route handler did: the response it sent and the calls it made, in order. -/
structure HandlerResult where
  response : Response
  calls : List ServiceCall := []

/-- A JavaScript value as part of a response body. -/
def Json.ofValue : JsValue → Json
  | .undefined => .undefined
  | .null => .null
  | .bool b => .bool b
  | .number n => .number n
  | .string s => .string s
  | .date t => .date t

/-- An object with the given properties as part of a response body. -/
def Json.ofFields (fields : List (String × JsValue)) : Json :=
  .object (fields.map (fun field => (field.1, Json.ofValue field.2)))

/-- A row of `users` as the object the driver returns: one property per column. -/
def UserRow.toObject (user : UserRow) : List (String × JsValue) :=
  [("id", user.id), ("practice_id", user.practice_id), ("email", user.email),
   ("password_hash", user.password_hash), ("role", user.role),
   ("first_name", user.first_name), ("last_name", user.last_name),
   ("is_active", user.is_active), ("created_at", user.created_at)]

/-- A row of `claims` as the object the driver returns: one property per column. -/
def ClaimRow.toObject (claim : ClaimRow) : List (String × JsValue) :=
  [("id", claim.id), ("practice_id", claim.practice_id), ("patient_id", claim.patient_id),
   ("external_claim_id", claim.external_claim_id), ("insurer_name", claim.insurer_name),
   ("treatment_code", claim.treatment_code),
   ("treatment_description", claim.treatment_description),
   ("submitted_amount", claim.submitted_amount), ("expected_amount", claim.expected_amount),
   ("received_amount", claim.received_amount), ("status", claim.status),
   ("submission_date", claim.submission_date), ("payment_date", claim.payment_date),
   ("notes", claim.notes), ("created_at", claim.created_at)]

/-- The destructuring `const { password_hash, ...userWithoutPassword } = user`: the properties of
the row other than `password_hash`. -/
def userWithoutPassword (user : UserRow) : List (String × JsValue) :=
  user.toObject.filter (fun field => field.1 != "password_hash")

/-- The body `{ success: false, error: 'Invalid input data', details: errors.array() }`. -/
def invalidInputResponse (errors : List Json) : Response :=
  { status := 400
    body := .object [("success", .bool false), ("error", .string "Invalid input data"),
      ("details", .array errors)] }

/-- The body `{ success: true, data }` sent with the given status. -/
def dataResponse (status : Nat) (data : Json) : Response :=
  { status := status, body := .object [("success", .bool true), ("data", data)] }

/-! ## The authentication routes (`src/routes/auth.js`) -/

/-- The payload signed at login and at registration:
`{ userId: user.id, email: user.email, role: user.role, practiceId: user.practice_id }`. -/
def tokenPayload (user : UserRow) : JwtPayload :=
  { userId := user.id, email := user.email, role := user.role, practiceId := user.practice_id }

/-- The handler of `POST /login`. -/
def loginHandler (env : Env) (libs : AuthLibs) (sql : RouteSql) (req : RouteRequest) :
    HandlerResult :=
  if req.validationErrors.isEmpty = false then
    { response := invalidInputResponse req.validationErrors }
  else
    let email := req.bodyField "email"
    let password := req.bodyField "password"
    match getUserByEmail sql email with
    | .error _ =>
      { response := errorResponse 500 "Login failed", calls := [.getUserByEmail email] }
    | .ok none =>
      { response := errorResponse 401 "Invalid credentials", calls := [.getUserByEmail email] }
    | .ok (some user) =>
      match libs.bcryptCompare password user.password_hash with
      | .error _ =>
        { response := errorResponse 500 "Login failed",
          calls := [.getUserByEmail email, .bcryptCompare password user.password_hash] }
      | .ok false =>
        { response := errorResponse 401 "Invalid credentials",
          calls := [.getUserByEmail email, .bcryptCompare password user.password_hash] }
      | .ok true =>
        if user.is_active.truthy = false then
          { response := errorResponse 401 "Account is deactivated",
            calls := [.getUserByEmail email, .bcryptCompare password user.password_hash] }
        else
          match libs.jwtSign (tokenPayload user) (jwtSecret env) "24h" with
          | .error _ =>
            { response := errorResponse 500 "Login failed",
              calls := [.getUserByEmail email, .bcryptCompare password user.password_hash,
                .jwtSign (tokenPayload user) (jwtSecret env) "24h"] }
          | .ok token =>
            { response := dataResponse 200
                (.object [("user", Json.ofFields (userWithoutPassword user)),
                  ("token", .string token)]),
              calls := [.getUserByEmail email, .bcryptCompare password user.password_hash,
                .jwtSign (tokenPayload user) (jwtSecret env) "24h"] }

/-- The handler of `POST /register`. -/
def registerHandler (env : Env) (libs : AuthLibs) (sql : RouteSql) (req : RouteRequest) :
    HandlerResult :=
  if req.validationErrors.isEmpty = false then
    { response := invalidInputResponse req.validationErrors }
  else
    let email := req.bodyField "email"
    let password := req.bodyField "password"
    match getUserByEmail sql email with
    | .error _ =>
      { response := errorResponse 500 "Registration failed", calls := [.getUserByEmail email] }
    | .ok (some _) =>
      { response := errorResponse 400 "User with this email already exists",
        calls := [.getUserByEmail email] }
    | .ok none =>
      match libs.bcryptHash password 12 with
      | .error _ =>
        { response := errorResponse 500 "Registration failed",
          calls := [.getUserByEmail email, .bcryptHash password 12] }
      | .ok passwordHash =>
        let userData : UserData :=
          { practice_id := req.bodyField "practiceId"
            email := email
            password_hash := .string passwordHash
            role := req.bodyField "role"
            first_name := req.bodyField "firstName"
            last_name := req.bodyField "lastName" }
        match createUser sql userData with
        | .error _ =>
          { response := errorResponse 500 "Registration failed",
            calls := [.getUserByEmail email, .bcryptHash password 12, .createUser userData] }
        | .ok none =>
          { response := errorResponse 500 "Registration failed",
            calls := [.getUserByEmail email, .bcryptHash password 12, .createUser userData] }
        | .ok (some newUser) =>
          match libs.jwtSign (tokenPayload newUser) (jwtSecret env) "24h" with
          | .error _ =>
            { response := errorResponse 500 "Registration failed",
              calls := [.getUserByEmail email, .bcryptHash password 12, .createUser userData,
                .jwtSign (tokenPayload newUser) (jwtSecret env) "24h"] }
          | .ok token =>
            { response := dataResponse 201
                (.object [("user", Json.ofFields (userWithoutPassword newUser)),
                  ("token", .string token)]),
              calls := [.getUserByEmail email, .bcryptHash password 12, .createUser userData,
                .jwtSign (tokenPayload newUser) (jwtSecret env) "24h"] }

/-- The handler of `GET /verify`. -/
def verifyHandler (env : Env) (libs : AuthLibs) (sql : RouteSql) (req : RouteRequest) :
    HandlerResult :=
  match req.authorization with
  | none => { response := errorResponse 401 "Access token required" }
  | some authHeader =>
    if authHeader = "" ∨ startsWithBearer authHeader = false then
      { response := errorResponse 401 "Access token required" }
    else
      let token := substring7 authHeader
      match libs.jwtVerify token (jwtSecret env) with
      | .error _ =>
        { response := errorResponse 401 "Invalid token",
          calls := [.jwtVerify token (jwtSecret env)] }
      | .ok decoded =>
        match getUserById sql.toSqlHandle decoded.userId with
        | .error _ =>
          { response := errorResponse 401 "Invalid token",
            calls := [.jwtVerify token (jwtSecret env), .getUserById decoded.userId] }
        | .ok none =>
          { response := errorResponse 401 "Invalid token",
            calls := [.jwtVerify token (jwtSecret env), .getUserById decoded.userId] }
        | .ok (some user) =>
          if user.is_active.truthy = false then
            { response := errorResponse 401 "Invalid token",
              calls := [.jwtVerify token (jwtSecret env), .getUserById decoded.userId] }
          else
            { response := dataResponse 200
                (.object [("user", Json.ofFields (userWithoutPassword user)),
                  ("valid", .bool true)]),
              calls := [.jwtVerify token (jwtSecret env), .getUserById decoded.userId] }

/-! ## The `DELETE /:id` and `PUT /:id` handlers -/

/-- The body `{ success: true, message }` sent with status 200. -/
def messageResponse (message : String) : Response :=
  { status := 200, body := .object [("success", .bool true), ("message", .string message)] }

/-- The handler of `DELETE /api/claims/:id`. -/
def deleteClaimHandler (sql : RouteSql) (req : RouteRequest) : HandlerResult :=
  match deleteClaim sql (.string req.id) with
  | .error _ =>
    { response := errorResponse 500 "Failed to delete claim",
      calls := [.deleteClaim (.string req.id)] }
  | .ok none =>
    { response := errorResponse 404 "Claim not found", calls := [.deleteClaim (.string req.id)] }
  | .ok (some _) =>
    { response := messageResponse "Claim deleted successfully",
      calls := [.deleteClaim (.string req.id)] }

/-- The handler of `DELETE /api/patients/:id`. -/
def deletePatientHandler (sql : RouteSql) (req : RouteRequest) : HandlerResult :=
  match deletePatient sql (.string req.id) with
  | .error _ =>
    { response := errorResponse 500 "Failed to delete patient",
      calls := [.deletePatient (.string req.id)] }
  | .ok none =>
    { response := errorResponse 404 "Patient not found",
      calls := [.deletePatient (.string req.id)] }
  | .ok (some _) =>
    { response := messageResponse "Patient deleted successfully",
      calls := [.deletePatient (.string req.id)] }

/-- The handler of `DELETE /api/practices/:id`. -/
def deletePracticeHandler (sql : RouteSql) (req : RouteRequest) : HandlerResult :=
  match deletePractice sql (.string req.id) with
  | .error _ =>
    { response := errorResponse 500 "Failed to delete practice",
      calls := [.deletePractice (.string req.id)] }
  | .ok none =>
    { response := errorResponse 404 "Practice not found",
      calls := [.deletePractice (.string req.id)] }
  | .ok (some _) =>
    { response := messageResponse "Practice deleted successfully",
      calls := [.deletePractice (.string req.id)] }

/-- The handler of `DELETE /api/alerts/:id`. -/
def deleteAlertHandler (sql : RouteSql) (req : RouteRequest) : HandlerResult :=
  match deleteAlert sql (.string req.id) with
  | .error _ =>
    { response := errorResponse 500 "Failed to delete alert",
      calls := [.deleteAlert (.string req.id)] }
  | .ok none =>
    { response := errorResponse 404 "Alert not found", calls := [.deleteAlert (.string req.id)] }
  | .ok (some _) =>
    { response := messageResponse "Alert deleted successfully",
      calls := [.deleteAlert (.string req.id)] }

/-- The expression `value ? parseFloat(value) : undefined` of the claims `PUT` handler. -/
def amountOrUndefined (value : JsValue) : JsValue :=
  if value.truthy then .number (parseFloat value) else .undefined

/-- The object `updateData` the claims `PUT` handler builds from the body.  The handler then
deletes the keys whose value is `undefined`; a deleted key reads as `undefined` again, so the
object is the same in this representation. -/
def claimUpdateOfBody (req : RouteRequest) : ClaimUpdate :=
  { insurer_name := req.bodyField "insurer_name"
    treatment_code := req.bodyField "treatment_code"
    treatment_description := req.bodyField "treatment_description"
    submitted_amount := amountOrUndefined (req.bodyField "submitted_amount")
    expected_amount := amountOrUndefined (req.bodyField "expected_amount")
    received_amount := amountOrUndefined (req.bodyField "received_amount")
    status := req.bodyField "status"
    payment_date := req.bodyField "payment_date"
    notes := req.bodyField "notes" }

/-- The handler of `PUT /api/claims/:id`. -/
def putClaimHandler (sql : RouteSql) (req : RouteRequest) : HandlerResult :=
  if req.validationErrors.isEmpty = false then
    { response := invalidInputResponse req.validationErrors }
  else
    match updateClaim sql (.string req.id) (claimUpdateOfBody req) with
    | .error _ =>
      { response := errorResponse 500 "Failed to update claim",
        calls := [.updateClaim (.string req.id) (claimUpdateOfBody req)] }
    | .ok none =>
      { response := errorResponse 404 "Claim not found",
        calls := [.updateClaim (.string req.id) (claimUpdateOfBody req)] }
    | .ok (some updatedClaim) =>
      { response := dataResponse 200 (Json.ofFields updatedClaim.toObject),
        calls := [.updateClaim (.string req.id) (claimUpdateOfBody req)] }

/-! ## The dashboard route (`src/routes/dashboard.js`) -/

/-- The argument the route passes to `getDashboardStats`:
`practiceId === 'null' ? null : practiceId`, where an absent query parameter is `undefined` and
takes the default `null` of the parameter. -/
def dashboardPracticeId (practiceId : Option String) : JsValue :=
  match practiceId with
  | none => .null
  | some value => if value = "null" then .null else .string value

/-- The statistics as the `data` of the response. -/
def DashboardStats.toJson (stats : DashboardStats) : Json :=
  .object [("totalClaims", .number (.fin stats.totalClaims)),
    ("totalRevenue", .number stats.totalRevenue),
    ("pendingClaims", .number (.fin stats.pendingClaims)),
    ("activeAlerts", .number (.fin stats.activeAlerts)),
    ("recentClaims", .array (stats.recentClaims.map (fun claim => Json.ofFields claim.toObject)))]

/-- The handler of `GET /api/dashboard/stats`. -/
def dashboardStatsHandler (dateParse : String → JsNumber) (sql : SqlHandle)
    (req : RouteRequest) : HandlerResult :=
  match getDashboardStats dateParse sql (dashboardPracticeId req.practiceId) with
  | .ok stats =>
    { response := dataResponse 200 stats.toJson,
      calls := [.getDashboardStats (dashboardPracticeId req.practiceId)] }
  | .error _ =>
    { response := errorResponse 500 "Failed to fetch dashboard stats",
      calls := [.getDashboardStats (dashboardPracticeId req.practiceId)] }

/-! ## The routers mounted under `/api` (`src/server.js`) -/

/-- The routers `server.js` mounts under `/api`. -/
inductive ApiRouter where
  | claims
  | patients
  | alerts
  | practices
  | users
  | automation
  | dashboard
deriving DecidableEq

/-- The middleware a router installs with `router.use(...)` ahead of its routes: the alerts router
installs `authMiddleware`, the other routers install none.  (The middleware `server.js` installs on
the application ahead of the routers, for logging, security headers, CORS, rate limiting and body
parsing, does not read the credential and is not represented.) -/
def ApiRouter.middleware (router : ApiRouter) (env : Env)
    (jwtVerify : String → String → Except JsError JwtPayload) (sql : SqlHandle) :
    List (Request → MiddlewareResult) :=
  match router with
  | .alerts => [authMiddleware env jwtVerify sql]
  | _ => []

/-- Running the middleware ahead of a route: each middleware that calls `next` hands the request on
to the following one, and the route's handler is reached when all of them did. -/
def handlerReached : List (Request → MiddlewareResult) → Request → Bool
  | [], _ => true
  | middleware :: rest, req =>
    decide ((middleware req).nextCalls ≠ 0) && handlerReached rest (middleware req).req

/-- The response sent by the middleware ahead of a route, if one of them answers the request. -/
def gateResponse : List (Request → MiddlewareResult) → Request → Option Response
  | [], _ => none
  | middleware :: rest, req =>
    if (middleware req).nextCalls ≠ 0 then gateResponse rest (middleware req).req
    else (middleware req).response

/-! ## The Session Authority -/

/-- Modelled from the spec: a credential of the Session Authority (§4.1; in the repository the
`jsonwebtoken` library, whose code is not among the sources): the encoded claims and the signature
over them. -/
structure Credential where
  payload : JwtPayload
  signature : String
deriving DecidableEq

/-- Modelled from the spec: the lifetime of a credential (§4.1, `expiry = issued + 24h`), in
seconds. -/
def credentialLifetime : Nat :=
  24 * 60 * 60

/-- Modelled from the spec: `issue` of the Session Authority (§4.1), which "encodes {subject
identity, role, tenant id, issued time, expiry = issued + 24h} and signs it with a process-wide
secret key".  `mac secret payload` is the signature of the encoded claims under the key and `now`
the time of issue, in seconds. -/
def issue (mac : String → JwtPayload → String) (secret : String) (now : Nat)
    (payload : JwtPayload) : Credential :=
  { payload :=
      { payload with iat := .number (.fin now), exp := .number (.fin (now + credentialLifetime)) }
    signature :=
      mac secret
        { payload with
          iat := .number (.fin now), exp := .number (.fin (now + credentialLifetime)) } }

/-- Modelled from the spec: `verify` of the Session Authority (§4.1), which "checks signature
validity and expiry. Fails with `InvalidSignature` when the signature does not match, `Expired`
when current time exceeds the encoded expiry."  The two failures carry the error names
`authMiddleware` tests for. -/
def verify (mac : String → JwtPayload → String) (secret : String) (now : Nat)
    (credential : Credential) : Except JsError JwtPayload :=
  if credential.signature ≠ mac secret credential.payload then
    .error { name := "JsonWebTokenError", message := "invalid signature" }
  else
    match credential.payload.exp with
    | .number (.fin expiry) =>
      if expiry < (now : ℚ) then .error { name := "TokenExpiredError", message := "jwt expired" }
      else .ok credential.payload
    | _ => .ok credential.payload

/-- Modelled from the spec: the call `jwt.sign(payload, secret, { expiresIn: '24h' })` as `issue`
at the time `now`, the credential written as text by `encode`.  The lifetime `24h` is the only one
the repository asks for. -/
def sessionSign (mac : String → JwtPayload → String) (encode : Credential → String) (now : Nat) :
    JwtPayload → String → String → Except JsError String :=
  fun payload secret expiresIn =>
    if expiresIn = "24h" then .ok (encode (issue mac secret now payload))
    else .error { name := "Error", message := "unsupported lifetime" }

/-- Modelled from the spec: the call `jwt.verify(token, secret)` as `verify` at the time `now`, the
credential read from the text by `decode`; text that is no credential fails verification. -/
def sessionVerify (mac : String → JwtPayload → String) (decode : String → Option Credential)
    (now : Nat) : String → String → Except JsError JwtPayload :=
  fun token secret =>
    match decode token with
    | none => .error { name := "JsonWebTokenError", message := "jwt malformed" }
    | some credential => verify mac secret now credential

/-! ## The route table (`src/server.js`) -/

/-- A router module of `src/routes/`: one of the seven `server.js` imports, or `auth.js`. -/
inductive RouteModule where
  | api (router : ApiRouter)
  | auth
deriving DecidableEq

/-- A route registered on a router: the method it was registered for and the segments of its
path, a segment that starts with `:` being a parameter. -/
structure Route where
  method : String
  path : List String
deriving DecidableEq

/-- The routes each module registers with `router.get`, `router.post`, `router.put` and
`router.delete`, in order. -/
def RouteModule.routes : RouteModule → List Route
  | .api .claims =>
    [⟨"GET", []⟩, ⟨"POST", []⟩, ⟨"GET", [":id"]⟩, ⟨"PUT", [":id"]⟩, ⟨"DELETE", [":id"]⟩]
  | .api .patients =>
    [⟨"GET", []⟩, ⟨"POST", []⟩, ⟨"GET", [":id"]⟩, ⟨"PUT", [":id"]⟩, ⟨"DELETE", [":id"]⟩]
  | .api .alerts =>
    [⟨"GET", []⟩, ⟨"POST", []⟩, ⟨"GET", [":id"]⟩, ⟨"PUT", [":id"]⟩, ⟨"DELETE", [":id"]⟩]
  | .api .practices =>
    [⟨"GET", []⟩, ⟨"POST", []⟩, ⟨"GET", [":id"]⟩, ⟨"PUT", [":id"]⟩, ⟨"DELETE", [":id"]⟩]
  | .api .users => [⟨"GET", []⟩, ⟨"POST", []⟩]
  | .api .automation => [⟨"GET", []⟩, ⟨"POST", []⟩]
  | .api .dashboard => [⟨"GET", ["stats"]⟩]
  | .auth => [⟨"POST", ["login"]⟩, ⟨"POST", ["register"]⟩, ⟨"GET", ["verify"]⟩]

/-- What answers a request that got past the application's middleware: the health check, the
test endpoint, a route of a router module, or the `*` handler that sends 404. -/
inductive Endpoint where
  | health
  | apiTest
  | handler (source : RouteModule) (route : Route)
  | notFound
deriving DecidableEq

/-- Whether a segment of a route's path matches a segment of the request path: a parameter
matches every segment, another segment matches itself. -/
def segmentMatches (pattern segment : String) : Bool :=
  pattern.data.head? == some ':' || pattern == segment

/-- Whether a route's path matches the whole of a request path. -/
def pathMatches : List String → List String → Bool
  | [], [] => true
  | pattern :: patterns, segment :: segments =>
    segmentMatches pattern segment && pathMatches patterns segments
  | _, _ => false

/-- Whether a route registered for `routeMethod` handles a request of the given method: its own
method, and `HEAD` where it was registered for `GET`. -/
def methodMatches (routeMethod method : String) : Bool :=
  routeMethod == method || (method == "HEAD" && routeMethod == "GET")

/-- Whether a route handles a request. -/
def Route.handles (route : Route) (method : String) (path : List String) : Bool :=
  methodMatches route.method method && pathMatches route.path path

/-- The mounts `app.use('/api/...', router)` of `server.js`, in order: the segments of the mount
path and the router. -/
def mounts : List (List String × ApiRouter) :=
  [(["api", "claims"], .claims), (["api", "patients"], .patients), (["api", "alerts"], .alerts),
   (["api", "practices"], .practices), (["api", "users"], .users),
   (["api", "automation"], .automation), (["api", "dashboard"], .dashboard)]

/-- The rest of a request path below a mount path, when the request path begins with it. -/
def stripMount : List String → List String → Option (List String)
  | [], path => some path
  | _ :: _, [] => none
  | mountSegment :: mountPath, segment :: path =>
    if mountSegment == segment then stripMount mountPath path else none

/-- The mounts tried in order: a router whose mount path begins the request path answers with its
first route that handles the request, and hands on to the next mount when it has none; after the
last mount the `*` handler answers. -/
def dispatchMounts (method : String) (path : List String) :
    List (List String × ApiRouter) → Endpoint
  | [] => .notFound
  | (mountPath, router) :: rest =>
    match stripMount mountPath path with
    | some inner =>
      match (RouteModule.api router).routes.find? (fun route => route.handles method inner) with
      | some route => .handler (.api router) route
      | none => dispatchMounts method path rest
    | none => dispatchMounts method path rest

/-- The route table of `server.js`: `GET /health`, `GET /api/test`, the seven mounts, then the
`*` handler.  The request is given by its method and the segments of its path, in lower case as
the case-insensitive matching compares them.  (The middleware installed ahead of the table, and
the gate the alerts router installs ahead of its routes, are not represented: the result is the
handler that answers when they all call `next`.) -/
def dispatch (method : String) (path : List String) : Endpoint :=
  if methodMatches "GET" method && path == ["health"] then .health
  else if methodMatches "GET" method && path == ["api", "test"] then .apiTest
  else dispatchMounts method path mounts

/-! ## Validation chains (`express-validator`) -/

/-- The functions of `express-validator` the routes use, each on the value of a body field: the
text the library validates (`toText`), the checks `isUUID()`, `isEmail()`, `isFloat({ min })` and
`isLength({ min })`, the sanitizer `normalizeEmail()`, and the entry of `errors.array()` reported
for a field and its value. -/
structure ValidatorLib where
  toText : JsValue → String
  isUUID : JsValue → Bool
  isEmail : JsValue → Bool
  isFloatMin : Nat → JsValue → Bool
  isLengthMin : Nat → JsValue → Bool
  normalizeEmail : JsValue → JsValue
  errorOf : String → JsValue → Json

/-- The check `isIn(values)`: the text of the value is one of `values`. -/
def isIn (lib : ValidatorLib) (values : List String) (value : JsValue) : Bool :=
  values.contains (lib.toText value)

/-- A chain `body(field)` of a route: whether it begins with `.optional()`, its validator and its
sanitizer. -/
structure FieldChain where
  field : String
  optional : Bool := false
  validator : JsValue → Bool
  sanitizer : JsValue → JsValue := id

/-- Whether a body passes a chain: an optional chain passes when the field is `undefined`, every
chain passes when the validator accepts the field's value. -/
def FieldChain.passes (chain : FieldChain) (body : List (String × JsValue)) : Bool :=
  (chain.optional && (body.lookup chain.field).getD .undefined == .undefined)
    || chain.validator ((body.lookup chain.field).getD .undefined)

/-- The array `validationResult(req).array()` after the chains ran: one entry for each chain the
body does not pass, in order. -/
def validationErrorsOf (lib : ValidatorLib) (chains : List FieldChain)
    (body : List (String × JsValue)) : List Json :=
  (chains.filter (fun chain => !chain.passes body)).map
    (fun chain => lib.errorOf chain.field ((body.lookup chain.field).getD .undefined))

/-- The body after the sanitizers of the chains ran on its fields.  (A sanitizer of a field the
body lacks is not represented: such a body does not pass the chain, and the handler answers 400
without reading the body.) -/
def sanitizeBody (chains : List FieldChain) (body : List (String × JsValue)) :
    List (String × JsValue) :=
  body.map (fun entry =>
    (entry.1,
      (chains.filter (fun chain => chain.field == entry.1)).foldl
        (fun value chain => chain.sanitizer value) entry.2))

/-- The request as the handler receives it from the chains of its route. -/
def runValidators (lib : ValidatorLib) (chains : List FieldChain) (req : RouteRequest) :
    RouteRequest :=
  { req with
    body := sanitizeBody chains req.body
    validationErrors := validationErrorsOf lib chains req.body }

/-! ## The claims routes `POST /` and `PUT /:id` (`src/routes/claims.js`) -/

/-- The chains of `POST /api/claims`. -/
def claimsPostChains (lib : ValidatorLib) : List FieldChain :=
  [{ field := "practice_id", validator := lib.isUUID },
   { field := "patient_id", validator := lib.isUUID },
   { field := "insurer_name", validator := lib.isLengthMin 1 },
   { field := "treatment_description", validator := lib.isLengthMin 1 },
   { field := "submitted_amount", validator := lib.isFloatMin 0 }]

/-- The chains of `PUT /api/claims/:id`. -/
def claimsPutChains (lib : ValidatorLib) : List FieldChain :=
  [{ field := "insurer_name", optional := true, validator := lib.isLengthMin 1 },
   { field := "treatment_description", optional := true, validator := lib.isLengthMin 1 },
   { field := "submitted_amount", optional := true, validator := lib.isFloatMin 0 },
   { field := "expected_amount", optional := true, validator := lib.isFloatMin 0 },
   { field := "received_amount", optional := true, validator := lib.isFloatMin 0 },
   { field := "status", optional := true,
     validator := isIn lib ["pending", "paid", "underpaid", "unpaid", "rejected"] }]

/-- The expression `x || y` for values `x`, `y`. -/
def JsValue.or (x y : JsValue) : JsValue :=
  if x.truthy then x else y

/-- The expression `value ? parseFloat(value) : null` of the claims `POST` handler. -/
def amountOrNull (value : JsValue) : JsValue :=
  if value.truthy then .number (parseFloat value) else .null

/-- The object `claimData` the claims `POST` handler builds from the body; `nowIso` is the text
`new Date().toISOString()` at the time of the request. -/
def claimDataOfBody (nowIso : String) (req : RouteRequest) : ClaimData :=
  { practice_id := req.bodyField "practice_id"
    patient_id := req.bodyField "patient_id"
    external_claim_id := (req.bodyField "external_claim_id").or .null
    insurer_name := req.bodyField "insurer_name"
    treatment_code := (req.bodyField "treatment_code").or .null
    treatment_description := req.bodyField "treatment_description"
    submitted_amount := .number (parseFloat (req.bodyField "submitted_amount"))
    expected_amount := amountOrNull (req.bodyField "expected_amount")
    received_amount := amountOrNull (req.bodyField "received_amount")
    status := (req.bodyField "status").or (.string "pending")
    submission_date := (req.bodyField "submission_date").or (.string nowIso)
    payment_date := (req.bodyField "payment_date").or .null
    notes := (req.bodyField "notes").or .null }

/-- A row of `claims` with the columns the list statement joins to it: the patient's names and the
practice's name. -/
structure ClaimListRow where
  claim : ClaimRow
  first_name : JsValue := .null
  last_name : JsValue := .null
  practice_name : JsValue := .null
deriving DecidableEq

/-- A row of `alerts` with the columns the list statement joins to it. -/
structure AlertListRow where
  alert : AlertRow
  first_name : JsValue := .null
  last_name : JsValue := .null
  practice_name : JsValue := .null
deriving DecidableEq

/-- A row of `users` with the column the list statement joins to it. -/
structure UserListRow where
  user : UserRow
  practice_name : JsValue := .null
deriving DecidableEq

/-- A row of `automation_logs` with the column the list statement joins to it. -/
structure AutomationLogListRow where
  log : AutomationLogRow
  practice_name : JsValue := .null
deriving DecidableEq

/-- The `sql` handle with the further statements of `createClaim` and of the list methods.  The
first argument of a list statement is the tenant of its `WHERE practice_id = ...` clause, `none`
for the statement without that clause; the other two are the parameters of `LIMIT` and
`OFFSET`. -/
structure ApiSql extends RouteSql where
  insertIntoClaims : ClaimData → Except JsError (List ClaimRow)
  selectClaimsPage : Option JsValue → JsNumber → JsNumber → Except JsError (List ClaimListRow)
  selectPatientsPage : Option JsValue → JsNumber → JsNumber → Except JsError (List PatientRow)
  selectAlertsPage : Option JsValue → JsNumber → JsNumber → Except JsError (List AlertListRow)
  selectUsersPage : Option JsValue → JsNumber → JsNumber → Except JsError (List UserListRow)
  selectAutomationLogsPage :
    Option JsValue → JsNumber → JsNumber → Except JsError (List AutomationLogListRow)

/-- The method `DatabaseService.createClaim(claimData)`. -/
def createClaim (sql : ApiSql) (claimData : ClaimData) : Except JsError (Option ClaimRow) := do
  let result ← sql.insertIntoClaims
    { practice_id := sqlParam claimData.practice_id
      patient_id := sqlParam claimData.patient_id
      external_claim_id := sqlParam claimData.external_claim_id
      insurer_name := sqlParam claimData.insurer_name
      treatment_code := sqlParam claimData.treatment_code
      treatment_description := sqlParam claimData.treatment_description
      submitted_amount := sqlParam claimData.submitted_amount
      expected_amount := sqlParam claimData.expected_amount
      received_amount := sqlParam claimData.received_amount
      status := sqlParam claimData.status
      submission_date := sqlParam claimData.submission_date
      payment_date := sqlParam claimData.payment_date
      notes := sqlParam claimData.notes }
  return result.head?

/-- The handler of `POST /api/claims`. -/
def postClaimHandler (nowIso : String) (sql : ApiSql) (req : RouteRequest) : HandlerResult :=
  if req.validationErrors.isEmpty = false then
    { response := invalidInputResponse req.validationErrors }
  else
    match createClaim sql (claimDataOfBody nowIso req) with
    | .error _ =>
      { response := errorResponse 500 "Failed to create claim",
        calls := [.createClaim (claimDataOfBody nowIso req)] }
    | .ok none =>
      { response := dataResponse 201 .undefined,
        calls := [.createClaim (claimDataOfBody nowIso req)] }
    | .ok (some newClaim) =>
      { response := dataResponse 201 (Json.ofFields newClaim.toObject),
        calls := [.createClaim (claimDataOfBody nowIso req)] }

/-- The route `POST /api/claims`: its chains, then its handler. -/
def postClaimRoute (lib : ValidatorLib) (nowIso : String) (sql : ApiSql) (req : RouteRequest) :
    HandlerResult :=
  postClaimHandler nowIso sql (runValidators lib (claimsPostChains lib) req)

/-- The route `PUT /api/claims/:id`: its chains, then its handler. -/
def putClaimRoute (lib : ValidatorLib) (sql : RouteSql) (req : RouteRequest) : HandlerResult :=
  putClaimHandler sql (runValidators lib (claimsPutChains lib) req)

/-! ## The users route `POST /` (`src/routes/users.js`) -/

/-- The chains of `POST /api/users`. -/
def usersPostChains (lib : ValidatorLib) : List FieldChain :=
  [{ field := "practice_id", validator := lib.isUUID },
   { field := "email", validator := lib.isEmail, sanitizer := lib.normalizeEmail },
   { field := "password", validator := lib.isLengthMin 6 },
   { field := "role", validator := isIn lib ["admin", "staff", "billing"] },
   { field := "first_name", validator := lib.isLengthMin 1 },
   { field := "last_name", validator := lib.isLengthMin 1 }]

/-- The handler of `POST /api/users`; `bcryptHash` is `bcrypt.hash` of the module the handler
imports. -/
def postUserHandler (bcryptHash : JsValue → Nat → Except JsError String) (sql : RouteSql)
    (req : RouteRequest) : HandlerResult :=
  if req.validationErrors.isEmpty = false then
    { response := invalidInputResponse req.validationErrors }
  else
    let email := req.bodyField "email"
    let password := req.bodyField "password"
    match getUserByEmail sql email with
    | .error _ =>
      { response := errorResponse 500 "Failed to create user", calls := [.getUserByEmail email] }
    | .ok (some _) =>
      { response := errorResponse 400 "User with this email already exists",
        calls := [.getUserByEmail email] }
    | .ok none =>
      match bcryptHash password 12 with
      | .error _ =>
        { response := errorResponse 500 "Failed to create user",
          calls := [.getUserByEmail email, .bcryptHash password 12] }
      | .ok passwordHash =>
        let userData : UserData :=
          { practice_id := req.bodyField "practiceId"
            email := email
            password_hash := .string passwordHash
            role := req.bodyField "role"
            first_name := req.bodyField "firstName"
            last_name := req.bodyField "lastName" }
        match createUser sql userData with
        | .error _ =>
          { response := errorResponse 500 "Failed to create user",
            calls := [.getUserByEmail email, .bcryptHash password 12, .createUser userData] }
        | .ok none =>
          { response := errorResponse 500 "Failed to create user",
            calls := [.getUserByEmail email, .bcryptHash password 12, .createUser userData] }
        | .ok (some newUser) =>
          { response := dataResponse 201 (Json.ofFields (userWithoutPassword newUser)),
            calls := [.getUserByEmail email, .bcryptHash password 12, .createUser userData] }

/-- The route `POST /api/users`: its chains, then its handler. -/
def postUserRoute (lib : ValidatorLib) (bcryptHash : JsValue → Nat → Except JsError String)
    (sql : RouteSql) (req : RouteRequest) : HandlerResult :=
  postUserHandler bcryptHash sql (runValidators lib (usersPostChains lib) req)

/-! ## The list routes `GET /` -/

/-- The value of a hexadecimal digit. -/
def hexDigitValue (c : Char) : Option Nat :=
  if 48 ≤ c.toNat ∧ c.toNat ≤ 57 then some (c.toNat - 48)
  else if 97 ≤ c.toNat ∧ c.toNat ≤ 102 then some (c.toNat - 87)
  else if 65 ≤ c.toNat ∧ c.toNat ≤ 70 then some (c.toNat - 55)
  else none

/-- Whether a character is a digit of the given radix. -/
def isRadixDigit (radix : Nat) (c : Char) : Bool :=
  match hexDigitValue c with
  | some d => decide (d < radix)
  | none => false

/-- The number denoted by the longest run of digits of the radix that begins `cs`, `NaN` when
there is none. -/
def radixDigitsValue (radix : Nat) (cs : List Char) : JsNumber :=
  if (cs.takeWhile (isRadixDigit radix)).isEmpty then .nan
  else
    .fin (((cs.takeWhile (isRadixDigit radix)).foldl
      (fun acc c => radix * acc + (hexDigitValue c).getD 0) 0 : Nat) : ℚ)

/-- The numeral `parseInt` reads after the sign: hexadecimal after `0x` or `0X`, decimal
otherwise. -/
def unsignedIntValue (cs : List Char) : JsNumber :=
  if startsWithChars ['0', 'x'] cs || startsWithChars ['0', 'X'] cs then
    radixDigitsValue 16 (cs.drop 2)
  else radixDigitsValue 10 cs

/-- The function `parseInt` on a string, with no radix given: leading white space is dropped, a
sign is read, then the longest run of digits; `NaN` when there is none. -/
def parseIntString (s : String) : JsNumber :=
  match s.toList.dropWhile isJsWhiteSpace with
  | '-' :: rest => JsNumber.sub 0 (unsignedIntValue rest)
  | '+' :: rest => unsignedIntValue rest
  | rest => unsignedIntValue rest

/-- The expression `parseInt(limit)` of a list route, where `limit` is the query parameter or,
when the query has none, the default given in the destructuring (a number, which prints as its
decimal digits and parses back to itself). -/
def parseIntQuery (default : Nat) : Option String → JsNumber
  | none => .fin default
  | some value => parseIntString value

/-- The test `practiceId && practiceId !== 'null'` of the list routes on the query parameter. -/
def practiceIdGiven : Option String → Bool
  | none => false
  | some value => value != "" && value != "null"

/-- A query parameter as a value: the string given, `undefined` when the query has none. -/
def queryValue : Option String → JsValue
  | none => .undefined
  | some value => .string value

/-- The test `!practiceId || practiceId === 'null'` of the `get...ByPractice` methods. -/
def noPracticeFilter (practiceId : JsValue) : Bool :=
  !practiceId.truthy || practiceId == .string "null"

/-- The method `DatabaseService.getClaimsByPractice(practiceId, limit, offset)`. -/
def getClaimsByPractice (sql : ApiSql) (practiceId : JsValue) (limit offset : JsNumber) :
    Except JsError (List ClaimListRow) :=
  if noPracticeFilter practiceId then sql.selectClaimsPage none limit offset
  else sql.selectClaimsPage (some (sqlParam practiceId)) limit offset

/-- The method `DatabaseService.getAllClaims(limit, offset)`. -/
def getAllClaims (sql : ApiSql) (limit offset : JsNumber) : Except JsError (List ClaimListRow) :=
  sql.selectClaimsPage none limit offset

/-- The method `DatabaseService.getPatientsByPractice(practiceId, limit, offset)`. -/
def getPatientsByPractice (sql : ApiSql) (practiceId : JsValue) (limit offset : JsNumber) :
    Except JsError (List PatientRow) :=
  if noPracticeFilter practiceId then sql.selectPatientsPage none limit offset
  else sql.selectPatientsPage (some (sqlParam practiceId)) limit offset

/-- The method `DatabaseService.getAllPatients(limit, offset)`. -/
def getAllPatients (sql : ApiSql) (limit offset : JsNumber) : Except JsError (List PatientRow) :=
  sql.selectPatientsPage none limit offset

/-- The method `DatabaseService.getAlertsByPractice(practiceId, limit, offset)`. -/
def getAlertsByPractice (sql : ApiSql) (practiceId : JsValue) (limit offset : JsNumber) :
    Except JsError (List AlertListRow) :=
  if noPracticeFilter practiceId then sql.selectAlertsPage none limit offset
  else sql.selectAlertsPage (some (sqlParam practiceId)) limit offset

/-- The method `DatabaseService.getAllAlerts(limit, offset)`. -/
def getAllAlerts (sql : ApiSql) (limit offset : JsNumber) : Except JsError (List AlertListRow) :=
  sql.selectAlertsPage none limit offset

/-- The method `DatabaseService.getUsersByPractice(practiceId, limit, offset)`. -/
def getUsersByPractice (sql : ApiSql) (practiceId : JsValue) (limit offset : JsNumber) :
    Except JsError (List UserListRow) :=
  if noPracticeFilter practiceId then sql.selectUsersPage none limit offset
  else sql.selectUsersPage (some (sqlParam practiceId)) limit offset

/-- The method `DatabaseService.getAllUsers(limit, offset)`. -/
def getAllUsers (sql : ApiSql) (limit offset : JsNumber) : Except JsError (List UserListRow) :=
  sql.selectUsersPage none limit offset

/-- The method `DatabaseService.getAutomationLogsByPractice(practiceId, limit, offset)`. -/
def getAutomationLogsByPractice (sql : ApiSql) (practiceId : JsValue)
    (limit offset : JsNumber) : Except JsError (List AutomationLogListRow) :=
  if noPracticeFilter practiceId then sql.selectAutomationLogsPage none limit offset
  else sql.selectAutomationLogsPage (some (sqlParam practiceId)) limit offset

/-- The method `DatabaseService.getAllAutomationLogs(limit, offset)`. -/
def getAllAutomationLogs (sql : ApiSql) (limit offset : JsNumber) :
    Except JsError (List AutomationLogListRow) :=
  sql.selectAutomationLogsPage none limit offset

/-- A row of `patients` as the object the driver returns. -/
def PatientRow.toObject (patient : PatientRow) : List (String × JsValue) :=
  [("id", patient.id), ("practice_id", patient.practice_id),
   ("external_id", patient.external_id), ("first_name", patient.first_name),
   ("last_name", patient.last_name), ("email", patient.email), ("phone", patient.phone),
   ("insurance_info", patient.insurance_info), ("created_at", patient.created_at)]

/-- A row of `alerts` as the object the driver returns. -/
def AlertRow.toObject (alert : AlertRow) : List (String × JsValue) :=
  [("id", alert.id), ("practice_id", alert.practice_id),
   ("related_claim_id", alert.related_claim_id),
   ("related_patient_id", alert.related_patient_id), ("alert_type", alert.alert_type),
   ("message", alert.message), ("priority", alert.priority),
   ("is_resolved", alert.is_resolved), ("details", alert.details),
   ("created_at", alert.created_at), ("updated_at", alert.updated_at)]

/-- A row of `automation_logs` as the object the driver returns. -/
def AutomationLogRow.toObject (log : AutomationLogRow) : List (String × JsValue) :=
  [("id", log.id), ("practice_id", log.practice_id),
   ("automation_type", log.automation_type), ("status", log.status),
   ("details", log.details), ("created_at", log.created_at)]

/-- A row of the claims list statement as the object the driver returns. -/
def ClaimListRow.toObject (row : ClaimListRow) : List (String × JsValue) :=
  row.claim.toObject
    ++ [("first_name", row.first_name), ("last_name", row.last_name),
      ("practice_name", row.practice_name)]

/-- A row of the alerts list statement as the object the driver returns. -/
def AlertListRow.toObject (row : AlertListRow) : List (String × JsValue) :=
  row.alert.toObject
    ++ [("first_name", row.first_name), ("last_name", row.last_name),
      ("practice_name", row.practice_name)]

/-- A row of the users list statement as the object the driver returns. -/
def UserListRow.toObject (row : UserListRow) : List (String × JsValue) :=
  row.user.toObject ++ [("practice_name", row.practice_name)]

/-- A row of the automation logs list statement as the object the driver returns. -/
def AutomationLogListRow.toObject (row : AutomationLogListRow) : List (String × JsValue) :=
  row.log.toObject ++ [("practice_name", row.practice_name)]

/-- The body `{ success: true, data, count: data.length }` sent with status 200. -/
def listResponse (data : List Json) : Response :=
  { status := 200
    body := .object [("success", .bool true), ("data", .array data),
      ("count", .number (.fin data.length))] }

/-- What `GET /api/claims` sends for the outcome of its fetch: the rows, filtered by `status`
when the query has a non-empty one, or 500 when the fetch failed. -/
def claimsListResponse (req : RouteRequest) :
    Except JsError (List ClaimListRow) → Response
  | .error _ => errorResponse 500 "Failed to fetch claims"
  | .ok claims =>
    listResponse
      ((if (queryValue req.status).truthy then
          claims.filter (fun row => row.claim.status == queryValue req.status)
        else claims).map (fun row => Json.ofFields row.toObject))

/-- The handler of `GET /api/claims`. -/
def getClaimsHandler (sql : ApiSql) (req : RouteRequest) : HandlerResult :=
  if practiceIdGiven req.practiceId then
    { response := claimsListResponse req
        (getClaimsByPractice sql (queryValue req.practiceId)
          (parseIntQuery 50 req.limit) (parseIntQuery 0 req.offset)),
      calls := [.getClaimsByPractice (queryValue req.practiceId)
        (parseIntQuery 50 req.limit) (parseIntQuery 0 req.offset)] }
  else
    { response := claimsListResponse req
        (getAllClaims sql (parseIntQuery 50 req.limit) (parseIntQuery 0 req.offset)),
      calls := [.getAllClaims (parseIntQuery 50 req.limit) (parseIntQuery 0 req.offset)] }

/-- What `GET /api/patients` sends for the outcome of its fetch. -/
def patientsListResponse : Except JsError (List PatientRow) → Response
  | .error _ => errorResponse 500 "Failed to fetch patients"
  | .ok patients => listResponse (patients.map (fun row => Json.ofFields row.toObject))

/-- The handler of `GET /api/patients`. -/
def getPatientsHandler (sql : ApiSql) (req : RouteRequest) : HandlerResult :=
  if practiceIdGiven req.practiceId then
    { response := patientsListResponse
        (getPatientsByPractice sql (queryValue req.practiceId)
          (parseIntQuery 50 req.limit) (parseIntQuery 0 req.offset)),
      calls := [.getPatientsByPractice (queryValue req.practiceId)
        (parseIntQuery 50 req.limit) (parseIntQuery 0 req.offset)] }
  else
    { response := patientsListResponse
        (getAllPatients sql (parseIntQuery 50 req.limit) (parseIntQuery 0 req.offset)),
      calls := [.getAllPatients (parseIntQuery 50 req.limit) (parseIntQuery 0 req.offset)] }

/-- The alerts kept by the filter on `resolved`, applied when the query has the parameter:
those whose `is_resolved` is the boolean `resolved === 'true'`. -/
def filterResolved (resolved : Option String) (alerts : List AlertListRow) :
    List AlertListRow :=
  match resolved with
  | none => alerts
  | some value => alerts.filter (fun row => row.alert.is_resolved == .bool (value == "true"))

/-- What `GET /api/alerts` sends for the outcome of its fetch: the rows, filtered by `resolved`
and by `priority`, or 500 when the fetch failed. -/
def alertsListResponse (req : RouteRequest) :
    Except JsError (List AlertListRow) → Response
  | .error _ => errorResponse 500 "Failed to fetch alerts"
  | .ok alerts =>
    listResponse
      ((if (queryValue req.priority).truthy then
          (filterResolved req.resolved alerts).filter
            (fun row => row.alert.priority == queryValue req.priority)
        else filterResolved req.resolved alerts).map (fun row => Json.ofFields row.toObject))

/-- The handler of `GET /api/alerts`. -/
def getAlertsHandler (sql : ApiSql) (req : RouteRequest) : HandlerResult :=
  if practiceIdGiven req.practiceId then
    { response := alertsListResponse req
        (getAlertsByPractice sql (queryValue req.practiceId)
          (parseIntQuery 50 req.limit) (parseIntQuery 0 req.offset)),
      calls := [.getAlertsByPractice (queryValue req.practiceId)
        (parseIntQuery 50 req.limit) (parseIntQuery 0 req.offset)] }
  else
    { response := alertsListResponse req
        (getAllAlerts sql (parseIntQuery 50 req.limit) (parseIntQuery 0 req.offset)),
      calls := [.getAllAlerts (parseIntQuery 50 req.limit) (parseIntQuery 0 req.offset)] }

/-- What `GET /api/users` sends for the outcome of its fetch: the rows as fetched. -/
def usersListResponse : Except JsError (List UserListRow) → Response
  | .error _ => errorResponse 500 "Failed to fetch users"
  | .ok users => listResponse (users.map (fun row => Json.ofFields row.toObject))

/-- The handler of `GET /api/users`. -/
def getUsersHandler (sql : ApiSql) (req : RouteRequest) : HandlerResult :=
  if practiceIdGiven req.practiceId then
    { response := usersListResponse
        (getUsersByPractice sql (queryValue req.practiceId)
          (parseIntQuery 50 req.limit) (parseIntQuery 0 req.offset)),
      calls := [.getUsersByPractice (queryValue req.practiceId)
        (parseIntQuery 50 req.limit) (parseIntQuery 0 req.offset)] }
  else
    { response := usersListResponse
        (getAllUsers sql (parseIntQuery 50 req.limit) (parseIntQuery 0 req.offset)),
      calls := [.getAllUsers (parseIntQuery 50 req.limit) (parseIntQuery 0 req.offset)] }

/-- What `GET /api/automation` sends for the outcome of its fetch: the rows, filtered by `type`
when the query has a non-empty one, or 500 when the fetch failed. -/
def automationListResponse (req : RouteRequest) :
    Except JsError (List AutomationLogListRow) → Response
  | .error _ => errorResponse 500 "Failed to fetch automation logs"
  | .ok logs =>
    listResponse
      ((if (queryValue req.type).truthy then
          logs.filter (fun row => row.log.automation_type == queryValue req.type)
        else logs).map (fun row => Json.ofFields row.toObject))

/-- The handler of `GET /api/automation`. -/
def getAutomationLogsHandler (sql : ApiSql) (req : RouteRequest) : HandlerResult :=
  if practiceIdGiven req.practiceId then
    { response := automationListResponse req
        (getAutomationLogsByPractice sql (queryValue req.practiceId)
          (parseIntQuery 50 req.limit) (parseIntQuery 0 req.offset)),
      calls := [.getAutomationLogsByPractice (queryValue req.practiceId)
        (parseIntQuery 50 req.limit) (parseIntQuery 0 req.offset)] }
  else
    { response := automationListResponse req
        (getAllAutomationLogs sql (parseIntQuery 50 req.limit) (parseIntQuery 0 req.offset)),
      calls := [.getAllAutomationLogs (parseIntQuery 50 req.limit)
        (parseIntQuery 0 req.offset)] }

/-! ## The list statements on a database -/

/-- The rejection of a list statement whose `LIMIT` or `OFFSET` parameter is not a count. -/
def invalidPageError : JsError :=
  { name := "NeonDbError", message := "invalid LIMIT or OFFSET" }

/-- The clause `LIMIT limit OFFSET offset` on ordered rows: the rows after the first `offset`, at
most `limit` of them; the statement is rejected when a parameter is not a non-negative whole
number. -/
def page {α : Type} (limit offset : JsNumber) (rows : List α) : Except JsError (List α) :=
  match limit, offset with
  | .fin l, .fin o =>
    if 0 ≤ l.num ∧ l.den = 1 ∧ 0 ≤ o.num ∧ o.den = 1 then
      .ok ((rows.drop o.num.toNat).take l.num.toNat)
    else .error invalidPageError
  | _, _ => .error invalidPageError

/-- The column `pr.name as practice_name` of `LEFT JOIN practices pr ON ... = pr.id`. -/
def Database.practiceName (db : Database) (practiceId : JsValue) : JsValue :=
  match db.practices.find? (fun practice => sqlEq practiceId practice.id) with
  | some practice => practice.name
  | none => .null

/-- The patient of `LEFT JOIN patients p ON ... = p.id`. -/
def Database.patientOf (db : Database) (patientId : JsValue) : Option PatientRow :=
  db.patients.find? (fun patient => sqlEq patientId patient.id)

/-- The rows of a table the `WHERE practice_id = ...` clause of a list statement keeps: all of
them for the statement without the clause. -/
def scopedRows {α : Type} (practiceOf : α → JsValue) (scope : Option JsValue) (rows : List α) :
    List α :=
  match scope with
  | some practiceId => rows.filter (fun row => sqlEq (practiceOf row) practiceId)
  | none => rows

/-- The `sql` handle of a database for all statements embedded here, at the state `db`.  The list
statements return the rows their `WHERE` clause keeps, joined with the patient and the practice,
after `LIMIT` and `OFFSET`.  (The `ORDER BY` clauses are not represented: each table is taken
to be stored in the order of its list statement.)  The two `INSERT` statements, whose results
depend on values the server generates, are parameters. -/
def Database.apiSql (db : Database)
    (insertIntoUsers : UserData → Except JsError (List UserRow))
    (insertIntoClaims : ClaimData → Except JsError (List ClaimRow)) : ApiSql where
  toRouteSql := db.routeSql insertIntoUsers
  insertIntoClaims := insertIntoClaims
  selectClaimsPage := fun scope limit offset =>
    page limit offset
      ((scopedRows (fun claim => claim.practice_id) scope db.claims).map (fun claim =>
        { claim := claim
          first_name := ((db.patientOf claim.patient_id).map (fun p => p.first_name)).getD .null
          last_name := ((db.patientOf claim.patient_id).map (fun p => p.last_name)).getD .null
          practice_name := db.practiceName claim.practice_id }))
  selectPatientsPage := fun scope limit offset =>
    page limit offset (scopedRows (fun patient => patient.practice_id) scope db.patients)
  selectAlertsPage := fun scope limit offset =>
    page limit offset
      ((scopedRows (fun alert => alert.practice_id) scope db.alerts).map (fun alert =>
        { alert := alert
          first_name :=
            ((db.patientOf alert.related_patient_id).map (fun p => p.first_name)).getD .null
          last_name :=
            ((db.patientOf alert.related_patient_id).map (fun p => p.last_name)).getD .null
          practice_name := db.practiceName alert.practice_id }))
  selectUsersPage := fun scope limit offset =>
    page limit offset
      ((scopedRows (fun user => user.practice_id) scope db.users).map (fun user =>
        { user := user, practice_name := db.practiceName user.practice_id }))
  selectAutomationLogsPage := fun scope limit offset =>
    page limit offset
      ((scopedRows (fun log => log.practice_id) scope db.automation_logs).map (fun log =>
        { log := log, practice_name := db.practiceName log.practice_id }))

/-! ## The logging wrapper (`src/middleware/dbLogger.js`) -/

/-- The arguments of a call `Logger.database(operation, query, { args }, duration, error)` the
wrapper makes. -/
structure DbLogCall where
  operation : String
  query : String
  args : Nat
  duration : Int
  error : Option JsError := none
deriving DecidableEq

/-- What a call of a wrapped operation did: the outcome of the promise it returned, the state it
left, the argument lists it called the operation with, and the calls to `Logger.database` that
returned, in order. -/
structure DbLoggingResult (α σ : Type) where
  outcome : Except JsError α
  state : σ
  operationCalls : List (List JsValue)
  logged : List DbLogCall

/-- The expression `operation.name || 'database_operation'`. -/
def operationLabel (name : String) : String :=
  if name ≠ "" then name else "database_operation"

/-- The function `withDbLogging(operation)` applied to `args`.  The operation is a function of its
arguments and of the state it works on, with the outcome of its promise and the state it leaves;
`name` is `operation.name`; `now k` is the value of the `k`-th reading of `Date.now()`;
`logDatabase` is `Logger.database`, which returns or throws.  A throw of the first
`Logger.database` call happens inside the `try` block and is caught by the `catch` block. -/
def withDbLogging {α σ : Type} (logDatabase : DbLogCall → Except JsError Unit) (now : Nat → Int)
    (name : String) (operation : List JsValue → σ → Except JsError α × σ)
    (args : List JsValue) (state : σ) : DbLoggingResult α σ :=
  match operation args state with
  | (.ok result, after) =>
    let succeeded : DbLogCall :=
      { operation := operationLabel name, query := "Query executed successfully",
        args := args.length, duration := now 1 - now 0 }
    match logDatabase succeeded with
    | .ok _ =>
      { outcome := .ok result, state := after, operationCalls := [args], logged := [succeeded] }
    | .error error =>
      let failed : DbLogCall :=
        { operation := operationLabel name, query := "Query failed", args := args.length,
          duration := now 2 - now 0, error := some error }
      match logDatabase failed with
      | .ok _ =>
        { outcome := .error error, state := after, operationCalls := [args], logged := [failed] }
      | .error logError =>
        { outcome := .error logError, state := after, operationCalls := [args], logged := [] }
  | (.error error, after) =>
    let failed : DbLogCall :=
      { operation := operationLabel name, query := "Query failed", args := args.length,
        duration := now 1 - now 0, error := some error }
    match logDatabase failed with
    | .ok _ =>
      { outcome := .error error, state := after, operationCalls := [args], logged := [failed] }
    | .error logError =>
      { outcome := .error logError, state := after, operationCalls := [args], logged := [] }

/-! ## Specification-side definitions -/

/-- The amount a claim contributes to the revenue, in the words of the specification: its received
amount, and zero when the amount is missing (`undefined` or `null`) or is not numeric (no number
can be read from it). -/
def receivedOrZero (claim : ClaimRow) : JsNumber :=
  if claim.received_amount = .undefined ∨ claim.received_amount = .null
      ∨ parseFloat claim.received_amount = .nan then 0
  else parseFloat claim.received_amount

/-- A claim whose received amount is there and is numeric. -/
def hasNumericAmount (claim : ClaimRow) : Prop :=
  ¬(claim.received_amount = .undefined ∨ claim.received_amount = .null
    ∨ parseFloat claim.received_amount = .nan)

instance : DecidablePred hasNumericAmount :=
  fun claim => inferInstanceAs (Decidable (¬(claim.received_amount = .undefined
    ∨ claim.received_amount = .null ∨ parseFloat claim.received_amount = .nan)))

/-- The time value of a claim's submission date (zero for an invalid date). -/
def submissionTime (dateParse : String → JsNumber) (claim : ClaimRow) : Int :=
  (newDate dateParse claim.submission_date).getD 0

/-- A claim whose submission date is a valid date. -/
def hasValidSubmissionDate (dateParse : String → JsNumber) (claim : ClaimRow) : Prop :=
  (newDate dateParse claim.submission_date).isSome = true

/-- The order "submitted no earlier than". -/
def submittedNoEarlier (dateParse : String → JsNumber) (a b : ClaimRow) : Prop :=
  submissionTime dateParse b ≤ submissionTime dateParse a

instance (dateParse : String → JsNumber) : DecidableRel (submittedNoEarlier dateParse) :=
  fun a b => inferInstanceAs (Decidable (submissionTime dateParse b ≤ submissionTime dateParse a))

instance (dateParse : String → JsNumber) : IsTotal ClaimRow (submittedNoEarlier dateParse) :=
  ⟨fun a b => le_total (submissionTime dateParse b) (submissionTime dateParse a)⟩

instance (dateParse : String → JsNumber) : IsTrans ClaimRow (submittedNoEarlier dateParse) :=
  ⟨fun _ _ _ hab hbc => le_trans hbc hab⟩

/-- The statistics `getDashboardStats` computes from fetched claims and unresolved alerts. -/
def dashboardStatsOf (dateParse : String → JsNumber) (claims : List ClaimRow)
    (alerts : List AlertRow) : DashboardStats :=
  { totalClaims := claims.length
    totalRevenue := totalRevenue claims
    pendingClaims := (claims.filter (fun claim => claim.status = .string "pending")).length
    activeAlerts := alerts.length
    recentClaims := (sortWith (bySubmissionDateDesc dateParse) claims).take 5 }

/-! ## Example data -/

/-- A host `Date.parse` that recognises no text; the example rows carry `Date` objects. -/
def noDateParse : String → JsNumber :=
  fun _ => .nan

/-- Three claims of tenant `p1`: received 120 (paid), 0 (pending) and 60 (underpaid), submitted on
2024-01-15, 2024-01-22 and 2024-01-10. -/
def exampleClaims : List ClaimRow :=
  [{ id := .string "c1", practice_id := .string "p1", received_amount := .string "120.00",
     status := .string "paid", submission_date := .date (some 1705276800000) },
   { id := .string "c2", practice_id := .string "p1", received_amount := .string "0.00",
     status := .string "pending", submission_date := .date (some 1705881600000) },
   { id := .string "c3", practice_id := .string "p1", received_amount := .string "60.00",
     status := .string "underpaid", submission_date := .date (some 1704844800000) }]

/-- Three claims of tenant `p1` with received amounts 0.10, 0.20 and 0.30, as the driver returns
`DECIMAL(10,2)` columns. -/
def exampleCentsClaims : List ClaimRow :=
  [{ id := .string "d1", practice_id := .string "p1", received_amount := .string "0.10" },
   { id := .string "d2", practice_id := .string "p1", received_amount := .string "0.20" },
   { id := .string "d3", practice_id := .string "p1", received_amount := .string "0.30" }]

/-- A database holding those three claims and nothing else. -/
def exampleCentsDb : Database :=
  { claims := exampleCentsClaims }

/-- A database holding the three example claims and nothing else. -/
def exampleDb : Database :=
  { claims := exampleClaims }

/-- An empty database. -/
def emptyDb : Database :=
  {}

/-- The example database with the records of a second tenant `p2` added: a claim, an unresolved
alert and an automation log. -/
def exampleDbTwoTenants : Database :=
  { claims :=
      { id := .string "c9", practice_id := .string "p2", received_amount := .string "999.00",
        status := .string "pending", submission_date := .date (some 1706745600000) }
        :: exampleClaims
    alerts := [{ id := .string "a9", practice_id := .string "p2" }]
    automation_logs := [{ id := .string "l9", practice_id := .string "p2" }] }

/-- A request whose resolved identity has the given role. -/
def requestWithRole (role : String) : Request :=
  { user := some { id := .string "u1", email := .string "u1@example.com", role := .string role,
                   practiceId := .string "p1", firstName := .string "Ann",
                   lastName := .string "Lee" } }

/-- A stand-in for `jwt.verify` under the fallback secret: the token `good` decodes to a payload
for user `u1` with role `staff` in tenant `p1`, the token `old` is expired, and every other token
fails verification. -/
def exampleJwtVerify : String → String → Except JsError JwtPayload :=
  fun token secret =>
    if secret = "your-secret-key" ∧ token = "good" then
      .ok { userId := .string "u1", email := .string "u1@example.com", role := .string "staff",
            practiceId := .string "p1" }
    else if secret = "your-secret-key" ∧ token = "old" then
      .error { name := "TokenExpiredError", message := "jwt expired" }
    else
      .error { name := "JsonWebTokenError", message := "invalid signature" }

/-- The stored record of user `u1`: since the token `good` was issued the user has become `admin`
of tenant `p2`. -/
def exampleUser : UserRow :=
  { id := .string "u1", practice_id := .string "p2", email := .string "u1@example.com",
    password_hash := .string "hash", role := .string "admin", first_name := .string "Ann",
    last_name := .string "Lee", is_active := .bool true }

/-- A database whose only user is the active `u1`. -/
def exampleUsersDb : Database :=
  { users := [exampleUser] }

/-- The same database with the account of `u1` deactivated. -/
def exampleDeactivatedDb : Database :=
  { users := [{ exampleUser with is_active := .bool false }] }

/-- A request carrying the given text in its `authorization` header. -/
def requestWithHeader (authHeader : String) : Request :=
  { authorization := some authHeader }

/-- A signature function for the examples. -/
def exampleMac : String → JwtPayload → String :=
  fun secret _ => "signed with " ++ secret

/-- The credential issued to the example user under the fallback secret at time 1000. -/
def exampleCredential : Credential :=
  issue exampleMac "your-secret-key" 1000 (tokenPayload exampleUser)

/-- A writing of credentials as text for the examples: the example credential is `good`. -/
def exampleEncode : Credential → String :=
  fun credential => if credential = exampleCredential then "good" else "other"

/-- The reading of credentials from text for the examples. -/
def exampleDecode : String → Option Credential :=
  fun token => if token = "good" then some exampleCredential else none

/-- Library functions for the examples: tokens are issued by the modelled Session Authority at
time 1000 and verified by `exampleJwtVerify`; the password `secret` matches the hash `hash`, and
every password hashes to `hash`. -/
def exampleLibs : AuthLibs :=
  { jwtSign := sessionSign exampleMac exampleEncode 1000
    jwtVerify := exampleJwtVerify
    bcryptCompare := fun password hash =>
      .ok (decide (password = .string "secret" ∧ hash = .string "hash"))
    bcryptHash := fun _ _ => .ok "hash" }

/-- An `INSERT` on `users` for the examples: the row of the example user is returned. -/
def exampleInsert : UserData → Except JsError (List UserRow) :=
  fun _ => .ok [exampleUser]

/-- A login request with the given email and password that passed validation. -/
def loginRequest (email password : String) : RouteRequest :=
  { body := [("email", .string email), ("password", .string password)] }

/-- A registration request that passed validation. -/
def registerRequest (email : String) : RouteRequest :=
  { body := [("email", .string email), ("password", .string "secret"),
      ("firstName", .string "Ann"), ("lastName", .string "Lee"), ("role", .string "admin"),
      ("practiceId", .string "p2")] }

/-- A stored claim with every updatable column filled in. -/
def exampleFullClaim : ClaimRow :=
  { id := .string "c1", practice_id := .string "p1", patient_id := .string "pt1",
    insurer_name := .string "Acme", treatment_code := .string "D2140",
    treatment_description := .string "Filling", submitted_amount := .string "200.00",
    expected_amount := .string "150.00", received_amount := .string "120.00",
    status := .string "pending", submission_date := .date (some 1705276800000),
    payment_date := .date (some 1705881600000), notes := .string "first visit" }

/-- A database holding that claim. -/
def exampleFullClaimDb : Database :=
  { claims := [exampleFullClaim] }

/-- The request `PUT /api/claims/c1` with the body `{ status: 'paid' }`. -/
def putStatusRequest : RouteRequest :=
  { id := "c1", body := [("status", .string "paid")] }

/-- A handle whose three dashboard statements answer from the example database, except that the
statement on `automation_logs` is rejected. -/
def failingLogsSql : SqlHandle :=
  { exampleDb.sql with
    selectAutomationLogs := fun _ => .error { name := "NeonDbError", message := "timeout" } }

/-- The environment of development mode. -/
def developmentEnv : Env :=
  { NODE_ENV := some "development" }

/-- A `jwt.verify` that rejects every token. -/
def rejectingJwtVerify : String → String → Except JsError JwtPayload :=
  fun _ _ => .error { name := "JsonWebTokenError", message := "invalid signature" }

/-- Six claims submitted on the same day, fetched in the order `t1` to `t6`. -/
def exampleTiedClaims : List ClaimRow :=
  [{ id := .string "t1", submission_date := .date (some 1705276800000) },
   { id := .string "t2", submission_date := .date (some 1705276800000) },
   { id := .string "t3", submission_date := .date (some 1705276800000) },
   { id := .string "t4", submission_date := .date (some 1705276800000) },
   { id := .string "t5", submission_date := .date (some 1705276800000) },
   { id := .string "t6", submission_date := .date (some 1705276800000) }]

/-- A database holding the six tied claims. -/
def exampleTiedDb : Database :=
  { claims := exampleTiedClaims }

/-- Validators for the examples.  On the field values the examples use they answer as the library
does: the two identifiers are UUIDs, `new@example.com` is an email address that `normalizeEmail`
leaves as it is, `200.00` is a float that is at least 0, a string of ASCII characters has its
number of characters as length, and the text of a string is the string.  Every other value is
rejected. -/
def exampleValidators : ValidatorLib :=
  { toText := fun value =>
      match value with
      | .string s => s
      | _ => ""
    isUUID := fun value =>
      value == .string "11111111-1111-4111-8111-111111111111"
        || value == .string "22222222-2222-4222-8222-222222222222"
    isEmail := fun value => value == .string "new@example.com"
    isFloatMin := fun _ value => value == .string "200.00"
    isLengthMin := fun min value =>
      match value with
      | .string s => decide (min ≤ s.length)
      | _ => false
    normalizeEmail := id
    errorOf := fun field value =>
      .object [("path", .string field), ("value", Json.ofValue value),
        ("msg", .string "Invalid value")] }

/-- An `INSERT` on `claims` for the examples: the row stored is returned, with the columns as
sent and the identifier `c10`. -/
def exampleInsertClaim : ClaimData → Except JsError (List ClaimRow) :=
  fun parameters =>
    .ok [{ id := .string "c10", practice_id := parameters.practice_id,
           patient_id := parameters.patient_id,
           external_claim_id := parameters.external_claim_id,
           insurer_name := parameters.insurer_name,
           treatment_code := parameters.treatment_code,
           treatment_description := parameters.treatment_description,
           submitted_amount := parameters.submitted_amount,
           expected_amount := parameters.expected_amount,
           received_amount := parameters.received_amount, status := parameters.status,
           submission_date := parameters.submission_date,
           payment_date := parameters.payment_date, notes := parameters.notes }]

/-- The body of a request to create a claim, with the status `bogus`. -/
def bogusStatusBody : List (String × JsValue) :=
  [("practice_id", .string "11111111-1111-4111-8111-111111111111"),
   ("patient_id", .string "22222222-2222-4222-8222-222222222222"),
   ("insurer_name", .string "Acme"), ("treatment_description", .string "Filling"),
   ("submitted_amount", .string "200.00"), ("status", .string "bogus")]

/-- The body of a request to create a claim whose expected and received amounts are the
number 0. -/
def zeroAmountsBody : List (String × JsValue) :=
  [("practice_id", .string "11111111-1111-4111-8111-111111111111"),
   ("patient_id", .string "22222222-2222-4222-8222-222222222222"),
   ("insurer_name", .string "Acme"), ("treatment_description", .string "Filling"),
   ("submitted_amount", .string "200.00"), ("expected_amount", .number (.fin 0)),
   ("received_amount", .number (.fin 0))]

/-- The body of a request to create a user, with the keys the validators of `POST /api/users`
check. -/
def snakeCaseUserBody : List (String × JsValue) :=
  [("practice_id", .string "11111111-1111-4111-8111-111111111111"),
   ("email", .string "new@example.com"), ("password", .string "secret1"),
   ("role", .string "staff"), ("first_name", .string "Ann"), ("last_name", .string "Lee")]

/-- A successful operation for the logging wrapper: it returns the number of its arguments and
adds one to a counter. -/
def countingOperation : List JsValue → Nat → Except JsError Nat × Nat :=
  fun args counter => (.ok args.length, counter + 1)

/-- A failing operation for the logging wrapper: it rejects and adds one to a counter. -/
def failingOperation : List JsValue → Nat → Except JsError Nat × Nat :=
  fun _ counter => (.error { name := "NeonDbError", message := "connection refused" }, counter + 1)

/-! ## Lemmas on numbers -/

theorem JsNumber.add_def (a b : JsNumber) : a + b = JsNumber.add a b := rfl

theorem JsNumber.zero_def : (0 : JsNumber) = JsNumber.fin 0 := rfl

theorem roundHalfEven_intCast (z : ℤ) : roundHalfEven (z : ℚ) = z := by
  simp [roundHalfEven]

theorem roundHalfEven_bounds (m : ℚ) : ⌊m⌋ ≤ roundHalfEven m ∧ roundHalfEven m ≤ ⌊m⌋ + 1 := by
  unfold roundHalfEven
  split_ifs <;> constructor <;> omega


theorem two_zpow_pos (z : ℤ) : (0 : ℚ) < 2 ^ z := zpow_pos (by norm_num) z

/-- A rational that is a whole multiple of the unit of its own binade is left as it is. -/
theorem roundToDouble_of_whole (x : ℚ) (z : ℤ)
    (hz : x / 2 ^ (doubleExponent x - 52) = z) (hfin : |x| < 2 ^ (1024 : ℤ)) :
    roundToDouble x = .fin x := by
  have hu := two_zpow_pos (doubleExponent x - 52)
  have hx : (roundHalfEven (x / 2 ^ (doubleExponent x - 52)) : ℚ) * 2 ^ (doubleExponent x - 52)
      = x := by
    rw [hz, roundHalfEven_intCast, ← hz]
    field_simp
  unfold roundToDouble
  rw [hx, if_neg (not_le.mpr hfin)]

theorem log_two_zpow (e : ℤ) : Int.log 2 ((2 : ℚ) ^ e) = e := by
  have := Int.log_zpow (R := ℚ) (b := 2) (by norm_num) e
  simpa using this

theorem doubleExponent_le (x : ℚ) (e : ℤ) (he : -1022 ≤ e) (hpos : 0 < |x|)
    (hx : |x| ≤ 2 ^ e) : doubleExponent x ≤ e := by
  unfold doubleExponent
  apply max_le _ he
  have h := Int.log_mono_right (b := 2) hpos hx
  rw [log_two_zpow] at h
  exact h

theorem zpow_log_le_abs (x : ℚ) (hpos : 0 < |x|) : (2 : ℚ) ^ Int.log 2 |x| ≤ |x| := by
  have := Int.zpow_log_le_self (R := ℚ) (b := 2) (by norm_num) hpos
  simpa using this

theorem abs_lt_zpow_log_succ (x : ℚ) : |x| < (2 : ℚ) ^ (Int.log 2 |x| + 1) := by
  have := Int.lt_zpow_succ_log_self (R := ℚ) (b := 2) (by norm_num) |x|
  simpa using this

/-- A whole multiple `k * 2 ^ (e - 52)` with `|k| ≤ 2 ^ 53` and `-1022 ≤ e` is a double. -/
theorem roundToDouble_of_scaled (k e : ℤ) (hk : |k| ≤ 2 ^ 53) (he : -1022 ≤ e)
    (hfin : |(k : ℚ) * 2 ^ (e - 52)| < 2 ^ (1024 : ℤ)) :
    roundToDouble (k * 2 ^ (e - 52)) = .fin (k * 2 ^ (e - 52)) := by
  rcases eq_or_ne k 0 with rfl | hk0
  · apply roundToDouble_of_whole _ 0 _ hfin
    simp
  have hu := two_zpow_pos (e - 52)
  have hkq : (0 : ℚ) < |(k : ℚ)| := abs_pos.mpr (by exact_mod_cast hk0)
  have hpos : 0 < |(k : ℚ) * 2 ^ (e - 52)| := by
    rw [abs_mul, abs_of_pos hu]
    exact mul_pos hkq hu
  have hkle : |(k : ℚ)| ≤ 2 ^ (53 : ℤ) := by
    have h : ((|k| : ℤ) : ℚ) ≤ ((2 ^ 53 : ℤ) : ℚ) := by exact_mod_cast hk
    rw [Int.cast_abs] at h
    refine h.trans (le_of_eq ?_)
    norm_num
  have hsplit : (2 : ℚ) ^ (e + 1) = 2 ^ (53 : ℤ) * 2 ^ (e - 52) := by
    rw [← zpow_add₀ (by norm_num : (2 : ℚ) ≠ 0)]
    congr 1
    ring
  have hxle : |(k : ℚ) * 2 ^ (e - 52)| ≤ 2 ^ (e + 1) := by
    rw [abs_mul, abs_of_pos hu, hsplit]
    exact mul_le_mul_of_nonneg_right hkle hu.le
  have hle := doubleExponent_le _ (e + 1) (by omega) hpos hxle
  generalize hd : doubleExponent ((k : ℚ) * 2 ^ (e - 52)) = d at hle
  have hu2 := two_zpow_pos (d - 52)
  rcases lt_or_eq_of_le hle with hlt | heq
  · -- the unit of the binade divides the unit of the value
    obtain ⟨n, hn⟩ : ∃ n : ℕ, e - d = n := ⟨(e - d).toNat, by omega⟩
    apply roundToDouble_of_whole _ (k * 2 ^ n) _ hfin
    rw [hd]
    have h2 : (2 : ℚ) ^ (e - 52) = 2 ^ (n : ℤ) * 2 ^ (d - 52) := by
      rw [← zpow_add₀ (by norm_num : (2 : ℚ) ≠ 0)]
      congr 1
      omega
    rw [h2, div_eq_iff hu2.ne']
    push_cast
    rw [zpow_natCast]
    ring
  · -- the value is a power of two, first of the next binade
    have hlog : Int.log 2 |(k : ℚ) * 2 ^ (e - 52)| = e + 1 := by
      have h := hd
      unfold doubleExponent at h
      rw [heq] at h
      rcases max_choice (Int.log 2 |(k : ℚ) * 2 ^ (e - 52)|) (-1022) with h1 | h1
      · rw [h1] at h
        exact h
      · rw [h1] at h
        omega
    have hge := zpow_log_le_abs _ hpos
    rw [hlog, abs_mul, abs_of_pos hu, hsplit] at hge
    have hkge : (2 : ℚ) ^ (53 : ℤ) ≤ |(k : ℚ)| := le_of_mul_le_mul_right hge hu
    have hkeq : |(k : ℚ)| = 2 ^ (53 : ℤ) := le_antisymm hkle hkge
    have hd2 : (2 : ℚ) ^ (d - 52) = 2 * 2 ^ (e - 52) := by
      rw [heq]
      have : e + 1 - 52 = 1 + (e - 52) := by ring
      rw [this, zpow_add₀ (by norm_num : (2 : ℚ) ≠ 0)]
      norm_num
    rcases abs_choice (k : ℚ) with hc | hc
    · apply roundToDouble_of_whole _ (2 ^ 52) _ hfin
      rw [hd, hd2, div_eq_iff (by positivity)]
      rw [hc] at hkeq
      rw [hkeq]
      push_cast
      norm_num
      ring
    · apply roundToDouble_of_whole _ (-2 ^ 52) _ hfin
      rw [hd, hd2, div_eq_iff (by positivity)]
      have hk' : (k : ℚ) = -2 ^ (53 : ℤ) := by
        rw [hc] at hkeq
        linarith
      rw [hk']
      push_cast
      norm_num
      ring

theorem doubleExponent_ge (q : ℚ) : -1022 ≤ doubleExponent q :=
  le_max_right _ _

/-- The whole number of units a rational is rounded to has at most 53 bits. -/
theorem abs_roundHalfEven_le (q : ℚ) :
    |roundHalfEven (q / 2 ^ (doubleExponent q - 52))| ≤ 2 ^ 53 := by
  have hu := two_zpow_pos (doubleExponent q - 52)
  have hlt : |q| < 2 ^ (doubleExponent q + 1) := by
    refine (abs_lt_zpow_log_succ q).trans_le ?_
    apply zpow_le_zpow_right₀ (by norm_num)
    have := le_max_left (Int.log 2 |q|) (-1022)
    unfold doubleExponent
    omega
  have hsplit : (2 : ℚ) ^ (doubleExponent q + 1) = 2 ^ (53 : ℤ) * 2 ^ (doubleExponent q - 52) := by
    rw [← zpow_add₀ (by norm_num : (2 : ℚ) ≠ 0)]
    congr 1
    ring
  have hm : |q / 2 ^ (doubleExponent q - 52)| < 2 ^ (53 : ℤ) := by
    rw [abs_div, abs_of_pos hu, div_lt_iff₀ hu, ← hsplit]
    exact hlt
  generalize q / 2 ^ (doubleExponent q - 52) = m at hm
  obtain ⟨h1, h2⟩ := roundHalfEven_bounds m
  have hm' := abs_lt.mp hm
  have hfloor_lt : ⌊m⌋ < 2 ^ 53 := by
    rw [Int.floor_lt]
    refine hm'.2.trans_le (le_of_eq ?_)
    norm_num
  have hfloor_ge : -2 ^ 53 ≤ ⌊m⌋ := by
    rw [Int.le_floor]
    refine le_of_lt (lt_of_eq_of_lt ?_ hm'.1)
    norm_num
  rw [abs_le]
  constructor <;> omega

/-- What `roundToDouble` returns is a double: rounding it again changes nothing. -/
theorem roundToDouble_idem (q r : ℚ) (h : roundToDouble q = .fin r) :
    roundToDouble r = .fin r := by
  unfold roundToDouble at h
  split at h
  · cases h
  · rename_i hfin
    injection h with h
    rw [← h]
    exact roundToDouble_of_scaled _ _ (abs_roundHalfEven_le q) (doubleExponent_ge q)
      (not_le.mp hfin)

/-- A whole number of at most 53 bits is a double. -/
theorem roundToDouble_intCast (n : ℤ) (hn : |n| ≤ 2 ^ 53) : roundToDouble (n : ℚ) = .fin n := by
  have h := roundToDouble_of_scaled n 52 hn (by norm_num) (by
    have h : |(n : ℚ)| ≤ 2 ^ (53 : ℤ) := by
      have h : ((|n| : ℤ) : ℚ) ≤ ((2 ^ 53 : ℤ) : ℚ) := by exact_mod_cast hn
      rw [Int.cast_abs] at h
      refine h.trans (le_of_eq ?_)
      norm_num
    simp only [sub_self, zpow_zero, mul_one]
    refine h.trans_lt ?_
    norm_num)
  simpa using h

theorem roundHalfEven_below (m : ℚ) (f : ℤ) (h1 : (f : ℚ) ≤ m) (h2 : m < f + 1 / 2) :
    roundHalfEven m = f := by
  have hf : ⌊m⌋ = f := Int.floor_eq_iff.mpr ⟨h1, by linarith⟩
  unfold roundHalfEven
  rw [hf, if_pos (by linarith)]

theorem roundHalfEven_above (m : ℚ) (f : ℤ) (h1 : (f : ℚ) + 1 / 2 < m) (h2 : m < f + 1) :
    roundHalfEven m = f + 1 := by
  have hf : ⌊m⌋ = f := Int.floor_eq_iff.mpr ⟨by linarith, h2⟩
  unfold roundHalfEven
  rw [hf, if_neg (by linarith), if_pos (by linarith)]

theorem roundHalfEven_tie (m : ℚ) (f : ℤ) (h : m = f + 1 / 2) :
    roundHalfEven m = if f % 2 = 0 then f else f + 1 := by
  have hf : ⌊m⌋ = f := Int.floor_eq_iff.mpr ⟨by linarith, by linarith⟩
  unfold roundHalfEven
  rw [hf, if_neg (by linarith), if_neg (by linarith)]

/-- The double nearest to a rational of a known binade. -/
theorem roundToDouble_of_binade (q : ℚ) (e k : ℤ) (he : -1022 ≤ e) (hlo : 2 ^ e ≤ |q|)
    (hhi : |q| < 2 ^ (e + 1)) (hk : roundHalfEven (q / 2 ^ (e - 52)) = k)
    (hfin : |(k : ℚ) * 2 ^ (e - 52)| < 2 ^ (1024 : ℤ)) :
    roundToDouble q = .fin (k * 2 ^ (e - 52)) := by
  have hpos : 0 < |q| := (two_zpow_pos e).trans_le hlo
  have hlog : Int.log 2 |q| = e := by
    apply le_antisymm
    · have := (Int.lt_zpow_iff_log_lt (R := ℚ) (b := 2) (by norm_num) hpos).mp
        (by simpa using hhi)
      omega
    · exact (Int.zpow_le_iff_le_log (R := ℚ) (b := 2) (by norm_num) hpos).mp
        (by simpa using hlo)
  have hd : doubleExponent q = e := by
    unfold doubleExponent
    rw [hlog]
    exact max_eq_left he
  unfold roundToDouble
  rw [hd, hk, if_neg (not_le.mpr hfin)]

theorem roundToDouble_zero : roundToDouble 0 = .fin 0 := by
  have h := roundToDouble_intCast 0 (by norm_num)
  simpa using h

theorem JsNumber.fin_add_fin (a b : ℚ) :
    JsNumber.fin a + JsNumber.fin b = roundToDouble (a + b) := rfl

/-- The double nearest to a rational of a known binade, for a given value. -/
theorem roundToDouble_eval (q d : ℚ) (e k : ℤ) (he : -1022 ≤ e) (hlo : 2 ^ e ≤ |q|)
    (hhi : |q| < 2 ^ (e + 1)) (hk : roundHalfEven (q / 2 ^ (e - 52)) = k)
    (hd : d = k * 2 ^ (e - 52)) (hfin : |d| < 2 ^ (1024 : ℤ)) :
    roundToDouble q = .fin d := by
  subst hd
  exact roundToDouble_of_binade q e k he hlo hhi hk hfin

/-- The double nearest to 0.1. -/
theorem roundToDouble_tenth (q d : ℚ) (hq : q = 1 / 10) (hd : d = 7205759403792794 / 2 ^ 56) :
    roundToDouble q = .fin d := by
  subst hq hd
  exact roundToDouble_eval _ _ (-4) _ (by norm_num) (by norm_num [abs_of_pos])
    (by norm_num [abs_of_pos])
    (roundHalfEven_above _ 7205759403792793 (by norm_num) (by norm_num)) (by norm_num)
    (by norm_num [abs_of_pos])

/-- The double nearest to 0.2. -/
theorem roundToDouble_fifth (q d : ℚ) (hq : q = 1 / 5) (hd : d = 7205759403792794 / 2 ^ 55) :
    roundToDouble q = .fin d := by
  subst hq hd
  exact roundToDouble_eval _ _ (-3) _ (by norm_num) (by norm_num [abs_of_pos])
    (by norm_num [abs_of_pos])
    (roundHalfEven_above _ 7205759403792793 (by norm_num) (by norm_num)) (by norm_num)
    (by norm_num [abs_of_pos])

/-- The double nearest to 0.3. -/
theorem roundToDouble_three_tenths (q d : ℚ) (hq : q = 3 / 10)
    (hd : d = 5404319552844595 / 2 ^ 54) : roundToDouble q = .fin d := by
  subst hq hd
  exact roundToDouble_eval _ _ (-2) _ (by norm_num) (by norm_num [abs_of_pos])
    (by norm_num [abs_of_pos])
    (roundHalfEven_below _ 5404319552844595 (by norm_num) (by norm_num)) (by norm_num)
    (by norm_num [abs_of_pos])

/-- The double nearest to 0.6. -/
theorem roundToDouble_three_fifths :
    roundToDouble (3 / 5) = .fin (5404319552844595 / 2 ^ 53) :=
  roundToDouble_eval _ _ (-1) _ (by norm_num) (by norm_num [abs_of_pos])
    (by norm_num [abs_of_pos])
    (roundHalfEven_below _ 5404319552844595 (by norm_num) (by norm_num)) (by norm_num)
    (by norm_num [abs_of_pos])

/-- The sum of the doubles nearest to 0.1 and 0.2 lies half way between two doubles and goes to
the even one, above 0.3. -/
theorem roundToDouble_tenth_add_fifth :
    roundToDouble (7205759403792794 / 2 ^ 56 + 7205759403792794 / 2 ^ 55)
      = .fin (5404319552844596 / 2 ^ 54) :=
  roundToDouble_eval _ _ (-2) 5404319552844596 (by norm_num) (by norm_num [abs_of_pos])
    (by norm_num [abs_of_pos])
    ((roundHalfEven_tie _ 5404319552844595 (by norm_num)).trans (by decide)) (by norm_num)
    (by norm_num [abs_of_pos])

/-- Adding the double nearest to 0.3 gives a tie again, which goes up. -/
theorem roundToDouble_add_three_tenths :
    roundToDouble (5404319552844596 / 2 ^ 54 + 5404319552844595 / 2 ^ 54)
      = .fin (5404319552844596 / 2 ^ 53) :=
  roundToDouble_eval _ _ (-1) 5404319552844596 (by norm_num) (by norm_num [abs_of_pos])
    (by norm_num [abs_of_pos])
    ((roundHalfEven_tie _ 5404319552844595 (by norm_num)).trans (by decide)) (by norm_num)
    (by norm_num [abs_of_pos])

/-- Adding zero to a sum leaves it as it is: a sum is a double already. -/
theorem JsNumber.sum_add_zero (x y : JsNumber) : x + y + 0 = x + y := by
  cases x <;> cases y <;> simp only [JsNumber.add_def, JsNumber.zero_def, JsNumber.add] <;>
    try (split_ifs <;> rfl)
  rename_i a b
  cases h : roundToDouble (a + b) with
  | nan => rfl
  | inf negative => rfl
  | fin r =>
    show roundToDouble (r + 0) = .fin r
    rw [add_zero]
    exact roundToDouble_idem _ _ h

theorem JsNumber.zero_add_zero : (0 : JsNumber) + 0 = 0 := by
  show roundToDouble (0 + 0) = .fin 0
  rw [add_zero]
  exact roundToDouble_zero

/-- The expression `x || 0` replaces `NaN` by zero and leaves every other number as it is. -/
theorem JsNumber.or_zero (x : JsNumber) : x.or 0 = if x = .nan then 0 else x := by
  cases x with
  | nan => simp [JsNumber.or, JsNumber.truthy]
  | fin q =>
    by_cases hq : q = 0
    · simp [JsNumber.or, JsNumber.truthy, hq, JsNumber.zero_def]
    · simp [JsNumber.or, JsNumber.truthy, hq]
  | inf s => simp [JsNumber.or, JsNumber.truthy]

theorem parseFloat_or_zero (claim : ClaimRow) :
    (parseFloat claim.received_amount).or 0 = receivedOrZero claim := by
  rw [JsNumber.or_zero, receivedOrZero]
  by_cases h : parseFloat claim.received_amount = .nan
  · simp [h]
  · have h1 : claim.received_amount ≠ .undefined := fun e => h (by rw [e]; rfl)
    have h2 : claim.received_amount ≠ .null := fun e => h (by rw [e]; rfl)
    simp [h, h1, h2]

/-- The reduction of `getDashboardStats`, with each term in the words of the specification. -/
theorem totalRevenue_eq_foldl (claims : List ClaimRow) :
    totalRevenue claims = claims.foldl (fun sum claim => sum + receivedOrZero claim) 0 := by
  unfold totalRevenue
  congr 1
  funext sum claim
  rw [parseFloat_or_zero]

/-- Leaving out the claims without a numeric amount does not change the running total. -/
theorem foldl_numeric (claims : List ClaimRow) (acc : JsNumber) (hacc : acc + 0 = acc) :
    claims.foldl (fun sum claim => sum + receivedOrZero claim) acc
      = (claims.filter (fun claim => decide (hasNumericAmount claim))).foldl
          (fun sum claim => sum + parseFloat claim.received_amount) acc := by
  induction claims generalizing acc with
  | nil => rfl
  | cons c cs ih =>
    by_cases hc : hasNumericAmount c
    · have hr : receivedOrZero c = parseFloat c.received_amount := by
        unfold receivedOrZero
        exact if_neg hc
      rw [List.filter_cons_of_pos (by simpa using hc), List.foldl_cons, List.foldl_cons, hr]
      exact ih _ (JsNumber.sum_add_zero _ _)
    · have hr : receivedOrZero c = 0 := by
        unfold receivedOrZero
        exact if_pos (not_not.mp hc)
      rw [List.filter_cons_of_neg (by simpa using hc), List.foldl_cons, hr, hacc]
      exact ih _ hacc

/-! ## Lemmas on `getDashboardStats` -/

/-- When the three statements return rows, `getDashboardStats` returns the reduction of those
rows. -/
theorem getDashboardStats_of_fetched (dateParse : String → JsNumber) (sql : SqlHandle)
    (practiceId : JsValue) (claims : List ClaimRow) (alerts : List AlertRow)
    (logs : List AutomationLogRow)
    (hc : sql.selectClaims (tenantScope practiceId) = .ok claims)
    (ha : sql.selectUnresolvedAlerts (tenantScope practiceId) = .ok alerts)
    (hl : sql.selectAutomationLogs (tenantScope practiceId) = .ok logs) :
    getDashboardStats dateParse sql practiceId = .ok
      { totalClaims := claims.length
        totalRevenue := totalRevenue claims
        pendingClaims := (claims.filter (fun claim => claim.status = .string "pending")).length
        activeAlerts := alerts.length
        recentClaims := (sortWith (bySubmissionDateDesc dateParse) claims).take 5 } := by
  simp only [getDashboardStats, hc, ha, hl]
  rfl

/-! ## Lemmas on the sort -/

theorem orderedInsert_congr {α : Type} (r r' : α → α → Prop) [DecidableRel r] [DecidableRel r']
    (a : α) (l : List α) (h : ∀ b ∈ l, (r a b ↔ r' a b)) :
    l.orderedInsert r a = l.orderedInsert r' a := by
  induction l with
  | nil => rfl
  | cons b l ih =>
    have hb : r a b ↔ r' a b := h b (List.mem_cons_self b l)
    have hl : ∀ c ∈ l, (r a c ↔ r' a c) := fun c hc => h c (List.mem_cons_of_mem b hc)
    by_cases hr : r a b
    · have hr' : r' a b := hb.mp hr
      simp [List.orderedInsert, hr, hr']
    · have hr' : ¬ r' a b := fun x => hr (hb.mpr x)
      simp [List.orderedInsert, hr, hr', ih hl]

theorem insertionSort_congr {α : Type} (r r' : α → α → Prop) [DecidableRel r] [DecidableRel r']
    (l : List α) (h : ∀ a ∈ l, ∀ b ∈ l, (r a b ↔ r' a b)) :
    l.insertionSort r = l.insertionSort r' := by
  induction l with
  | nil => rfl
  | cons a l ih =>
    have hl : ∀ x ∈ l, ∀ y ∈ l, (r x y ↔ r' x y) :=
      fun x hx y hy => h x (List.mem_cons_of_mem a hx) y (List.mem_cons_of_mem a hy)
    simp only [List.insertionSort]
    rw [ih hl]
    apply orderedInsert_congr
    intro b hb
    have hb' : b ∈ l := (List.perm_insertionSort r' l).mem_iff.mp hb
    exact h a (List.mem_cons_self a l) b (List.mem_cons_of_mem a hb')

/-- On claims with valid submission dates the order the sort derives from the comparison function
is "submitted no earlier than". -/
theorem keepsBefore_iff_submittedNoEarlier (dateParse : String → JsNumber) (a b : ClaimRow)
    (ha : hasValidSubmissionDate dateParse a) (hb : hasValidSubmissionDate dateParse b) :
    keepsBefore (bySubmissionDateDesc dateParse) a b ↔ submittedNoEarlier dateParse a b := by
  unfold hasValidSubmissionDate at ha hb
  obtain ⟨ta, hta⟩ := Option.isSome_iff_exists.mp ha
  obtain ⟨tb, htb⟩ := Option.isSome_iff_exists.mp hb
  simp only [keepsBefore, bySubmissionDateDesc, submittedNoEarlier, submissionTime, hta, htb,
    dateToNumber, JsNumber.sub, JsNumber.positive, Option.getD_some, decide_eq_false_iff_not,
    not_lt, sub_nonpos]
  exact_mod_cast Iff.rfl

/-- On claims with valid submission dates the sort of `recentClaims` is the stable sort by
"submitted no earlier than". -/
theorem sortWith_bySubmissionDateDesc (dateParse : String → JsNumber) (claims : List ClaimRow)
    (hvalid : ∀ c ∈ claims, hasValidSubmissionDate dateParse c) :
    sortWith (bySubmissionDateDesc dateParse) claims
      = claims.insertionSort (submittedNoEarlier dateParse) :=
  insertionSort_congr _ _ claims
    (fun a ha b hb => keepsBefore_iff_submittedNoEarlier dateParse a b (hvalid a ha) (hvalid b hb))

/-! ## Dashboard statistics: the claims -/

/-- C1. Whatever rows the three fetches return, `getDashboardStats` succeeds with `totalClaims`
the number of fetched claims, `pendingClaims` the number of fetched claims whose status is exactly
the string `pending`, and `activeAlerts` the number of fetched unresolved alerts. -/
theorem getDashboardStats_counts (dateParse : String → JsNumber) (sql : SqlHandle)
    (practiceId : JsValue) (claims : List ClaimRow) (alerts : List AlertRow)
    (logs : List AutomationLogRow)
    (hc : sql.selectClaims (tenantScope practiceId) = .ok claims)
    (ha : sql.selectUnresolvedAlerts (tenantScope practiceId) = .ok alerts)
    (hl : sql.selectAutomationLogs (tenantScope practiceId) = .ok logs) :
    ∃ stats, getDashboardStats dateParse sql practiceId = .ok stats
      ∧ stats.totalClaims = claims.length
      ∧ stats.pendingClaims = claims.countP (fun claim => claim.status = .string "pending")
      ∧ stats.activeAlerts = alerts.length := by
  refine ⟨_, getDashboardStats_of_fetched dateParse sql practiceId claims alerts logs hc ha hl,
    rfl, ?_, rfl⟩
  simp [List.countP_eq_length_filter]

/-- C2. Whatever rows the three fetches return, `totalRevenue` is the sum over the fetched claims
of the received amount, added up from the first claim to the last as JavaScript adds numbers (each
addition rounded to the nearest double), a claim whose `received_amount` is `undefined`, `null`
or not numeric counting for zero; and such a claim contributes exactly zero: the total is the same
sum over the claims that have a numeric amount. -/
theorem getDashboardStats_totalRevenue (dateParse : String → JsNumber) (sql : SqlHandle)
    (practiceId : JsValue) (claims : List ClaimRow) (alerts : List AlertRow)
    (logs : List AutomationLogRow)
    (hc : sql.selectClaims (tenantScope practiceId) = .ok claims)
    (ha : sql.selectUnresolvedAlerts (tenantScope practiceId) = .ok alerts)
    (hl : sql.selectAutomationLogs (tenantScope practiceId) = .ok logs) :
    ∃ stats, getDashboardStats dateParse sql practiceId = .ok stats
      ∧ stats.totalRevenue = claims.foldl (fun sum claim => sum + receivedOrZero claim) 0
      ∧ stats.totalRevenue
        = (claims.filter (fun claim => decide (hasNumericAmount claim))).foldl
            (fun sum claim => sum + parseFloat claim.received_amount) 0 := by
  refine ⟨_, getDashboardStats_of_fetched dateParse sql practiceId claims alerts logs hc ha hl,
    totalRevenue_eq_foldl claims, ?_⟩
  exact (totalRevenue_eq_foldl claims).trans (foldl_numeric claims 0 JsNumber.zero_add_zero)

/-- C3. When every fetched claim has a valid submission date, `recentClaims` has
`min 5 (number of claims)` entries, runs from the most recent submission date to the least recent,
and is a selection of the fetched claims such that every claim left out was submitted no later
than every claim included. -/
theorem getDashboardStats_recentClaims (dateParse : String → JsNumber) (sql : SqlHandle)
    (practiceId : JsValue) (claims : List ClaimRow) (alerts : List AlertRow)
    (logs : List AutomationLogRow)
    (hc : sql.selectClaims (tenantScope practiceId) = .ok claims)
    (ha : sql.selectUnresolvedAlerts (tenantScope practiceId) = .ok alerts)
    (hl : sql.selectAutomationLogs (tenantScope practiceId) = .ok logs)
    (hvalid : ∀ c ∈ claims, hasValidSubmissionDate dateParse c) :
    ∃ stats, getDashboardStats dateParse sql practiceId = .ok stats
      ∧ stats.recentClaims.length = min 5 claims.length
      ∧ stats.recentClaims.Pairwise
          (fun a b => submissionTime dateParse b ≤ submissionTime dateParse a)
      ∧ ∃ leftOut, (stats.recentClaims ++ leftOut).Perm claims
          ∧ ∀ x ∈ leftOut, ∀ y ∈ stats.recentClaims,
              submissionTime dateParse x ≤ submissionTime dateParse y := by
  refine ⟨_, getDashboardStats_of_fetched dateParse sql practiceId claims alerts logs hc ha hl,
    ?_, ?_, ?_⟩
  · simp [sortWith, List.length_insertionSort]
  · show ((sortWith (bySubmissionDateDesc dateParse) claims).take 5).Pairwise _
    rw [sortWith_bySubmissionDateDesc dateParse claims hvalid]
    exact (List.sorted_insertionSort (submittedNoEarlier dateParse) claims).sublist
      (List.take_sublist 5 _)
  · show ∃ leftOut, ((sortWith (bySubmissionDateDesc dateParse) claims).take 5 ++ leftOut).Perm
        claims ∧ ∀ x ∈ leftOut, ∀ y ∈ (sortWith (bySubmissionDateDesc dateParse) claims).take 5,
          submissionTime dateParse x ≤ submissionTime dateParse y
    rw [sortWith_bySubmissionDateDesc dateParse claims hvalid]
    refine ⟨(claims.insertionSort (submittedNoEarlier dateParse)).drop 5, ?_, ?_⟩
    · rw [List.take_append_drop]
      exact List.perm_insertionSort _ claims
    · have hs := List.sorted_insertionSort (submittedNoEarlier dateParse) claims
      rw [← List.take_append_drop 5 (claims.insertionSort (submittedNoEarlier dateParse))] at hs
      intro x hx y hy
      exact (List.pairwise_append.mp hs).2.2 y hy x hx

/-- C1, at the example of the specification: claims with statuses paid, pending, underpaid and no
alerts give `totalClaims` 3, `pendingClaims` 1, `activeAlerts` 0. -/
theorem getDashboardStats_counts_witness :
    (exampleDb.sql.selectClaims (tenantScope .null) = .ok exampleClaims
      ∧ exampleDb.sql.selectUnresolvedAlerts (tenantScope .null) = .ok []
      ∧ exampleDb.sql.selectAutomationLogs (tenantScope .null) = .ok [])
    ∧ ∃ stats, getDashboardStats noDateParse exampleDb.sql .null = .ok stats
      ∧ stats.totalClaims = 3 ∧ stats.pendingClaims = 1 ∧ stats.activeAlerts = 0 := by
  refine ⟨⟨rfl, rfl, rfl⟩, ?_⟩
  obtain ⟨stats, h, h1, h2, h3⟩ :=
    getDashboardStats_counts noDateParse exampleDb.sql .null exampleClaims [] [] rfl rfl rfl
  exact ⟨stats, h, h1, h2.trans (by decide), h3⟩

/-- C2, at examples: no claims give revenue 0; received amounts 120, 0, 60 give revenue 180; and
received amounts 0.10, 0.20, 0.30 give `5404319552844596 / 2 ^ 53`, the double that prints as
`0.6000000000000001`, which is not the double nearest to 0.6. -/
theorem getDashboardStats_totalRevenue_witness :
    (emptyDb.sql.selectClaims (tenantScope .null) = .ok []
      ∧ exampleDb.sql.selectClaims (tenantScope .null) = .ok exampleClaims
      ∧ exampleCentsDb.sql.selectClaims (tenantScope .null) = .ok exampleCentsClaims)
    ∧ (∃ stats, getDashboardStats noDateParse emptyDb.sql .null = .ok stats
      ∧ stats.totalRevenue = .fin 0)
    ∧ (∃ stats, getDashboardStats noDateParse exampleDb.sql .null = .ok stats
      ∧ stats.totalRevenue = .fin 180)
    ∧ (∃ stats, getDashboardStats noDateParse exampleCentsDb.sql .null = .ok stats
      ∧ stats.totalRevenue = .fin (5404319552844596 / 2 ^ 53))
    ∧ roundToDouble (3 / 5) = .fin (5404319552844595 / 2 ^ 53) := by
  refine ⟨⟨rfl, rfl, rfl⟩, ?_, ?_, ?_, ?_⟩
  · obtain ⟨stats, h, h1, _⟩ :=
      getDashboardStats_totalRevenue noDateParse emptyDb.sql .null [] [] [] rfl rfl rfl
    exact ⟨stats, h, h1.trans rfl⟩
  · obtain ⟨stats, h, h1, _⟩ :=
      getDashboardStats_totalRevenue noDateParse exampleDb.sql .null exampleClaims [] [] rfl rfl rfl
    refine ⟨stats, h, h1.trans ?_⟩
    have h0 : roundToDouble 0 = .fin 0 := roundToDouble_zero
    have h60 : roundToDouble 60 = .fin 60 := by
      simpa using roundToDouble_intCast 60 (by norm_num)
    have h120 : roundToDouble 120 = .fin 120 := by
      simpa using roundToDouble_intCast 120 (by norm_num)
    have h180 : roundToDouble 180 = .fin 180 := by
      simpa using roundToDouble_intCast 180 (by norm_num)
    simp [exampleClaims, receivedOrZero, parseFloat, parseFloatString, unsignedLiteralValue,
      startsWithChars, isJsWhiteSpace, digitsValue, exponentValue, List.takeWhile, List.dropWhile,
      JsNumber.add_def, JsNumber.zero_def, JsNumber.add, h0, h60, h120, h180]
    norm_num [h180]
  · obtain ⟨stats, h, h1, _⟩ :=
      getDashboardStats_totalRevenue noDateParse exampleCentsDb.sql .null exampleCentsClaims [] []
        rfl rfl rfl
    refine ⟨stats, h, h1.trans ?_⟩
    have p1 : parseFloat (.string "0.10") = .fin (7205759403792794 / 2 ^ 56) := by
      simp only [parseFloat, parseFloatString, unsignedLiteralValue, startsWithChars,
        isJsWhiteSpace, digitsValue, exponentValue, List.takeWhile, List.dropWhile]
      simp
      exact roundToDouble_tenth _ _ (by norm_num) (by norm_num)
    have p2 : parseFloat (.string "0.20") = .fin (7205759403792794 / 2 ^ 55) := by
      simp only [parseFloat, parseFloatString, unsignedLiteralValue, startsWithChars,
        isJsWhiteSpace, digitsValue, exponentValue, List.takeWhile, List.dropWhile]
      simp
      exact roundToDouble_fifth _ _ (by norm_num) (by norm_num)
    have p3 : parseFloat (.string "0.30") = .fin (5404319552844595 / 2 ^ 54) := by
      simp only [parseFloat, parseFloatString, unsignedLiteralValue, startsWithChars,
        isJsWhiteSpace, digitsValue, exponentValue, List.takeWhile, List.dropWhile]
      simp
      exact roundToDouble_three_tenths _ _ (by norm_num) (by norm_num)
    simp only [exampleCentsClaims, List.foldl_cons, List.foldl_nil, receivedOrZero, p1, p2, p3,
      reduceCtorEq, or_self, if_false, JsNumber.zero_def, JsNumber.fin_add_fin, zero_add,
      roundToDouble_idem _ _ (roundToDouble_tenth (1 / 10) _ rfl rfl),
      roundToDouble_tenth_add_fifth,
      roundToDouble_add_three_tenths]
  · exact roundToDouble_three_fifths

/-- C3, at the example of the specification: submission dates 2024-01-15, 2024-01-22, 2024-01-10
give `recentClaims` in the order 2024-01-22, 2024-01-15, 2024-01-10. -/
theorem getDashboardStats_recentClaims_witness :
    (exampleDb.sql.selectClaims (tenantScope .null) = .ok exampleClaims
      ∧ ∀ c ∈ exampleClaims, hasValidSubmissionDate noDateParse c)
    ∧ (∃ stats, getDashboardStats noDateParse exampleDb.sql .null = .ok stats
      ∧ stats.recentClaims.length = min 5 exampleClaims.length
      ∧ stats.recentClaims.Pairwise
          (fun a b => submissionTime noDateParse b ≤ submissionTime noDateParse a)
      ∧ ∃ leftOut, (stats.recentClaims ++ leftOut).Perm exampleClaims
          ∧ ∀ x ∈ leftOut, ∀ y ∈ stats.recentClaims,
              submissionTime noDateParse x ≤ submissionTime noDateParse y)
    ∧ (getDashboardStats noDateParse exampleDb.sql .null).map
        (fun stats => stats.recentClaims.map (fun claim => claim.submission_date))
      = .ok [.date (some 1705881600000), .date (some 1705276800000),
          .date (some 1704844800000)] := by
  have hvalid : ∀ c ∈ exampleClaims, hasValidSubmissionDate noDateParse c := by
    intro c hc
    simp only [exampleClaims, List.mem_cons, List.mem_singleton, List.not_mem_nil, or_false] at hc
    rcases hc with rfl | rfl | rfl <;> rfl
  refine ⟨⟨rfl, hvalid⟩, ?_, ?_⟩
  · exact getDashboardStats_recentClaims noDateParse exampleDb.sql .null exampleClaims [] []
      rfl rfl rfl hvalid
  · rw [getDashboardStats_of_fetched noDateParse exampleDb.sql .null exampleClaims [] []
      rfl rfl rfl]
    simp only [Except.map, sortWith_bySubmissionDateDesc noDateParse exampleClaims hvalid]
    exact congrArg Except.ok (by decide)

/-! ## Tenant isolation -/

theorem sqlEq_eq {column parameter : JsValue} (h : sqlEq column parameter = true) :
    column = parameter := by
  simp only [sqlEq, Bool.and_eq_true, beq_iff_eq] at h
  exact h.2

theorem tenantScope_of_truthy {practiceId : JsValue} (h : practiceId.truthy = true) :
    tenantScope practiceId = some practiceId := by
  simp [tenantScope, h]

/-- C4. For a tenant id `t` (a truthy value), each of the three statements of
`getDashboardStats(t)` returns only rows whose `practice_id` is `t`; and two databases whose
claims of tenant `t` and whose unresolved alerts of tenant `t` are the same give the same
statistics for `t`, whatever else they hold. -/
theorem getDashboardStats_tenant_isolation (dateParse : String → JsNumber) (db db' : Database)
    (t : JsValue) (ht : t.truthy = true)
    (hclaims : db.claims.filter (fun c => sqlEq c.practice_id t)
      = db'.claims.filter (fun c => sqlEq c.practice_id t))
    (halerts : db.alerts.filter (fun a => sqlEq a.practice_id t && sqlEq a.is_resolved (.bool false))
      = db'.alerts.filter (fun a => sqlEq a.practice_id t && sqlEq a.is_resolved (.bool false))) :
    (∃ claims alerts logs,
        db.sql.selectClaims (tenantScope t) = .ok claims
        ∧ db.sql.selectUnresolvedAlerts (tenantScope t) = .ok alerts
        ∧ db.sql.selectAutomationLogs (tenantScope t) = .ok logs
        ∧ (∀ c ∈ claims, c.practice_id = t) ∧ (∀ a ∈ alerts, a.practice_id = t)
        ∧ (∀ l ∈ logs, l.practice_id = t))
    ∧ ∃ stats, getDashboardStats dateParse db.sql t = .ok stats
        ∧ getDashboardStats dateParse db'.sql t = .ok stats := by
  have hscope := tenantScope_of_truthy ht
  constructor
  · refine ⟨db.claims.filter (fun c => sqlEq c.practice_id t),
      db.alerts.filter (fun a => sqlEq a.practice_id t && sqlEq a.is_resolved (.bool false)),
      db.automation_logs.filter (fun l => sqlEq l.practice_id t), ?_, ?_, ?_, ?_, ?_, ?_⟩
    · rw [hscope]; rfl
    · rw [hscope]; rfl
    · rw [hscope]; rfl
    · intro c hc
      exact sqlEq_eq (List.mem_filter.mp hc).2
    · intro a ha
      have h := (List.mem_filter.mp ha).2
      rw [Bool.and_eq_true] at h
      exact sqlEq_eq h.1
    · intro l hl
      exact sqlEq_eq (List.mem_filter.mp hl).2
  · refine ⟨_, getDashboardStats_of_fetched dateParse db.sql t
      (db.claims.filter (fun c => sqlEq c.practice_id t))
      (db.alerts.filter (fun a => sqlEq a.practice_id t && sqlEq a.is_resolved (.bool false)))
      (db.automation_logs.filter (fun l => sqlEq l.practice_id t))
      (by rw [hscope]; rfl) (by rw [hscope]; rfl) (by rw [hscope]; rfl), ?_⟩
    rw [hclaims, halerts]
    exact getDashboardStats_of_fetched dateParse db'.sql t
      (db'.claims.filter (fun c => sqlEq c.practice_id t))
      (db'.alerts.filter (fun a => sqlEq a.practice_id t && sqlEq a.is_resolved (.bool false)))
      (db'.automation_logs.filter (fun l => sqlEq l.practice_id t))
      (by rw [hscope]; rfl) (by rw [hscope]; rfl) (by rw [hscope]; rfl)

/-- C4, at an example: adding a claim, an unresolved alert and an automation log of tenant `p2`
to the example database leaves the statistics of tenant `p1` as they were. -/
theorem getDashboardStats_tenant_isolation_witness :
    (JsValue.string "p1").truthy = true
    ∧ exampleDb.claims.filter (fun c => sqlEq c.practice_id (.string "p1"))
      = exampleDbTwoTenants.claims.filter (fun c => sqlEq c.practice_id (.string "p1"))
    ∧ exampleDb.alerts.filter
        (fun a => sqlEq a.practice_id (.string "p1") && sqlEq a.is_resolved (.bool false))
      = exampleDbTwoTenants.alerts.filter
        (fun a => sqlEq a.practice_id (.string "p1") && sqlEq a.is_resolved (.bool false))
    ∧ exampleDb.claims ≠ exampleDbTwoTenants.claims
    ∧ ∃ stats, getDashboardStats noDateParse exampleDb.sql (.string "p1") = .ok stats
        ∧ getDashboardStats noDateParse exampleDbTwoTenants.sql (.string "p1") = .ok stats :=
  ⟨by decide, by decide, by decide, by decide,
    (getDashboardStats_tenant_isolation noDateParse exampleDb exampleDbTwoTenants (.string "p1")
      (by decide) (by decide) (by decide)).2⟩

/-! ## The role gate -/

/-- C5. The handler returned by `requireRole(roles)` answers 401 `Authentication required`
without calling `next` when the request has no identity, answers 403 `Insufficient permissions`
without calling `next` when the identity's role is not one of `roles`, and calls `next` once,
sending nothing, when the role is one of `roles`; it calls `next` in no other case.  In particular
role `staff` against the roles `admin` is answered 403 and role `admin` proceeds. -/
theorem requireRole_gate (roles : List String) (req : Request) :
    (req.user = none →
      (requireRole roles req).response = some (errorResponse 401 "Authentication required")
      ∧ (requireRole roles req).nextCalls = 0)
    ∧ (∀ user, req.user = some user → (¬ ∃ r, user.role = .string r ∧ r ∈ roles) →
      (requireRole roles req).response = some (errorResponse 403 "Insufficient permissions")
      ∧ (requireRole roles req).nextCalls = 0)
    ∧ (∀ user, req.user = some user → (∃ r, user.role = .string r ∧ r ∈ roles) →
      (requireRole roles req).response = none ∧ (requireRole roles req).nextCalls = 1)
    ∧ ((requireRole roles req).nextCalls ≠ 0 →
      ∃ user r, req.user = some user ∧ user.role = .string r ∧ r ∈ roles)
    ∧ (requireRole roles req).req = req
    ∧ (requireRole ["admin"] (requestWithRole "staff")).response
        = some (errorResponse 403 "Insufficient permissions")
    ∧ (requireRole ["admin"] (requestWithRole "staff")).nextCalls = 0
    ∧ (requireRole ["admin"] (requestWithRole "admin")).response = none
    ∧ (requireRole ["admin"] (requestWithRole "admin")).nextCalls = 1 := by
  have hmem : ∀ role : JsValue,
      rolesInclude roles role = true ↔ ∃ r, role = .string r ∧ r ∈ roles := by
    intro role
    cases role <;> simp [rolesInclude]
  refine ⟨?_, ?_, ?_, ?_, ?_, rfl, by decide, rfl, by decide⟩
  · intro h
    simp [requireRole, h]
  · intro user h hnot
    have hfalse : rolesInclude roles user.role = false := by
      rw [← Bool.not_eq_true, hmem]
      exact hnot
    simp [requireRole, h, hfalse]
  · intro user h hin
    have htrue : rolesInclude roles user.role = true := (hmem _).mpr hin
    simp [requireRole, h, htrue]
  · intro hnext
    cases h : req.user with
    | none => simp [requireRole, h] at hnext
    | some user =>
      by_cases hin : rolesInclude roles user.role = true
      · obtain ⟨r, hr, hrm⟩ := (hmem _).mp hin
        exact ⟨user, r, rfl, hr, hrm⟩
      · rw [Bool.not_eq_true] at hin
        simp [requireRole, h, hin] at hnext
  · unfold requireRole
    split
    · rfl
    · split <;> rfl

/-- C5, at an example: an identity with role `staff` meets the hypotheses of the 403 case for the
roles `admin`. -/
theorem requireRole_gate_witness :
    (requestWithRole "staff").user
      = some { id := .string "u1", email := .string "u1@example.com", role := .string "staff",
               practiceId := .string "p1", firstName := .string "Ann", lastName := .string "Lee" }
    ∧ (¬ ∃ r, JsValue.string "staff" = .string r ∧ r ∈ ["admin"])
    ∧ (requireRole ["admin"] (requestWithRole "staff")).response
        = some (errorResponse 403 "Insufficient permissions")
    ∧ (requireRole ["admin"] (requestWithRole "staff")).nextCalls = 0 :=
  have hnot : ¬ ∃ r, JsValue.string "staff" = .string r ∧ r ∈ ["admin"] := by
    rintro ⟨r, hr, hmem⟩
    cases hr
    simp at hmem
  ⟨rfl, hnot, (requireRole_gate ["admin"] (requestWithRole "staff")).2.1 _ rfl hnot⟩

/-! ## Lemmas on the bearer header -/

theorem startsWithChars_iff (p s : List Char) :
    startsWithChars p s = true ↔ ∃ r, s = p ++ r := by
  induction p generalizing s with
  | nil => simp [startsWithChars]
  | cons a p ih =>
    cases s with
    | nil => simp [startsWithChars]
    | cons b s =>
      simp only [startsWithChars, Bool.and_eq_true, decide_eq_true_eq, ih, List.cons_append,
        List.cons.injEq]
      constructor
      · rintro ⟨rfl, r, rfl⟩
        exact ⟨r, rfl, rfl⟩
      · rintro ⟨r, rfl, rfl⟩
        exact ⟨rfl, r, rfl⟩

/-- The test `authHeader.startsWith('Bearer ')` holds exactly of the headers that are `Bearer `
followed by some text. -/
theorem startsWithBearer_iff (authHeader : String) :
    startsWithBearer authHeader = true ↔ ∃ rest : String, authHeader = "Bearer " ++ rest := by
  unfold startsWithBearer
  rw [startsWithChars_iff]
  constructor
  · rintro ⟨r, hr⟩
    refine ⟨String.mk r, ?_⟩
    apply String.ext
    rw [String.data_append]
    exact hr
  · rintro ⟨rest, rfl⟩
    exact ⟨rest.data, String.data_append _ _⟩

theorem substring7_bearer (token : String) : substring7 ("Bearer " ++ token) = token := by
  unfold substring7
  have h : ("Bearer " ++ token).toList = 'B' :: 'e' :: 'a' :: 'r' :: 'e' :: 'r' :: ' ' :: token.data :=
    String.data_append _ _
  rw [h]
  rfl

theorem bearer_ne_empty (token : String) : "Bearer " ++ token ≠ "" := by
  intro h
  have h' := congrArg String.data h
  rw [String.data_append] at h'
  exact absurd h' (by simp)

/-- A request that carries `Bearer ` followed by a non-empty token reaches `jwt.verify`: the
middleware is determined by the outcome of the verification and of the user lookup. -/
theorem authMiddleware_of_token (env : Env)
    (jwtVerify : String → String → Except JsError JwtPayload) (sql : SqlHandle) (req : Request)
    (token : String) (hreq : req.authorization = some ("Bearer " ++ token)) (htoken : token ≠ "") :
    authMiddleware env jwtVerify sql req =
      match jwtVerify token (jwtSecret env) with
      | .error error => { req := req, response := some (authErrorResponse error) }
      | .ok decoded =>
        match getUserById sql decoded.userId with
        | .error error =>
          { req := req, response := some (authErrorResponse error),
            userLookups := [decoded.userId] }
        | .ok none =>
          { req := req, response := some (errorResponse 401 "User not found"),
            userLookups := [decoded.userId] }
        | .ok (some user) =>
          if user.is_active.truthy = false then
            { req := req, response := some (errorResponse 401 "User account is deactivated"),
              userLookups := [decoded.userId] }
          else
            { req := { req with user := some (identityOfUser user) }, nextCalls := 1,
              userLookups := [decoded.userId] } := by
  have hne := bearer_ne_empty token
  have hbypass : ¬ devBypassApplies env req := by
    rintro ⟨_, h | h⟩
    · rw [hreq] at h
      exact Option.noConfusion h
    · rw [hreq] at h
      exact hne (Option.some.inj h)
  have hstarts : startsWithBearer ("Bearer " ++ token) = true :=
    (startsWithBearer_iff _).mpr ⟨token, rfl⟩
  unfold authMiddleware
  rw [if_neg hbypass]
  simp only [hreq, hne, hstarts, substring7_bearer, htoken, false_or, if_false]
  simp

/-! ## The authorization gate: the claims -/

/-- C6. When the development bypass does not apply and the `authorization` header is absent, does
not start with `Bearer `, or is `Bearer ` with nothing after it, `authMiddleware` answers 401
`Access token required`, does not call `next`, leaves the request as it was (no identity is
attached) and does not consult the user store. -/
theorem authMiddleware_missing_credential (env : Env)
    (jwtVerify : String → String → Except JsError JwtPayload) (sql : SqlHandle) (req : Request)
    (hbypass : ¬ devBypassApplies env req)
    (hcred : req.authorization = none
      ∨ ∃ authHeader, req.authorization = some authHeader
          ∧ ((¬ ∃ rest : String, authHeader = "Bearer " ++ rest) ∨ authHeader = "Bearer ")) :
    (authMiddleware env jwtVerify sql req).response
        = some (errorResponse 401 "Access token required")
    ∧ (authMiddleware env jwtVerify sql req).nextCalls = 0
    ∧ (authMiddleware env jwtVerify sql req).req = req
    ∧ (authMiddleware env jwtVerify sql req).userLookups = [] := by
  unfold authMiddleware
  rw [if_neg hbypass]
  rcases hcred with h | ⟨authHeader, h, hbad | hbare⟩
  · simp [h]
  · have hstarts : startsWithBearer authHeader = false := by
      rw [← Bool.not_eq_true, startsWithBearer_iff]
      exact hbad
    simp [h, hstarts]
  · subst hbare
    have hsub : substring7 "Bearer " = "" := rfl
    simp [h, hsub]

/-- C6, at examples outside development mode: no header, a `Basic` header and a bare `Bearer `
header are each answered 401 `Access token required`. -/
theorem authMiddleware_missing_credential_witness :
    (¬ devBypassApplies {} {} ∧ ¬ devBypassApplies {} (requestWithHeader "Basic abc")
      ∧ ¬ devBypassApplies {} (requestWithHeader "Bearer ")
      ∧ ¬ ∃ rest : String, "Basic abc" = "Bearer " ++ rest)
    ∧ (authMiddleware {} exampleJwtVerify exampleUsersDb.sql {}).response
        = some (errorResponse 401 "Access token required")
    ∧ (authMiddleware {} exampleJwtVerify exampleUsersDb.sql (requestWithHeader "Basic abc")).response
        = some (errorResponse 401 "Access token required")
    ∧ (authMiddleware {} exampleJwtVerify exampleUsersDb.sql (requestWithHeader "Bearer ")).response
        = some (errorResponse 401 "Access token required") :=
  have hbasic : ¬ ∃ rest : String, "Basic abc" = "Bearer " ++ rest :=
    fun h => absurd ((startsWithBearer_iff "Basic abc").mpr h) (by decide)
  ⟨⟨by decide, by decide, by decide, hbasic⟩,
    (authMiddleware_missing_credential {} exampleJwtVerify exampleUsersDb.sql {}
      (by decide) (Or.inl rfl)).1,
    (authMiddleware_missing_credential {} exampleJwtVerify exampleUsersDb.sql
      (requestWithHeader "Basic abc") (by decide) (Or.inr ⟨_, rfl, Or.inl hbasic⟩)).1,
    (authMiddleware_missing_credential {} exampleJwtVerify exampleUsersDb.sql
      (requestWithHeader "Bearer ") (by decide) (Or.inr ⟨_, rfl, Or.inr rfl⟩)).1⟩

/-- C7. For a bearer token on which `jwt.verify` throws: when the error is the library's
`JsonWebTokenError` (its report of a signature that does not verify) the answer is 401
`Invalid token`, and when it is `TokenExpiredError` (its report of a correctly signed token whose
expiry has passed) the answer is 401 `Token expired`; in either case `next` is not called, the
request is left as it was and the user store is not consulted. -/
theorem authMiddleware_rejects_unverified (env : Env)
    (jwtVerify : String → String → Except JsError JwtPayload) (sql : SqlHandle) (req : Request)
    (token : String) (error : JsError)
    (hreq : req.authorization = some ("Bearer " ++ token)) (htoken : token ≠ "")
    (hverify : jwtVerify token (jwtSecret env) = .error error) :
    (error.name = "JsonWebTokenError" →
      (authMiddleware env jwtVerify sql req).response = some (errorResponse 401 "Invalid token"))
    ∧ (error.name = "TokenExpiredError" →
      (authMiddleware env jwtVerify sql req).response = some (errorResponse 401 "Token expired"))
    ∧ (authMiddleware env jwtVerify sql req).nextCalls = 0
    ∧ (authMiddleware env jwtVerify sql req).req = req
    ∧ (authMiddleware env jwtVerify sql req).userLookups = [] := by
  rw [authMiddleware_of_token env jwtVerify sql req token hreq htoken, hverify]
  refine ⟨?_, ?_, rfl, rfl, rfl⟩
  · intro h
    simp [authErrorResponse, h]
  · intro h
    simp [authErrorResponse, h]

/-- C7, at examples: a token whose signature fails is answered 401 `Invalid token` and an expired
token 401 `Token expired`. -/
theorem authMiddleware_rejects_unverified_witness :
    (exampleJwtVerify "tampered" (jwtSecret {})
        = .error { name := "JsonWebTokenError", message := "invalid signature" }
      ∧ exampleJwtVerify "old" (jwtSecret {})
        = .error { name := "TokenExpiredError", message := "jwt expired" })
    ∧ (authMiddleware {} exampleJwtVerify exampleUsersDb.sql
        (requestWithHeader "Bearer tampered")).response = some (errorResponse 401 "Invalid token")
    ∧ (authMiddleware {} exampleJwtVerify exampleUsersDb.sql
        (requestWithHeader "Bearer old")).response = some (errorResponse 401 "Token expired") :=
  have htampered : exampleJwtVerify "tampered" (jwtSecret {})
      = .error { name := "JsonWebTokenError", message := "invalid signature" } := rfl
  have hold : exampleJwtVerify "old" (jwtSecret {})
      = .error { name := "TokenExpiredError", message := "jwt expired" } := rfl
  ⟨⟨htampered, hold⟩,
    (authMiddleware_rejects_unverified {} exampleJwtVerify exampleUsersDb.sql
      (requestWithHeader "Bearer tampered") "tampered" _ rfl (by decide) htampered).1 rfl,
    (authMiddleware_rejects_unverified {} exampleJwtVerify exampleUsersDb.sql
      (requestWithHeader "Bearer old") "old" _ rfl (by decide) hold).2.1 rfl⟩

/-- C8. For a request whose credential verifies, `authMiddleware` answers 401 `User not found`
when the store has no record for the credential's user id, answers 401
`User account is deactivated` when the record's `is_active` is `false`, and calls `next` once,
sending nothing, when the record exists with `is_active` `true`.  Hence when two stores return the
same record except that `is_active` is `false` in the first and `true` in the second, the request
rejected on the first proceeds on the second. -/
theorem authMiddleware_account_state (env : Env)
    (jwtVerify : String → String → Except JsError JwtPayload) (sql : SqlHandle) (req : Request)
    (token : String) (decoded : JwtPayload)
    (hreq : req.authorization = some ("Bearer " ++ token)) (htoken : token ≠ "")
    (hverify : jwtVerify token (jwtSecret env) = .ok decoded) :
    (sql.selectUserById decoded.userId = .ok [] →
      (authMiddleware env jwtVerify sql req).response = some (errorResponse 401 "User not found")
      ∧ (authMiddleware env jwtVerify sql req).nextCalls = 0)
    ∧ (∀ user rest, sql.selectUserById decoded.userId = .ok (user :: rest) →
      user.is_active = .bool false →
      (authMiddleware env jwtVerify sql req).response
          = some (errorResponse 401 "User account is deactivated")
      ∧ (authMiddleware env jwtVerify sql req).nextCalls = 0)
    ∧ (∀ user rest, sql.selectUserById decoded.userId = .ok (user :: rest) →
      user.is_active = .bool true →
      (authMiddleware env jwtVerify sql req).response = none
      ∧ (authMiddleware env jwtVerify sql req).nextCalls = 1)
    ∧ (∀ (sql' : SqlHandle) (user : UserRow) (rest : List UserRow),
      sql.selectUserById decoded.userId = .ok ({ user with is_active := .bool false } :: rest) →
      sql'.selectUserById decoded.userId = .ok ({ user with is_active := .bool true } :: rest) →
      ((authMiddleware env jwtVerify sql req).response
          = some (errorResponse 401 "User account is deactivated")
        ∧ (authMiddleware env jwtVerify sql req).nextCalls = 0)
      ∧ (authMiddleware env jwtVerify sql' req).response = none
      ∧ (authMiddleware env jwtVerify sql' req).nextCalls = 1) := by
  have hmissing : ∀ s : SqlHandle, s.selectUserById decoded.userId = .ok [] →
      (authMiddleware env jwtVerify s req).response = some (errorResponse 401 "User not found")
      ∧ (authMiddleware env jwtVerify s req).nextCalls = 0 := by
    intro s h
    have hget : getUserById s decoded.userId = .ok none := by
      simp only [getUserById, h]
      rfl
    rw [authMiddleware_of_token env jwtVerify s req token hreq htoken, hverify]
    simp [hget]
  have hinactive : ∀ (s : SqlHandle) user rest,
      s.selectUserById decoded.userId = .ok (user :: rest) → user.is_active = .bool false →
      (authMiddleware env jwtVerify s req).response
          = some (errorResponse 401 "User account is deactivated")
      ∧ (authMiddleware env jwtVerify s req).nextCalls = 0 := by
    intro s user rest h hflag
    have hget : getUserById s decoded.userId = .ok (some user) := by
      simp only [getUserById, h]
      rfl
    rw [authMiddleware_of_token env jwtVerify s req token hreq htoken, hverify]
    simp [hget, hflag, JsValue.truthy]
  have hactive : ∀ (s : SqlHandle) user rest,
      s.selectUserById decoded.userId = .ok (user :: rest) → user.is_active = .bool true →
      (authMiddleware env jwtVerify s req).response = none
      ∧ (authMiddleware env jwtVerify s req).nextCalls = 1 := by
    intro s user rest h hflag
    have hget : getUserById s decoded.userId = .ok (some user) := by
      simp only [getUserById, h]
      rfl
    rw [authMiddleware_of_token env jwtVerify s req token hreq htoken, hverify]
    simp [hget, hflag, JsValue.truthy]
  exact ⟨hmissing sql, hinactive sql, hactive sql,
    fun sql' user rest h h' => ⟨hinactive sql _ rest h rfl, hactive sql' _ rest h' rfl⟩⟩

/-- C8, at an example: the request with the token `good` is answered 401
`User account is deactivated` while the account of `u1` is deactivated, 401 `User not found` on a
store without the user, and proceeds once the account is active again. -/
theorem authMiddleware_account_state_witness :
    ((requestWithHeader "Bearer good").authorization = some ("Bearer " ++ "good")
      ∧ "good" ≠ ""
      ∧ exampleJwtVerify "good" (jwtSecret {})
        = .ok { userId := .string "u1", email := .string "u1@example.com",
                role := .string "staff", practiceId := .string "p1" }
      ∧ exampleDeactivatedDb.sql.selectUserById (.string "u1")
        = .ok [{ exampleUser with is_active := .bool false }]
      ∧ exampleUsersDb.sql.selectUserById (.string "u1")
        = .ok [{ exampleUser with is_active := .bool true }]
      ∧ emptyDb.sql.selectUserById (.string "u1") = .ok [])
    ∧ ((authMiddleware {} exampleJwtVerify exampleDeactivatedDb.sql
          (requestWithHeader "Bearer good")).response
          = some (errorResponse 401 "User account is deactivated")
        ∧ (authMiddleware {} exampleJwtVerify exampleDeactivatedDb.sql
          (requestWithHeader "Bearer good")).nextCalls = 0)
    ∧ ((authMiddleware {} exampleJwtVerify exampleUsersDb.sql
          (requestWithHeader "Bearer good")).response = none
        ∧ (authMiddleware {} exampleJwtVerify exampleUsersDb.sql
          (requestWithHeader "Bearer good")).nextCalls = 1)
    ∧ (authMiddleware {} exampleJwtVerify emptyDb.sql
          (requestWithHeader "Bearer good")).response
          = some (errorResponse 401 "User not found") :=
  have hreactivate := (authMiddleware_account_state {} exampleJwtVerify exampleDeactivatedDb.sql
    (requestWithHeader "Bearer good") "good" _ rfl (by decide) rfl).2.2.2
    exampleUsersDb.sql exampleUser [] rfl rfl
  ⟨⟨rfl, by decide, rfl, rfl, rfl, rfl⟩, hreactivate.1, hreactivate.2,
    ((authMiddleware_account_state {} exampleJwtVerify emptyDb.sql
      (requestWithHeader "Bearer good") "good" _ rfl (by decide) rfl).1 rfl).1⟩

/-- C9. Whenever `authMiddleware` calls `next` for a request whose credential verifies, the store
holds a record for the credential's user id and the identity attached is
`{id, email, role, practiceId, firstName, lastName}` read from that record's `id`, `email`,
`role`, `practice_id`, `first_name`, `last_name`.  Of the decoded payload only `userId` is used:
two verifications that decode to payloads with the same `userId` give the same result. -/
theorem authMiddleware_identity_from_store (env : Env)
    (jwtVerify : String → String → Except JsError JwtPayload) (sql : SqlHandle) (req : Request)
    (token : String) (decoded : JwtPayload)
    (hreq : req.authorization = some ("Bearer " ++ token)) (htoken : token ≠ "")
    (hverify : jwtVerify token (jwtSecret env) = .ok decoded) :
    ((authMiddleware env jwtVerify sql req).nextCalls ≠ 0 →
      ∃ user rest, sql.selectUserById decoded.userId = .ok (user :: rest)
        ∧ (authMiddleware env jwtVerify sql req).req.user
          = some { id := user.id, email := user.email, role := user.role,
                   practiceId := user.practice_id, firstName := user.first_name,
                   lastName := user.last_name })
    ∧ (∀ (jwtVerify' : String → String → Except JsError JwtPayload) (decoded' : JwtPayload),
      jwtVerify' token (jwtSecret env) = .ok decoded' → decoded'.userId = decoded.userId →
      authMiddleware env jwtVerify' sql req = authMiddleware env jwtVerify sql req) := by
  constructor
  · intro hnext
    rw [authMiddleware_of_token env jwtVerify sql req token hreq htoken, hverify] at hnext ⊢
    simp only [getUserById] at hnext ⊢
    cases hrows : sql.selectUserById decoded.userId with
    | error e =>
      rw [hrows] at hnext
      exact absurd rfl hnext
    | ok rows =>
      cases rows with
      | nil =>
        rw [hrows] at hnext
        exact absurd rfl hnext
      | cons user rest =>
        rw [hrows] at hnext
        refine ⟨user, rest, rfl, ?_⟩
        by_cases hactive : user.is_active.truthy = false
        · simp [bind, Except.bind, pure, Except.pure, hactive] at hnext
        · simp [bind, Except.bind, pure, Except.pure, hactive, identityOfUser]
  · intro jwtVerify' decoded' hverify' hid
    rw [authMiddleware_of_token env jwtVerify' sql req token hreq htoken, hverify',
      authMiddleware_of_token env jwtVerify sql req token hreq htoken, hverify]
    simp only [hid]

/-- C9, at an example: the token `good` was issued to `u1` as `staff` of tenant `p1`; the stored
record now says `admin` of tenant `p2`, and that is the identity attached. -/
theorem authMiddleware_identity_from_store_witness :
    ((requestWithHeader "Bearer good").authorization = some ("Bearer " ++ "good")
      ∧ "good" ≠ ""
      ∧ exampleJwtVerify "good" (jwtSecret {})
        = .ok { userId := .string "u1", email := .string "u1@example.com",
                role := .string "staff", practiceId := .string "p1" }
      ∧ (authMiddleware {} exampleJwtVerify exampleUsersDb.sql
          (requestWithHeader "Bearer good")).nextCalls ≠ 0)
    ∧ (∃ user rest, exampleUsersDb.sql.selectUserById (.string "u1") = .ok (user :: rest)
        ∧ (authMiddleware {} exampleJwtVerify exampleUsersDb.sql
            (requestWithHeader "Bearer good")).req.user
          = some { id := user.id, email := user.email, role := user.role,
                   practiceId := user.practice_id, firstName := user.first_name,
                   lastName := user.last_name })
    ∧ (authMiddleware {} exampleJwtVerify exampleUsersDb.sql
          (requestWithHeader "Bearer good")).req.user
        = some { id := .string "u1", email := .string "u1@example.com", role := .string "admin",
                 practiceId := .string "p2", firstName := .string "Ann",
                 lastName := .string "Lee" } :=
  have hnext : (authMiddleware {} exampleJwtVerify exampleUsersDb.sql
      (requestWithHeader "Bearer good")).nextCalls ≠ 0 := by decide
  ⟨⟨rfl, by decide, rfl, hnext⟩,
    (authMiddleware_identity_from_store {} exampleJwtVerify exampleUsersDb.sql
      (requestWithHeader "Bearer good") "good" _ rfl (by decide) rfl).1 hnext,
    by decide⟩

/-- C10. Whatever the request, the environment, the outcome of `jwt.verify` and the outcome of
the user lookup (rows, no rows or a rejection), `optionalAuthMiddleware` calls `next` exactly once
and sends no response; and it either leaves the request as it was, or the request carried a
bearer token that verified, the lookup returned a record with a truthy `is_active`, and the
identity of that record is what was attached. -/
theorem optionalAuthMiddleware_never_rejects (env : Env)
    (jwtVerify : String → String → Except JsError JwtPayload) (sql : SqlHandle) (req : Request) :
    (optionalAuthMiddleware env jwtVerify sql req).nextCalls = 1
    ∧ (optionalAuthMiddleware env jwtVerify sql req).response = none
    ∧ ((optionalAuthMiddleware env jwtVerify sql req).req = req
      ∨ ∃ token decoded user,
          req.authorization = some ("Bearer " ++ token) ∧ token ≠ ""
          ∧ jwtVerify token (jwtSecret env) = .ok decoded
          ∧ getUserById sql decoded.userId = .ok (some user)
          ∧ user.is_active.truthy = true
          ∧ (optionalAuthMiddleware env jwtVerify sql req).req
            = { req with user := some (identityOfUser user) }) := by
  unfold optionalAuthMiddleware
  cases hauth : req.authorization with
  | none => simp
  | some authHeader =>
    by_cases hbad : authHeader = "" ∨ startsWithBearer authHeader = false
    · simp [hbad]
    · have hstarts : startsWithBearer authHeader = true := by
        by_contra h
        exact hbad (Or.inr (Bool.not_eq_true _ ▸ h))
      obtain ⟨token, rfl⟩ := (startsWithBearer_iff authHeader).mp hstarts
      simp only [if_neg hbad, substring7_bearer]
      by_cases htoken : token = ""
      · simp only [if_pos htoken]
        simp
      · simp only [if_neg htoken]
        cases hverify : jwtVerify token (jwtSecret env) with
        | error e => simp
        | ok decoded =>
          dsimp only
          cases hget : getUserById sql decoded.userId with
          | error e => simp
          | ok found =>
            cases found with
            | none => simp
            | some user =>
              by_cases hactive : user.is_active.truthy = true
              · refine ⟨?_, ?_, Or.inr ⟨token, decoded, user, rfl, htoken, hverify, hget,
                  hactive, ?_⟩⟩ <;> simp [hactive]
              · simp [hactive]

/-! ## The Session Authority: issue and verify -/

/-- C11. The credential issued at login or registration for a user (the payload
`{userId, email, role, practiceId}` of the user's record, signed under the configured secret with
lifetime `24h`) verifies under the same secret, at every time before the time of issue plus 24
hours, to a payload with the user's id, role and tenant; and at every time after the time of issue
plus 24 hours its verification fails with the expiry error, so that `authMiddleware` answers 401
`Token expired`. -/
theorem issued_credential_verifies (mac : String → JwtPayload → String)
    (encode : Credential → String) (decode : String → Option Credential) (env : Env)
    (sql : SqlHandle) (user : UserRow) (issued now : Nat) (token : String)
    (hsign : sessionSign mac encode issued (tokenPayload user) (jwtSecret env) "24h" = .ok token)
    (hcodec : decode (encode (issue mac (jwtSecret env) issued (tokenPayload user)))
      = some (issue mac (jwtSecret env) issued (tokenPayload user)))
    (htoken : token ≠ "") :
    (now < issued + 24 * 60 * 60 →
      ∃ payload, sessionVerify mac decode now token (jwtSecret env) = .ok payload
        ∧ payload.userId = user.id ∧ payload.role = user.role
        ∧ payload.practiceId = user.practice_id
        ∧ (authMiddleware env (sessionVerify mac decode now) sql
            { authorization := some ("Bearer " ++ token) }).userLookups = [user.id])
    ∧ (issued + 24 * 60 * 60 < now →
      (∃ error, sessionVerify mac decode now token (jwtSecret env) = .error error
        ∧ error.name = "TokenExpiredError")
      ∧ (authMiddleware env (sessionVerify mac decode now) sql
          { authorization := some ("Bearer " ++ token) }).response
          = some (errorResponse 401 "Token expired")) := by
  have hdecode : decode token
      = some (issue mac (jwtSecret env) issued (tokenPayload user)) := by
    simp only [sessionSign, if_true, Except.ok.injEq] at hsign
    rw [← hsign]
    exact hcodec
  have hverify : sessionVerify mac decode now token (jwtSecret env)
      = if ((issued + credentialLifetime : Nat) : ℚ) < (now : ℚ) then
          .error { name := "TokenExpiredError", message := "jwt expired" }
        else .ok (issue mac (jwtSecret env) issued (tokenPayload user)).payload := by
    simp only [sessionVerify, hdecode, verify, issue, ne_eq, not_true_eq_false, if_false]
    push_cast
    rfl
  constructor
  · intro hbefore
    have hnot : ¬ (((issued + credentialLifetime : Nat) : ℚ) < (now : ℚ)) := by
      rw [Nat.cast_lt]
      unfold credentialLifetime
      omega
    rw [if_neg hnot] at hverify
    refine ⟨_, hverify, rfl, rfl, rfl, ?_⟩
    rw [authMiddleware_of_token env _ sql _ token rfl htoken, hverify]
    dsimp only [issue, tokenPayload]
    split
    · rfl
    · rfl
    · split <;> rfl
  · intro hafter
    have hlt : ((issued + credentialLifetime : Nat) : ℚ) < (now : ℚ) := by
      rw [Nat.cast_lt]
      unfold credentialLifetime
      omega
    rw [if_pos hlt] at hverify
    refine ⟨⟨_, hverify, rfl⟩, ?_⟩
    rw [authMiddleware_of_token env _ sql _ token rfl htoken, hverify]
    rfl

/-- C11, at an example: the credential issued to the example user at time 1000 verifies at time
2000 to the user's id, role and tenant, and fails with the expiry error at time 100000. -/
theorem issued_credential_verifies_witness :
    (sessionSign exampleMac exampleEncode 1000 (tokenPayload exampleUser) (jwtSecret {}) "24h"
        = .ok "good"
      ∧ exampleDecode
          (exampleEncode (issue exampleMac (jwtSecret {}) 1000 (tokenPayload exampleUser)))
        = some (issue exampleMac (jwtSecret {}) 1000 (tokenPayload exampleUser))
      ∧ "good" ≠ "" ∧ 2000 < 1000 + 24 * 60 * 60 ∧ 1000 + 24 * 60 * 60 < 100000)
    ∧ (∃ payload, sessionVerify exampleMac exampleDecode 2000 "good" (jwtSecret {}) = .ok payload
        ∧ payload.userId = .string "u1" ∧ payload.role = .string "admin"
        ∧ payload.practiceId = .string "p2")
    ∧ ∃ error, sessionVerify exampleMac exampleDecode 100000 "good" (jwtSecret {}) = .error error
        ∧ error.name = "TokenExpiredError" := by
  have hsign : sessionSign exampleMac exampleEncode 1000 (tokenPayload exampleUser)
      (jwtSecret {}) "24h" = .ok "good" := by
    simp [sessionSign, exampleEncode, exampleCredential, jwtSecret]
  have hdecode : exampleDecode
      (exampleEncode (issue exampleMac (jwtSecret {}) 1000 (tokenPayload exampleUser)))
      = some (issue exampleMac (jwtSecret {}) 1000 (tokenPayload exampleUser)) := by
    simp [exampleDecode, exampleEncode, exampleCredential, jwtSecret]
  have h := issued_credential_verifies exampleMac exampleEncode exampleDecode {} emptyDb.sql
    exampleUser 1000 2000 "good" hsign hdecode (by decide)
  have h' := issued_credential_verifies exampleMac exampleEncode exampleDecode {} emptyDb.sql
    exampleUser 1000 100000 "good" hsign hdecode (by decide)
  refine ⟨⟨hsign, hdecode, by decide, by decide, by decide⟩, ?_, (h'.2 (by decide)).1⟩
  obtain ⟨payload, hp, h1, h2, h3, _⟩ := h.1 (by decide)
  exact ⟨payload, hp, h1, h2, h3⟩

/-! ## The authentication routes: lemmas -/

theorem getUserByEmail_of_rows (sql : RouteSql) (email : JsValue) (rows : List UserRow)
    (h : sql.selectUserByEmail (sqlParam email) = .ok rows) :
    getUserByEmail sql email = .ok rows.head? := by
  simp only [getUserByEmail, h]
  rfl

theorem getUserById_of_rows (sql : SqlHandle) (id : JsValue) (rows : List UserRow)
    (h : sql.selectUserById id = .ok rows) :
    getUserById sql id = .ok rows.head? := by
  simp only [getUserById, h]
  rfl

/-- A login answered with status 200 went through every check: a user was found, the password
compared equal, the account was active and a token was signed; the response is
`{ success: true, data: { user: userWithoutPassword, token } }`. -/
theorem loginHandler_success (env : Env) (libs : AuthLibs) (sql : RouteSql) (req : RouteRequest)
    (h : (loginHandler env libs sql req).response.status = 200) :
    ∃ user token,
      getUserByEmail sql (req.bodyField "email") = .ok (some user)
      ∧ libs.bcryptCompare (req.bodyField "password") user.password_hash = .ok true
      ∧ user.is_active.truthy = true
      ∧ libs.jwtSign (tokenPayload user) (jwtSecret env) "24h" = .ok token
      ∧ (loginHandler env libs sql req).response
        = dataResponse 200
            (.object [("user", Json.ofFields (userWithoutPassword user)),
              ("token", .string token)]) := by
  unfold loginHandler at h ⊢
  by_cases hvalid : req.validationErrors.isEmpty = false
  · simp [hvalid, invalidInputResponse] at h
  · simp only [if_neg hvalid] at h ⊢
    cases hget : getUserByEmail sql (req.bodyField "email") with
    | error e => simp [hget, errorResponse] at h
    | ok found =>
      cases found with
      | none => simp [hget, errorResponse] at h
      | some user =>
        simp only [hget] at h ⊢
        cases hcompare : libs.bcryptCompare (req.bodyField "password") user.password_hash with
        | error e => simp [hcompare, errorResponse] at h
        | ok matched =>
          cases matched with
          | false => simp [hcompare, errorResponse] at h
          | true =>
            simp only [hcompare] at h ⊢
            by_cases hactive : user.is_active.truthy = false
            · simp [hactive, errorResponse] at h
            · simp only [if_neg hactive] at h ⊢
              cases hsign : libs.jwtSign (tokenPayload user) (jwtSecret env) "24h" with
              | error e => simp [hsign, errorResponse] at h
              | ok token =>
                exact ⟨user, token, rfl, hcompare, by simpa using hactive, hsign, by simp [hsign]⟩

/-- Unless a login is answered with status 200, no token is signed or sent. -/
theorem loginHandler_calls (env : Env) (libs : AuthLibs) (sql : RouteSql) (req : RouteRequest)
    (payload : JwtPayload) (secret expiresIn : String)
    (h : ServiceCall.jwtSign payload secret expiresIn ∈ (loginHandler env libs sql req).calls) :
    ∃ user, getUserByEmail sql (req.bodyField "email") = .ok (some user)
      ∧ libs.bcryptCompare (req.bodyField "password") user.password_hash = .ok true
      ∧ user.is_active.truthy = true := by
  unfold loginHandler at h
  by_cases hvalid : req.validationErrors.isEmpty = false
  · simp [hvalid] at h
  · simp only [if_neg hvalid] at h
    cases hget : getUserByEmail sql (req.bodyField "email") with
    | error e => simp [hget] at h
    | ok found =>
      cases found with
      | none => simp [hget] at h
      | some user =>
        simp only [hget] at h
        cases hcompare : libs.bcryptCompare (req.bodyField "password") user.password_hash with
        | error e => simp [hcompare] at h
        | ok matched =>
          cases matched with
          | false => simp [hcompare] at h
          | true =>
            simp only [hcompare] at h
            by_cases hactive : user.is_active.truthy = false
            · simp [hactive] at h
            · exact ⟨user, rfl, hcompare, by simpa using hactive⟩

theorem rows_of_getUserByEmail (sql : RouteSql) (email : JsValue) (user : UserRow)
    (h : getUserByEmail sql email = .ok (some user)) :
    ∃ rest, sql.selectUserByEmail (sqlParam email) = .ok (user :: rest) := by
  unfold getUserByEmail at h
  cases hrows : sql.selectUserByEmail (sqlParam email) with
  | error e =>
    rw [hrows] at h
    exact Except.noConfusion h
  | ok rows =>
    rw [hrows] at h
    cases rows with
    | nil => exact Option.noConfusion (Except.ok.inj h)
    | cons first rest =>
      have hfirst : first = user := Option.some.inj (Except.ok.inj h)
      exact ⟨rest, by rw [hfirst]⟩

/-- A registration answered with status 201 created a user; the response is
`{ success: true, data: { user: userWithoutPassword, token } }` for the row the `INSERT`
returned. -/
theorem registerHandler_success (env : Env) (libs : AuthLibs) (sql : RouteSql)
    (req : RouteRequest) (h : (registerHandler env libs sql req).response.status = 201) :
    ∃ userData newUser token,
      createUser sql userData = .ok (some newUser)
      ∧ (registerHandler env libs sql req).response
        = dataResponse 201
            (.object [("user", Json.ofFields (userWithoutPassword newUser)),
              ("token", .string token)]) := by
  unfold registerHandler at h ⊢
  by_cases hvalid : req.validationErrors.isEmpty = false
  · simp [hvalid, invalidInputResponse] at h
  · simp only [if_neg hvalid] at h ⊢
    cases hget : getUserByEmail sql (req.bodyField "email") with
    | error e => simp [hget, errorResponse] at h
    | ok found =>
      cases found with
      | some existing => simp [hget, errorResponse] at h
      | none =>
        simp only [hget] at h ⊢
        cases hhash : libs.bcryptHash (req.bodyField "password") 12 with
        | error e => simp [hhash, errorResponse] at h
        | ok passwordHash =>
          simp only [hhash] at h ⊢
          cases hcreate : createUser sql
              { practice_id := req.bodyField "practiceId"
                email := req.bodyField "email"
                password_hash := .string passwordHash
                role := req.bodyField "role"
                first_name := req.bodyField "firstName"
                last_name := req.bodyField "lastName" } with
          | error e => simp [hcreate, errorResponse] at h
          | ok created =>
            cases created with
            | none => simp [hcreate, errorResponse] at h
            | some newUser =>
              simp only [hcreate] at h ⊢
              cases hsign : libs.jwtSign (tokenPayload newUser) (jwtSecret env) "24h" with
              | error e => simp [hsign, errorResponse] at h
              | ok token => exact ⟨_, newUser, token, hcreate, by simp [hsign]⟩

/-- A token verification answered with status 200 found the user of the token; the response is
`{ success: true, data: { user: userWithoutPassword, valid: true } }`. -/
theorem verifyHandler_success (env : Env) (libs : AuthLibs) (sql : RouteSql)
    (req : RouteRequest) (h : (verifyHandler env libs sql req).response.status = 200) :
    ∃ (decoded : JwtPayload) (user : UserRow),
      getUserById sql.toSqlHandle decoded.userId = .ok (some user)
      ∧ (verifyHandler env libs sql req).response
        = dataResponse 200
            (.object [("user", Json.ofFields (userWithoutPassword user)),
              ("valid", .bool true)]) := by
  unfold verifyHandler at h ⊢
  cases hauth : req.authorization with
  | none => simp [hauth, errorResponse] at h
  | some authHeader =>
    simp only [hauth] at h ⊢
    by_cases hbad : authHeader = "" ∨ startsWithBearer authHeader = false
    · simp [hbad, errorResponse] at h
    · simp only [if_neg hbad] at h ⊢
      cases hverify : libs.jwtVerify (substring7 authHeader) (jwtSecret env) with
      | error e => simp [hverify, errorResponse] at h
      | ok decoded =>
        simp only [hverify] at h ⊢
        cases hget : getUserById sql.toSqlHandle decoded.userId with
        | error e => simp [hget, errorResponse] at h
        | ok found =>
          cases found with
          | none => simp [hget, errorResponse] at h
          | some user =>
            simp only [hget] at h ⊢
            by_cases hactive : user.is_active.truthy = false
            · simp [hactive, errorResponse] at h
            · exact ⟨decoded, user, hget, by simp [hactive]⟩

theorem rows_of_getUserById (sql : SqlHandle) (id : JsValue) (user : UserRow)
    (h : getUserById sql id = .ok (some user)) :
    ∃ rest, sql.selectUserById id = .ok (user :: rest) := by
  unfold getUserById at h
  cases hrows : sql.selectUserById id with
  | error e =>
    rw [hrows] at h
    exact Except.noConfusion h
  | ok rows =>
    rw [hrows] at h
    cases rows with
    | nil => exact Option.noConfusion (Except.ok.inj h)
    | cons first rest =>
      have hfirst : first = user := Option.some.inj (Except.ok.inj h)
      exact ⟨rest, by rw [hfirst]⟩

theorem rows_of_createUser (sql : RouteSql) (userData : UserData) (user : UserRow)
    (h : createUser sql userData = .ok (some user)) :
    ∃ parameters rest, sql.insertIntoUsers parameters = .ok (user :: rest) := by
  unfold createUser at h
  cases hrows : sql.insertIntoUsers
      { practice_id := sqlParam userData.practice_id
        email := sqlParam userData.email
        password_hash := sqlParam userData.password_hash
        role := sqlParam userData.role
        first_name := sqlParam userData.first_name
        last_name := sqlParam userData.last_name } with
  | error e =>
    rw [hrows] at h
    exact Except.noConfusion h
  | ok rows =>
    rw [hrows] at h
    cases rows with
    | nil => exact Option.noConfusion (Except.ok.inj h)
    | cons first rest =>
      have hfirst : first = user := Option.some.inj (Except.ok.inj h)
      exact ⟨_, rest, by rw [hrows, hfirst]⟩

/-- A login that passes every check is answered with the user and the signed token. -/
theorem loginHandler_of_checks (env : Env) (libs : AuthLibs) (sql : RouteSql)
    (req : RouteRequest) (user : UserRow) (rest : List UserRow) (token : String)
    (hvalid : req.validationErrors = [])
    (hrows : sql.selectUserByEmail (sqlParam (req.bodyField "email")) = .ok (user :: rest))
    (hcompare : libs.bcryptCompare (req.bodyField "password") user.password_hash = .ok true)
    (hactive : user.is_active.truthy = true)
    (hsign : libs.jwtSign (tokenPayload user) (jwtSecret env) "24h" = .ok token) :
    (loginHandler env libs sql req).response
      = dataResponse 200
          (.object [("user", Json.ofFields (userWithoutPassword user)),
            ("token", .string token)]) := by
  have hempty : req.validationErrors.isEmpty = true := by rw [hvalid]; rfl
  simp [loginHandler, hempty, getUserByEmail_of_rows sql _ _ hrows, hcompare, hactive, hsign]

/-! ## The authentication routes: the claims -/

/-- C12. For a login request that passed validation: when no user has the given email, when the
password does not compare equal to the stored hash, and when the password compares equal but the
account's `is_active` is `false`, the handler answers 401 and signs no token; a token is signed,
and the request is answered with success, only when a user was found, the password compared equal
and the account is active, and in that case the answer is success with the token. -/
theorem loginHandler_outcomes (env : Env) (libs : AuthLibs) (sql : RouteSql)
    (req : RouteRequest) (hvalid : req.validationErrors = []) :
    (sql.selectUserByEmail (sqlParam (req.bodyField "email")) = .ok [] →
      (loginHandler env libs sql req).response = errorResponse 401 "Invalid credentials"
      ∧ ∀ payload secret expiresIn,
          ServiceCall.jwtSign payload secret expiresIn ∉ (loginHandler env libs sql req).calls)
    ∧ (∀ user rest,
      sql.selectUserByEmail (sqlParam (req.bodyField "email")) = .ok (user :: rest) →
      libs.bcryptCompare (req.bodyField "password") user.password_hash = .ok false →
      (loginHandler env libs sql req).response = errorResponse 401 "Invalid credentials"
      ∧ ∀ payload secret expiresIn,
          ServiceCall.jwtSign payload secret expiresIn ∉ (loginHandler env libs sql req).calls)
    ∧ (∀ user rest,
      sql.selectUserByEmail (sqlParam (req.bodyField "email")) = .ok (user :: rest) →
      libs.bcryptCompare (req.bodyField "password") user.password_hash = .ok true →
      user.is_active = .bool false →
      (loginHandler env libs sql req).response = errorResponse 401 "Account is deactivated"
      ∧ ∀ payload secret expiresIn,
          ServiceCall.jwtSign payload secret expiresIn ∉ (loginHandler env libs sql req).calls)
    ∧ (((loginHandler env libs sql req).response.status = 200
        ∨ ∃ payload secret expiresIn,
            ServiceCall.jwtSign payload secret expiresIn ∈ (loginHandler env libs sql req).calls) →
      ∃ user rest,
        sql.selectUserByEmail (sqlParam (req.bodyField "email")) = .ok (user :: rest)
        ∧ libs.bcryptCompare (req.bodyField "password") user.password_hash = .ok true
        ∧ user.is_active.truthy = true)
    ∧ (∀ user rest token,
      sql.selectUserByEmail (sqlParam (req.bodyField "email")) = .ok (user :: rest) →
      libs.bcryptCompare (req.bodyField "password") user.password_hash = .ok true →
      user.is_active.truthy = true →
      libs.jwtSign (tokenPayload user) (jwtSecret env) "24h" = .ok token →
      (loginHandler env libs sql req).response
        = dataResponse 200
            (.object [("user", Json.ofFields (userWithoutPassword user)),
              ("token", .string token)])) := by
  have hempty : req.validationErrors.isEmpty = true := by rw [hvalid]; rfl
  have hsigned : (∃ payload secret expiresIn,
      ServiceCall.jwtSign payload secret expiresIn ∈ (loginHandler env libs sql req).calls) →
      ∃ user rest,
        sql.selectUserByEmail (sqlParam (req.bodyField "email")) = .ok (user :: rest)
        ∧ libs.bcryptCompare (req.bodyField "password") user.password_hash = .ok true
        ∧ user.is_active.truthy = true := by
    rintro ⟨payload, secret, expiresIn, hmem⟩
    obtain ⟨user, hget, hcompare, hactive⟩ :=
      loginHandler_calls env libs sql req payload secret expiresIn hmem
    obtain ⟨rest, hrows⟩ := rows_of_getUserByEmail sql _ user hget
    exact ⟨user, rest, hrows, hcompare, hactive⟩
  refine ⟨?_, ?_, ?_, ?_, ?_⟩
  · intro hrows
    constructor
    · simp [loginHandler, hempty, getUserByEmail_of_rows sql _ _ hrows]
    · intro payload secret expiresIn hmem
      obtain ⟨user, rest, hrows', _⟩ := hsigned ⟨payload, secret, expiresIn, hmem⟩
      rw [hrows] at hrows'
      exact List.noConfusion (Except.ok.inj hrows')
  · intro user rest hrows hcompare
    constructor
    · simp [loginHandler, hempty, getUserByEmail_of_rows sql _ _ hrows, hcompare]
    · intro payload secret expiresIn hmem
      obtain ⟨user', rest', hrows', hcompare', _⟩ := hsigned ⟨payload, secret, expiresIn, hmem⟩
      rw [hrows] at hrows'
      have huser : user = user' := (List.cons.inj (Except.ok.inj hrows')).1
      rw [← huser, hcompare] at hcompare'
      exact Bool.noConfusion (Except.ok.inj hcompare')
  · intro user rest hrows hcompare hflag
    constructor
    · simp [loginHandler, hempty, getUserByEmail_of_rows sql _ _ hrows, hcompare, hflag,
        JsValue.truthy]
    · intro payload secret expiresIn hmem
      obtain ⟨user', rest', hrows', _, hactive'⟩ := hsigned ⟨payload, secret, expiresIn, hmem⟩
      rw [hrows] at hrows'
      have huser : user = user' := (List.cons.inj (Except.ok.inj hrows')).1
      rw [← huser, hflag] at hactive'
      exact Bool.noConfusion hactive'
  · rintro (hstatus | hcall)
    · obtain ⟨user, token, hget, hcompare, hactive, _, _⟩ :=
        loginHandler_success env libs sql req hstatus
      obtain ⟨rest, hrows⟩ := rows_of_getUserByEmail sql _ user hget
      exact ⟨user, rest, hrows, hcompare, hactive⟩
    · exact hsigned hcall
  · intro user rest token hrows hcompare hactive hsign
    exact loginHandler_of_checks env libs sql req user rest token hvalid hrows hcompare hactive
      hsign

/-- C12, at examples: with the example user stored, the right password gives success with the
token `good`; a wrong password and an unknown email give 401 `Invalid credentials`; and with the
account deactivated the right password gives 401 `Account is deactivated`. -/
theorem loginHandler_outcomes_witness :
    ((loginRequest "u1@example.com" "secret").validationErrors = []
      ∧ (exampleUsersDb.routeSql exampleInsert).selectUserByEmail
          (sqlParam ((loginRequest "u1@example.com" "secret").bodyField "email"))
        = .ok [exampleUser]
      ∧ exampleLibs.bcryptCompare ((loginRequest "u1@example.com" "secret").bodyField "password")
          exampleUser.password_hash = .ok true
      ∧ exampleUser.is_active.truthy = true
      ∧ exampleLibs.jwtSign (tokenPayload exampleUser) (jwtSecret {}) "24h" = .ok "good")
    ∧ (loginHandler {} exampleLibs (exampleUsersDb.routeSql exampleInsert)
        (loginRequest "u1@example.com" "secret")).response
      = dataResponse 200
          (.object [("user", Json.ofFields (userWithoutPassword exampleUser)),
            ("token", .string "good")])
    ∧ (loginHandler {} exampleLibs (exampleUsersDb.routeSql exampleInsert)
        (loginRequest "u1@example.com" "wrong")).response
      = errorResponse 401 "Invalid credentials"
    ∧ (loginHandler {} exampleLibs (exampleUsersDb.routeSql exampleInsert)
        (loginRequest "nobody@example.com" "secret")).response
      = errorResponse 401 "Invalid credentials"
    ∧ (loginHandler {} exampleLibs (exampleDeactivatedDb.routeSql exampleInsert)
        (loginRequest "u1@example.com" "secret")).response
      = errorResponse 401 "Account is deactivated" := by
  have hsign : exampleLibs.jwtSign (tokenPayload exampleUser) (jwtSecret {}) "24h"
      = .ok "good" := by
    simp [exampleLibs, sessionSign, exampleEncode, exampleCredential, jwtSecret]
  exact ⟨⟨rfl, rfl, rfl, rfl, hsign⟩,
    (loginHandler_outcomes {} exampleLibs (exampleUsersDb.routeSql exampleInsert)
      (loginRequest "u1@example.com" "secret") rfl).2.2.2.2 exampleUser [] "good" rfl rfl rfl
      hsign,
    ((loginHandler_outcomes {} exampleLibs (exampleUsersDb.routeSql exampleInsert)
      (loginRequest "u1@example.com" "wrong") rfl).2.1 exampleUser [] rfl rfl).1,
    ((loginHandler_outcomes {} exampleLibs (exampleUsersDb.routeSql exampleInsert)
      (loginRequest "nobody@example.com" "secret") rfl).1 rfl).1,
    ((loginHandler_outcomes {} exampleLibs (exampleDeactivatedDb.routeSql exampleInsert)
      (loginRequest "u1@example.com" "secret") rfl).2.2.1
      { exampleUser with is_active := .bool false } [] rfl rfl rfl).1⟩

/-- C13. For every user record, the object `userWithoutPassword` has exactly the properties of
the record other than `password_hash`, with the record's values, and no property `password_hash`;
and the success responses of login (200), register (201) and token verification (200) carry as
`data.user` that object for the record the store returned. -/
theorem success_responses_omit_password_hash (env : Env) (libs : AuthLibs) (sql : RouteSql)
    (req : RouteRequest) :
    (∀ user : UserRow,
      (userWithoutPassword user).map Prod.fst
        = ["id", "practice_id", "email", "role", "first_name", "last_name", "is_active",
            "created_at"]
      ∧ (∀ field ∈ user.toObject, field.1 ≠ "password_hash" → field ∈ userWithoutPassword user)
      ∧ (∀ field ∈ userWithoutPassword user, field ∈ user.toObject)
      ∧ "password_hash" ∉ (userWithoutPassword user).map Prod.fst)
    ∧ ((loginHandler env libs sql req).response.status = 200 →
      ∃ user rest token,
        sql.selectUserByEmail (sqlParam (req.bodyField "email")) = .ok (user :: rest)
        ∧ (loginHandler env libs sql req).response
          = dataResponse 200
              (.object [("user", Json.ofFields (userWithoutPassword user)),
                ("token", .string token)]))
    ∧ ((registerHandler env libs sql req).response.status = 201 →
      ∃ parameters newUser rest token,
        sql.insertIntoUsers parameters = .ok (newUser :: rest)
        ∧ (registerHandler env libs sql req).response
          = dataResponse 201
              (.object [("user", Json.ofFields (userWithoutPassword newUser)),
                ("token", .string token)]))
    ∧ ((verifyHandler env libs sql req).response.status = 200 →
      ∃ (decoded : JwtPayload) (user : UserRow) (rest : List UserRow),
        sql.selectUserById decoded.userId = .ok (user :: rest)
        ∧ (verifyHandler env libs sql req).response
          = dataResponse 200
              (.object [("user", Json.ofFields (userWithoutPassword user)),
                ("valid", .bool true)])) := by
  refine ⟨?_, ?_, ?_, ?_⟩
  · intro user
    refine ⟨rfl, ?_, ?_, by simp [userWithoutPassword, UserRow.toObject]⟩
    · intro field hfield hne
      simp only [userWithoutPassword, List.mem_filter, bne_iff_ne, ne_eq]
      exact ⟨hfield, hne⟩
    · intro field hfield
      exact (List.mem_filter.mp hfield).1
  · intro h
    obtain ⟨user, token, hget, _, _, _, hresponse⟩ := loginHandler_success env libs sql req h
    obtain ⟨rest, hrows⟩ := rows_of_getUserByEmail sql _ user hget
    exact ⟨user, rest, token, hrows, hresponse⟩
  · intro h
    obtain ⟨userData, newUser, token, hcreate, hresponse⟩ :=
      registerHandler_success env libs sql req h
    obtain ⟨parameters, rest, hrows⟩ := rows_of_createUser sql userData newUser hcreate
    exact ⟨parameters, newUser, rest, token, hrows, hresponse⟩
  · intro h
    obtain ⟨decoded, user, hget, hresponse⟩ := verifyHandler_success env libs sql req h
    obtain ⟨rest, hrows⟩ := rows_of_getUserById sql.toSqlHandle _ user hget
    exact ⟨decoded, user, rest, hrows, hresponse⟩

/-- C13, at examples: the successful login, registration and token verification of the example
user answer with the user's record without its `password_hash`. -/
theorem success_responses_omit_password_hash_witness :
    ((loginHandler {} exampleLibs (exampleUsersDb.routeSql exampleInsert)
        (loginRequest "u1@example.com" "secret")).response.status = 200
      ∧ (registerHandler {} exampleLibs (emptyDb.routeSql exampleInsert)
        (registerRequest "u1@example.com")).response.status = 201
      ∧ (verifyHandler {} exampleLibs (exampleUsersDb.routeSql exampleInsert)
        { authorization := some "Bearer good" }).response.status = 200)
    ∧ (∃ user rest token,
        (exampleUsersDb.routeSql exampleInsert).selectUserByEmail
          (sqlParam ((loginRequest "u1@example.com" "secret").bodyField "email"))
          = .ok (user :: rest)
        ∧ (loginHandler {} exampleLibs (exampleUsersDb.routeSql exampleInsert)
            (loginRequest "u1@example.com" "secret")).response
          = dataResponse 200
              (.object [("user", Json.ofFields (userWithoutPassword user)),
                ("token", .string token)]))
    ∧ Json.ofFields (userWithoutPassword exampleUser)
      = .object [("id", .string "u1"), ("practice_id", .string "p2"),
          ("email", .string "u1@example.com"), ("role", .string "admin"),
          ("first_name", .string "Ann"), ("last_name", .string "Lee"),
          ("is_active", .bool true), ("created_at", .null)] := by
  have hlogin : (loginHandler {} exampleLibs (exampleUsersDb.routeSql exampleInsert)
      (loginRequest "u1@example.com" "secret")).response.status = 200 := by
    simp [loginHandler_of_checks {} exampleLibs (exampleUsersDb.routeSql exampleInsert)
      (loginRequest "u1@example.com" "secret") exampleUser [] "good" rfl rfl rfl rfl
      (by simp [exampleLibs, sessionSign, exampleEncode, exampleCredential, jwtSecret]),
      dataResponse]
  refine ⟨⟨hlogin, ?_, ?_⟩, ?_, rfl⟩
  · simp [registerHandler, registerRequest, RouteRequest.bodyField, getUserByEmail, createUser,
      Database.routeSql, emptyDb, exampleInsert, exampleLibs, sessionSign, dataResponse, sqlParam,
      bind, Except.bind, pure, Except.pure]
  · simp [verifyHandler, startsWithBearer, startsWithChars, substring7, exampleLibs,
      exampleJwtVerify, jwtSecret, getUserById, Database.routeSql, Database.sql, exampleUsersDb,
      exampleUser, sqlEq, JsValue.truthy, dataResponse, bind, Except.bind, pure, Except.pure]
  · exact (success_responses_omit_password_hash {} exampleLibs
      (exampleUsersDb.routeSql exampleInsert) (loginRequest "u1@example.com" "secret")).2.1 hlogin

/-! ## Record deletion and update -/

/-- C14. In each of the `DELETE /:id` handlers of claims, patients, practices and alerts, when the
delete statement returns no row the answer is 404 with `Claim not found`, `Patient not found`,
`Practice not found`, `Alert not found` respectively; and the answer is the success message only
when the statement returned a deleted row. -/
theorem delete_handlers_not_found (sql : RouteSql) (req : RouteRequest) :
    ((sql.deleteFromClaims (.string req.id) = .ok [] →
        (deleteClaimHandler sql req).response = errorResponse 404 "Claim not found")
      ∧ ((deleteClaimHandler sql req).response.status = 200 →
        ∃ row rest, sql.deleteFromClaims (.string req.id) = .ok (row :: rest)
          ∧ (deleteClaimHandler sql req).response
            = messageResponse "Claim deleted successfully"))
    ∧ ((sql.deleteFromPatients (.string req.id) = .ok [] →
        (deletePatientHandler sql req).response = errorResponse 404 "Patient not found")
      ∧ ((deletePatientHandler sql req).response.status = 200 →
        ∃ row rest, sql.deleteFromPatients (.string req.id) = .ok (row :: rest)
          ∧ (deletePatientHandler sql req).response
            = messageResponse "Patient deleted successfully"))
    ∧ ((sql.deleteFromPractices (.string req.id) = .ok [] →
        (deletePracticeHandler sql req).response = errorResponse 404 "Practice not found")
      ∧ ((deletePracticeHandler sql req).response.status = 200 →
        ∃ row rest, sql.deleteFromPractices (.string req.id) = .ok (row :: rest)
          ∧ (deletePracticeHandler sql req).response
            = messageResponse "Practice deleted successfully"))
    ∧ ((sql.deleteFromAlerts (.string req.id) = .ok [] →
        (deleteAlertHandler sql req).response = errorResponse 404 "Alert not found")
      ∧ ((deleteAlertHandler sql req).response.status = 200 →
        ∃ row rest, sql.deleteFromAlerts (.string req.id) = .ok (row :: rest)
          ∧ (deleteAlertHandler sql req).response
            = messageResponse "Alert deleted successfully")) := by
  refine ⟨⟨?_, ?_⟩, ⟨?_, ?_⟩, ⟨?_, ?_⟩, ⟨?_, ?_⟩⟩
  · intro h
    simp [deleteClaimHandler, deleteClaim, sqlParam, h, bind, Except.bind, pure, Except.pure]
  · intro h
    simp only [deleteClaimHandler, deleteClaim, sqlParam] at h ⊢
    cases hrows : sql.deleteFromClaims (.string req.id) with
    | error e => simp [hrows, bind, Except.bind, errorResponse] at h
    | ok rows =>
      cases rows with
      | nil => simp [hrows, bind, Except.bind, pure, Except.pure, errorResponse] at h
      | cons row rest =>
        exact ⟨row, rest, rfl, by simp [bind, Except.bind, pure, Except.pure]⟩
  · intro h
    simp [deletePatientHandler, deletePatient, sqlParam, h, bind, Except.bind, pure, Except.pure]
  · intro h
    simp only [deletePatientHandler, deletePatient, sqlParam] at h ⊢
    cases hrows : sql.deleteFromPatients (.string req.id) with
    | error e => simp [hrows, bind, Except.bind, errorResponse] at h
    | ok rows =>
      cases rows with
      | nil => simp [hrows, bind, Except.bind, pure, Except.pure, errorResponse] at h
      | cons row rest =>
        exact ⟨row, rest, rfl, by simp [bind, Except.bind, pure, Except.pure]⟩
  · intro h
    simp [deletePracticeHandler, deletePractice, sqlParam, h, bind, Except.bind, pure,
      Except.pure]
  · intro h
    simp only [deletePracticeHandler, deletePractice, sqlParam] at h ⊢
    cases hrows : sql.deleteFromPractices (.string req.id) with
    | error e => simp [hrows, bind, Except.bind, errorResponse] at h
    | ok rows =>
      cases rows with
      | nil => simp [hrows, bind, Except.bind, pure, Except.pure, errorResponse] at h
      | cons row rest =>
        exact ⟨row, rest, rfl, by simp [bind, Except.bind, pure, Except.pure]⟩
  · intro h
    simp [deleteAlertHandler, deleteAlert, sqlParam, h, bind, Except.bind, pure, Except.pure]
  · intro h
    simp only [deleteAlertHandler, deleteAlert, sqlParam] at h ⊢
    cases hrows : sql.deleteFromAlerts (.string req.id) with
    | error e => simp [hrows, bind, Except.bind, errorResponse] at h
    | ok rows =>
      cases rows with
      | nil => simp [hrows, bind, Except.bind, pure, Except.pure, errorResponse] at h
      | cons row rest =>
        exact ⟨row, rest, rfl, by simp [bind, Except.bind, pure, Except.pure]⟩

/-- C14, at examples: deleting the claim `c1` of the example database succeeds, and deleting a
claim, a patient, a practice or an alert with an id the database does not hold is answered 404. -/
theorem delete_handlers_not_found_witness :
    ((exampleDb.routeSql exampleInsert).deleteFromClaims (.string "00000000-0000-4000-8000-000000000000") = .ok []
      ∧ (exampleDb.routeSql exampleInsert).deleteFromPatients (.string "00000000-0000-4000-8000-000000000000") = .ok []
      ∧ (exampleDb.routeSql exampleInsert).deleteFromPractices (.string "00000000-0000-4000-8000-000000000000") = .ok []
      ∧ (exampleDb.routeSql exampleInsert).deleteFromAlerts (.string "00000000-0000-4000-8000-000000000000") = .ok [])
    ∧ (deleteClaimHandler (exampleDb.routeSql exampleInsert) { id := "00000000-0000-4000-8000-000000000000" }).response
      = errorResponse 404 "Claim not found"
    ∧ (deletePatientHandler (exampleDb.routeSql exampleInsert) { id := "00000000-0000-4000-8000-000000000000" }).response
      = errorResponse 404 "Patient not found"
    ∧ (deletePracticeHandler (exampleDb.routeSql exampleInsert) { id := "00000000-0000-4000-8000-000000000000" }).response
      = errorResponse 404 "Practice not found"
    ∧ (deleteAlertHandler (exampleDb.routeSql exampleInsert) { id := "00000000-0000-4000-8000-000000000000" }).response
      = errorResponse 404 "Alert not found"
    ∧ (deleteClaimHandler (exampleDb.routeSql exampleInsert) { id := "c1" }).response
      = messageResponse "Claim deleted successfully" :=
  have h := delete_handlers_not_found (exampleDb.routeSql exampleInsert) { id := "00000000-0000-4000-8000-000000000000" }
  ⟨⟨rfl, rfl, rfl, rfl⟩, h.1.1 rfl, h.2.1.1 rfl, h.2.2.1.1 rfl, h.2.2.2.1 rfl, rfl⟩

/-- C15, what the code does: on the stored claim `c1`, whose nine updatable columns are all filled
in, the request `PUT /api/claims/c1` with the body `{ status: 'paid' }` is answered with success,
and the row the `UPDATE` returns has `status` `paid` and `NULL` in each of the eight columns the
body did not supply; `insurer_name`, for one, is no longer `Acme`. -/
theorem putClaimHandler_clears_unsupplied_columns :
    (putClaimHandler (exampleFullClaimDb.routeSql exampleInsert) putStatusRequest).calls
      = [.updateClaim (.string "c1") { status := .string "paid" }]
    ∧ updateClaim (exampleFullClaimDb.routeSql exampleInsert) (.string "c1")
        (claimUpdateOfBody putStatusRequest)
      = .ok (some
          { id := .string "c1", practice_id := .string "p1", patient_id := .string "pt1",
            insurer_name := .null, treatment_code := .null, treatment_description := .null,
            submitted_amount := .null, expected_amount := .null, received_amount := .null,
            status := .string "paid", submission_date := .date (some 1705276800000),
            payment_date := .null, notes := .null })
    ∧ (putClaimHandler (exampleFullClaimDb.routeSql exampleInsert) putStatusRequest).response.status
      = 200
    ∧ exampleFullClaim.insurer_name = .string "Acme" := by
  refine ⟨?_, ?_, ?_, rfl⟩
  · rfl
  · rfl
  · rfl

/-! ## The routers and the authorization gate -/

/-- C16, what the code does: whatever the environment and the request (so also outside development
mode and without any credential), the routers of claims, patients, practices, users, automation
and dashboard install no middleware, so the request reaches the route's handler and no 401 is
sent; only the alerts router runs `authMiddleware` first, which outside development mode answers a
request without credential with 401. -/
theorem ungated_routers_reach_handler (env : Env)
    (jwtVerify : String → String → Except JsError JwtPayload) (sql : SqlHandle) (req : Request) :
    (handlerReached (ApiRouter.claims.middleware env jwtVerify sql) req = true
      ∧ gateResponse (ApiRouter.claims.middleware env jwtVerify sql) req = none)
    ∧ (handlerReached (ApiRouter.patients.middleware env jwtVerify sql) req = true
      ∧ gateResponse (ApiRouter.patients.middleware env jwtVerify sql) req = none)
    ∧ (handlerReached (ApiRouter.practices.middleware env jwtVerify sql) req = true
      ∧ gateResponse (ApiRouter.practices.middleware env jwtVerify sql) req = none)
    ∧ (handlerReached (ApiRouter.users.middleware env jwtVerify sql) req = true
      ∧ gateResponse (ApiRouter.users.middleware env jwtVerify sql) req = none)
    ∧ (handlerReached (ApiRouter.automation.middleware env jwtVerify sql) req = true
      ∧ gateResponse (ApiRouter.automation.middleware env jwtVerify sql) req = none)
    ∧ (handlerReached (ApiRouter.dashboard.middleware env jwtVerify sql) req = true
      ∧ gateResponse (ApiRouter.dashboard.middleware env jwtVerify sql) req = none)
    ∧ handlerReached (ApiRouter.claims.middleware {} jwtVerify sql) {} = true
    ∧ handlerReached (ApiRouter.alerts.middleware {} jwtVerify sql) {} = false
    ∧ gateResponse (ApiRouter.alerts.middleware {} jwtVerify sql) {}
      = some (errorResponse 401 "Access token required") :=
  ⟨⟨rfl, rfl⟩, ⟨rfl, rfl⟩, ⟨rfl, rfl⟩, ⟨rfl, rfl⟩, ⟨rfl, rfl⟩, ⟨rfl, rfl⟩, rfl, rfl, rfl⟩

/-! ## The dashboard route: the claims -/

/-- C17. When one of the three fetches of `getDashboardStats` (claims, unresolved alerts,
automation logs) is rejected, whatever the other two return, `GET /api/dashboard/stats` answers
with status 500 and the body `{ success: false, error: 'Failed to fetch dashboard stats' }`, which
has no `data` property. -/
theorem dashboardStatsHandler_fetch_failure (dateParse : String → JsNumber) (sql : SqlHandle)
    (req : RouteRequest)
    (hfail :
      (∃ e, sql.selectClaims (tenantScope (dashboardPracticeId req.practiceId)) = .error e)
      ∨ (∃ e, sql.selectUnresolvedAlerts (tenantScope (dashboardPracticeId req.practiceId))
          = .error e)
      ∨ (∃ e, sql.selectAutomationLogs (tenantScope (dashboardPracticeId req.practiceId))
          = .error e)) :
    (dashboardStatsHandler dateParse sql req).response.status = 500
    ∧ (dashboardStatsHandler dateParse sql req).response.body
      = .object [("success", .bool false), ("error", .string "Failed to fetch dashboard stats")]
    := by
  have herror : ∃ e, getDashboardStats dateParse sql (dashboardPracticeId req.practiceId)
      = .error e := by
    unfold getDashboardStats
    cases hclaims : sql.selectClaims (tenantScope (dashboardPracticeId req.practiceId)) with
    | error e => exact ⟨e, rfl⟩
    | ok claims =>
      cases halerts :
          sql.selectUnresolvedAlerts (tenantScope (dashboardPracticeId req.practiceId)) with
      | error e => exact ⟨e, rfl⟩
      | ok alerts =>
        cases hlogs :
            sql.selectAutomationLogs (tenantScope (dashboardPracticeId req.practiceId)) with
        | error e => exact ⟨e, rfl⟩
        | ok logs =>
          rcases hfail with ⟨e, h⟩ | ⟨e, h⟩ | ⟨e, h⟩
          · rw [hclaims] at h
            exact Except.noConfusion h
          · rw [halerts] at h
            exact Except.noConfusion h
          · rw [hlogs] at h
            exact Except.noConfusion h
  obtain ⟨e, he⟩ := herror
  simp only [dashboardStatsHandler, he]
  exact ⟨rfl, rfl⟩

/-- C17, at an example: with the claims and alerts of the example database fetched and the fetch
of the automation logs rejected, the answer is the 500 body. -/
theorem dashboardStatsHandler_fetch_failure_witness :
    (∃ e, failingLogsSql.selectAutomationLogs
        (tenantScope (dashboardPracticeId ({ practiceId := some "p1" } : RouteRequest).practiceId))
        = .error e)
    ∧ failingLogsSql.selectClaims (tenantScope (.string "p1")) = .ok exampleClaims
    ∧ (dashboardStatsHandler noDateParse failingLogsSql { practiceId := some "p1" }).response.status
      = 500
    ∧ (dashboardStatsHandler noDateParse failingLogsSql { practiceId := some "p1" }).response.body
      = .object [("success", .bool false), ("error", .string "Failed to fetch dashboard stats")]
    :=
  have hfail : ∃ e, failingLogsSql.selectAutomationLogs
      (tenantScope (dashboardPracticeId ({ practiceId := some "p1" } : RouteRequest).practiceId))
      = .error e := ⟨_, rfl⟩
  have h := dashboardStatsHandler_fetch_failure noDateParse failingLogsSql
    { practiceId := some "p1" } (Or.inr (Or.inr hfail))
  ⟨hfail, by rfl, h.1, h.2⟩

/-- C18, as stated, fails for the empty string: `?practiceId=` supplies a value that is neither
absent nor `null`, yet the statements carry no tenant clause, and on the database of two tenants
the statistics count the claims of both. -/
theorem dashboard_empty_practiceId_is_unscoped :
    ((some "" : Option String) ≠ none ∧ (some "" : Option String) ≠ some "null")
    ∧ tenantScope (dashboardPracticeId (some "")) = none
    ∧ (getDashboardStats noDateParse exampleDbTwoTenants.sql (dashboardPracticeId (some ""))).map
        (fun stats => stats.totalClaims) = .ok 4
    ∧ ¬ (∀ value : String, value ≠ "null" →
          tenantScope (dashboardPracticeId (some value)) = some (.string value)) := by
  refine ⟨⟨by decide, by decide⟩, rfl, rfl, ?_⟩
  intro h
  have h' := h "" (by decide)
  exact absurd h' (by decide)

/-- C18, amended. When the `practiceId` query parameter is absent, is the empty string or is the
string `null`, `getDashboardStats` runs the statements without tenant clause and the statistics
are those of all claims and all unresolved alerts of the database; for every other value the
statements carry `WHERE practice_id = value` and the statistics are those of the claims and
unresolved alerts of that tenant. -/
theorem dashboardStatsHandler_scope (dateParse : String → JsNumber) (db : Database)
    (req : RouteRequest) :
    ((req.practiceId = none ∨ req.practiceId = some "null" ∨ req.practiceId = some "") →
      tenantScope (dashboardPracticeId req.practiceId) = none
      ∧ (dashboardStatsHandler dateParse db.sql req).response
        = dataResponse 200
            (dashboardStatsOf dateParse db.claims
              (db.alerts.filter (fun a => sqlEq a.is_resolved (.bool false)))).toJson)
    ∧ (∀ value, req.practiceId = some value → value ≠ "null" → value ≠ "" →
      tenantScope (dashboardPracticeId req.practiceId) = some (.string value)
      ∧ (dashboardStatsHandler dateParse db.sql req).response
        = dataResponse 200
            (dashboardStatsOf dateParse
              (db.claims.filter (fun c => sqlEq c.practice_id (.string value)))
              (db.alerts.filter (fun a =>
                sqlEq a.practice_id (.string value) && sqlEq a.is_resolved (.bool false)))).toJson)
    := by
  constructor
  · intro hq
    have hscope : tenantScope (dashboardPracticeId req.practiceId) = none := by
      rcases hq with h | h | h <;> rw [h] <;> rfl
    refine ⟨hscope, ?_⟩
    have hstats := getDashboardStats_of_fetched dateParse db.sql
      (dashboardPracticeId req.practiceId) db.claims
      (db.alerts.filter (fun a => sqlEq a.is_resolved (.bool false))) db.automation_logs
      (by rw [hscope]; rfl) (by rw [hscope]; rfl) (by rw [hscope]; rfl)
    simp only [dashboardStatsHandler, hstats]
    rfl
  · intro value hq hnull hempty
    have harg : dashboardPracticeId req.practiceId = .string value := by
      simp [hq, dashboardPracticeId, hnull]
    have hscope : tenantScope (dashboardPracticeId req.practiceId) = some (.string value) := by
      rw [harg]
      simp [tenantScope, JsValue.truthy, hempty]
    refine ⟨hscope, ?_⟩
    have hstats := getDashboardStats_of_fetched dateParse db.sql
      (dashboardPracticeId req.practiceId)
      (db.claims.filter (fun c => sqlEq c.practice_id (.string value)))
      (db.alerts.filter (fun a =>
        sqlEq a.practice_id (.string value) && sqlEq a.is_resolved (.bool false)))
      (db.automation_logs.filter (fun l => sqlEq l.practice_id (.string value)))
      (by rw [hscope]; rfl) (by rw [hscope]; rfl) (by rw [hscope]; rfl)
    simp only [dashboardStatsHandler, hstats]
    rfl

/-- C18 amended, at examples on the database of two tenants: with `practiceId=p1` the statistics
count the three claims of tenant `p1`, with an empty `practiceId` all four claims. -/
theorem dashboardStatsHandler_scope_witness :
    ((({ practiceId := some "p1" } : RouteRequest).practiceId = some "p1"
        ∧ "p1" ≠ "null" ∧ "p1" ≠ "")
      ∧ (({ practiceId := some "" } : RouteRequest).practiceId = none
        ∨ ({ practiceId := some "" } : RouteRequest).practiceId = some "null"
        ∨ ({ practiceId := some "" } : RouteRequest).practiceId = some ""))
    ∧ (tenantScope (dashboardPracticeId (some "p1")) = some (.string "p1")
      ∧ (dashboardStatsHandler noDateParse exampleDbTwoTenants.sql
          { practiceId := some "p1" }).response
        = dataResponse 200
            (dashboardStatsOf noDateParse
              (exampleDbTwoTenants.claims.filter (fun c => sqlEq c.practice_id (.string "p1")))
              (exampleDbTwoTenants.alerts.filter (fun a =>
                sqlEq a.practice_id (.string "p1")
                  && sqlEq a.is_resolved (.bool false)))).toJson)
    ∧ (tenantScope (dashboardPracticeId (some "")) = none
      ∧ (dashboardStatsHandler noDateParse exampleDbTwoTenants.sql
          { practiceId := some "" }).response
        = dataResponse 200
            (dashboardStatsOf noDateParse exampleDbTwoTenants.claims
              (exampleDbTwoTenants.alerts.filter
                (fun a => sqlEq a.is_resolved (.bool false)))).toJson)
    ∧ (exampleDbTwoTenants.claims.filter (fun c => sqlEq c.practice_id (.string "p1"))).length = 3
    ∧ exampleDbTwoTenants.claims.length = 4 :=
  ⟨⟨⟨rfl, by decide, by decide⟩, Or.inr (Or.inr rfl)⟩,
    (dashboardStatsHandler_scope noDateParse exampleDbTwoTenants { practiceId := some "p1" }).2
      "p1" rfl (by decide) (by decide),
    (dashboardStatsHandler_scope noDateParse exampleDbTwoTenants { practiceId := some "" }).1
      (Or.inr (Or.inr rfl)),
    by decide, by decide⟩

/-! ## The development bypass -/

/-- When the development bypass does not apply and verification rejects every token,
`authMiddleware` does not call `next`. -/
theorem authMiddleware_rejecting_verify (env : Env) (sql : SqlHandle) (req : Request)
    (hbypass : ¬ devBypassApplies env req) :
    (authMiddleware env rejectingJwtVerify sql req).nextCalls = 0 := by
  unfold authMiddleware
  rw [if_neg hbypass]
  cases req.authorization with
  | none => rfl
  | some authHeader =>
    dsimp only
    split
    · rfl
    · split
      · rfl
      · rfl

/-- C19, as stated, fails for an empty `authorization` header: in development mode a request that
carries the header with an empty value is given the development identity and passed on, without
verification and without a lookup. -/
theorem dev_bypass_with_empty_header :
    (requestWithHeader "").authorization ≠ none
    ∧ (authMiddleware developmentEnv rejectingJwtVerify emptyDb.sql
        (requestWithHeader "")).req.user = some devUser
    ∧ (authMiddleware developmentEnv rejectingJwtVerify emptyDb.sql
        (requestWithHeader "")).nextCalls = 1
    ∧ (authMiddleware developmentEnv rejectingJwtVerify emptyDb.sql
        (requestWithHeader "")).userLookups = []
    ∧ (authMiddleware developmentEnv rejectingJwtVerify emptyDb.sql
        (requestWithHeader "")).response.isNone = true :=
  ⟨by decide, by decide, by decide, by decide, by rfl⟩

/-- C19, amended. `authMiddleware` attaches the fixed development identity (id `dev-user-id`,
role `admin`, `practiceId` `null`) and calls `next`, whatever verification and the store would
say, if and only if `NODE_ENV` is exactly `development` and the `authorization` header is absent
or empty; for every other `NODE_ENV` (unset included) a request whose header is absent or empty is
answered 401 `Access token required`; and in development mode a request with a non-empty
`authorization` header is handled exactly as outside development mode. -/
theorem authMiddleware_dev_bypass (env : Env)
    (jwtVerify : String → String → Except JsError JwtPayload) (sql : SqlHandle) (req : Request) :
    ((∀ (jwtVerify' : String → String → Except JsError JwtPayload) (sql' : SqlHandle),
        authMiddleware env jwtVerify' sql' req
          = { req := { req with user := some devUser }, nextCalls := 1 })
      ↔ (env.NODE_ENV = some "development"
          ∧ (req.authorization = none ∨ req.authorization = some "")))
    ∧ (devUser.id = .string "dev-user-id" ∧ devUser.role = .string "admin"
      ∧ devUser.practiceId = .null)
    ∧ (env.NODE_ENV ≠ some "development" →
      (req.authorization = none ∨ req.authorization = some "") →
      (authMiddleware env jwtVerify sql req).response
          = some (errorResponse 401 "Access token required")
      ∧ (authMiddleware env jwtVerify sql req).nextCalls = 0
      ∧ (authMiddleware env jwtVerify sql req).req = req)
    ∧ (∀ authHeader, req.authorization = some authHeader → authHeader ≠ "" →
      authMiddleware env jwtVerify sql req
        = authMiddleware { env with NODE_ENV := none } jwtVerify sql req) := by
  refine ⟨⟨?_, ?_⟩, ⟨rfl, rfl, rfl⟩, ?_, ?_⟩
  · intro h
    by_contra hnot
    have hbypass : ¬ devBypassApplies env req := hnot
    have h0 := authMiddleware_rejecting_verify env sql req hbypass
    rw [h rejectingJwtVerify sql] at h0
    exact Nat.one_ne_zero h0
  · intro hcond jwtVerify' sql'
    have hbypass : devBypassApplies env req := hcond
    unfold authMiddleware
    rw [if_pos hbypass]
  · intro henv hheader
    have hbypass : ¬ devBypassApplies env req := fun h => henv h.1
    unfold authMiddleware
    rw [if_neg hbypass]
    rcases hheader with h | h
    · simp [h]
    · simp [h]
  · intro authHeader hheader hne
    have hbypass : ¬ devBypassApplies env req := by
      rintro ⟨_, h | h⟩
      · rw [hheader] at h
        exact Option.noConfusion h
      · rw [hheader] at h
        exact hne (Option.some.inj h)
    have hbypass' : ¬ devBypassApplies { env with NODE_ENV := none } req := by
      rintro ⟨h, _⟩
      exact Option.noConfusion h
    unfold authMiddleware
    rw [if_neg hbypass, if_neg hbypass']
    rfl

/-- C19 amended, at examples: in development mode a request without header is given the
development identity; with `NODE_ENV` unset the same request is answered 401; and in development
mode a request with the header `Bearer tampered` is verified and answered 401 `Invalid token`. -/
theorem authMiddleware_dev_bypass_witness :
    (developmentEnv.NODE_ENV = some "development"
      ∧ (({} : Request).authorization = none ∨ ({} : Request).authorization = some "")
      ∧ ({} : Env).NODE_ENV ≠ some "development"
      ∧ (requestWithHeader "Bearer tampered").authorization = some "Bearer tampered"
      ∧ "Bearer tampered" ≠ "")
    ∧ authMiddleware developmentEnv exampleJwtVerify emptyDb.sql {}
      = { req := { ({} : Request) with user := some devUser }, nextCalls := 1 }
    ∧ (authMiddleware {} exampleJwtVerify emptyDb.sql {}).response
      = some (errorResponse 401 "Access token required")
    ∧ authMiddleware developmentEnv exampleJwtVerify emptyDb.sql
        (requestWithHeader "Bearer tampered")
      = authMiddleware { developmentEnv with NODE_ENV := none } exampleJwtVerify emptyDb.sql
        (requestWithHeader "Bearer tampered")
    ∧ (authMiddleware developmentEnv exampleJwtVerify emptyDb.sql
        (requestWithHeader "Bearer tampered")).response
      = some (errorResponse 401 "Invalid token") :=
  ⟨⟨rfl, Or.inl rfl, by decide, rfl, by decide⟩,
    (authMiddleware_dev_bypass developmentEnv exampleJwtVerify emptyDb.sql {}).1.mpr
      ⟨rfl, Or.inl rfl⟩ exampleJwtVerify emptyDb.sql,
    ((authMiddleware_dev_bypass {} exampleJwtVerify emptyDb.sql {}).2.2.1 (by decide)
      (Or.inl rfl)).1,
    (authMiddleware_dev_bypass developmentEnv exampleJwtVerify emptyDb.sql
      (requestWithHeader "Bearer tampered")).2.2.2 "Bearer tampered" rfl (by decide),
    rfl⟩

/-! ## Registration with an email already in use -/

/-- When the lookup by email returns a row, registration is answered 400 and the lookup is the
only call made. -/
theorem registerHandler_of_existing_row (env : Env) (libs : AuthLibs) (sql : RouteSql)
    (req : RouteRequest) (existing : UserRow) (rest : List UserRow)
    (hvalid : req.validationErrors = [])
    (hrows : sql.selectUserByEmail (sqlParam (req.bodyField "email")) = .ok (existing :: rest)) :
    (registerHandler env libs sql req).response
      = errorResponse 400 "User with this email already exists"
    ∧ (registerHandler env libs sql req).calls = [.getUserByEmail (req.bodyField "email")] := by
  have hempty : req.validationErrors.isEmpty = true := by rw [hvalid]; rfl
  have hget := getUserByEmail_of_rows sql _ _ hrows
  constructor
  · simp [registerHandler, hempty, hget]
  · simp [registerHandler, hempty, hget]

/-- C20. For a registration request that passed validation and whose email (a string) is the
email of a stored user, the handler answers 400 `User with this email already exists`; the only
call it makes is the lookup by email, so it calls neither `bcrypt.hash` nor `createUser` nor
`jwt.sign`, and issues no statement that changes the stored users. -/
theorem registerHandler_duplicate_email (env : Env) (libs : AuthLibs) (db : Database)
    (insertIntoUsers : UserData → Except JsError (List UserRow)) (req : RouteRequest)
    (stored : UserRow) (email : String)
    (hvalid : req.validationErrors = [])
    (hemail : req.bodyField "email" = .string email)
    (hstored : stored ∈ db.users) (hsame : stored.email = .string email) :
    (registerHandler env libs (db.routeSql insertIntoUsers) req).response
      = errorResponse 400 "User with this email already exists"
    ∧ (registerHandler env libs (db.routeSql insertIntoUsers) req).calls
      = [.getUserByEmail (.string email)]
    ∧ (∀ password rounds, ServiceCall.bcryptHash password rounds
        ∉ (registerHandler env libs (db.routeSql insertIntoUsers) req).calls)
    ∧ (∀ userData, ServiceCall.createUser userData
        ∉ (registerHandler env libs (db.routeSql insertIntoUsers) req).calls)
    ∧ (∀ payload secret expiresIn, ServiceCall.jwtSign payload secret expiresIn
        ∉ (registerHandler env libs (db.routeSql insertIntoUsers) req).calls) := by
  have hmatch : sqlEq stored.email (.string email) = true := by
    rw [hsame]
    simp [sqlEq]
  have hmem : stored ∈ db.users.filter (fun u => sqlEq u.email (.string email)) :=
    List.mem_filter.mpr ⟨hstored, hmatch⟩
  obtain ⟨existing, rest, hfilter⟩ :
      ∃ existing rest, db.users.filter (fun u => sqlEq u.email (.string email))
        = existing :: rest := by
    cases hf : db.users.filter (fun u => sqlEq u.email (.string email)) with
    | nil =>
      rw [hf] at hmem
      exact absurd hmem (List.not_mem_nil _)
    | cons existing rest => exact ⟨existing, rest, rfl⟩
  have hrows : (db.routeSql insertIntoUsers).selectUserByEmail (sqlParam (req.bodyField "email"))
      = .ok (existing :: rest) := by
    rw [hemail]
    show Except.ok (db.users.filter (fun u => sqlEq u.email (.string email))) = _
    rw [hfilter]
  obtain ⟨hresponse, hcalls⟩ := registerHandler_of_existing_row env libs
    (db.routeSql insertIntoUsers) req existing rest hvalid hrows
  rw [hemail] at hcalls
  refine ⟨hresponse, hcalls, ?_, ?_, ?_⟩
  · intro password rounds
    simp [hcalls]
  · intro userData
    simp [hcalls]
  · intro payload secret expiresIn
    simp [hcalls]

/-- C20, at an example: registering with the email of the stored example user is answered 400 and
the lookup by email is the only call made. -/
theorem registerHandler_duplicate_email_witness :
    ((registerRequest "u1@example.com").validationErrors = []
      ∧ (registerRequest "u1@example.com").bodyField "email" = .string "u1@example.com"
      ∧ exampleUser ∈ exampleUsersDb.users
      ∧ exampleUser.email = .string "u1@example.com")
    ∧ (registerHandler {} exampleLibs (exampleUsersDb.routeSql exampleInsert)
        (registerRequest "u1@example.com")).response
      = errorResponse 400 "User with this email already exists"
    ∧ (registerHandler {} exampleLibs (exampleUsersDb.routeSql exampleInsert)
        (registerRequest "u1@example.com")).calls
      = [.getUserByEmail (.string "u1@example.com")] :=
  have hstored : exampleUser ∈ exampleUsersDb.users := List.mem_singleton.mpr rfl
  have h := registerHandler_duplicate_email {} exampleLibs exampleUsersDb exampleInsert
    (registerRequest "u1@example.com") exampleUser "u1@example.com" rfl rfl hstored rfl
  ⟨⟨rfl, rfl, hstored, rfl⟩, h.1, h.2.1⟩

/-! ## Stability of `recentClaims` -/

/-- On claims with valid submission dates the stable sort keeps the claims of each submission
date in their fetched order. -/
theorem insertionSort_filter_time (dateParse : String → JsNumber) (claims : List ClaimRow)
    (t : Int) :
    (claims.insertionSort (submittedNoEarlier dateParse)).filter
        (fun c => decide (submissionTime dateParse c = t))
      = claims.filter (fun c => decide (submissionTime dateParse c = t)) := by
  have hpair : (claims.filter (fun c => decide (submissionTime dateParse c = t))).Pairwise
      (submittedNoEarlier dateParse) := by
    apply List.pairwise_of_forall_mem_list
    intro a ha b hb
    have hta : submissionTime dateParse a = t := by simpa using (List.mem_filter.mp ha).2
    have htb : submissionTime dateParse b = t := by simpa using (List.mem_filter.mp hb).2
    show submissionTime dateParse b ≤ submissionTime dateParse a
    rw [hta, htb]
  have hsub := List.sublist_insertionSort hpair (List.filter_sublist claims)
  have hsub' := hsub.filter (fun c => decide (submissionTime dateParse c = t))
  rw [List.filter_filter] at hsub'
  simp only [Bool.and_self] at hsub'
  have hlen := ((List.perm_insertionSort (submittedNoEarlier dateParse) claims).filter
    (fun c => decide (submissionTime dateParse c = t))).length_eq
  exact (hsub'.eq_of_length hlen.symm).symm

/-- C22. When every fetched claim has a valid submission date, the claims of any one submission
date that appear in `recentClaims` are an initial part of the fetched claims of that date, in the
fetched order: equal-dated claims keep their relative order, and when the limit of 5 cuts such a
group the claims kept are the earliest fetched. -/
theorem getDashboardStats_recentClaims_stable (dateParse : String → JsNumber) (sql : SqlHandle)
    (practiceId : JsValue) (claims : List ClaimRow) (alerts : List AlertRow)
    (logs : List AutomationLogRow)
    (hc : sql.selectClaims (tenantScope practiceId) = .ok claims)
    (ha : sql.selectUnresolvedAlerts (tenantScope practiceId) = .ok alerts)
    (hl : sql.selectAutomationLogs (tenantScope practiceId) = .ok logs)
    (hvalid : ∀ c ∈ claims, hasValidSubmissionDate dateParse c) :
    ∃ stats, getDashboardStats dateParse sql practiceId = .ok stats
      ∧ ∀ t : Int, ∃ cut,
          stats.recentClaims.filter (fun c => decide (submissionTime dateParse c = t)) ++ cut
            = claims.filter (fun c => decide (submissionTime dateParse c = t)) := by
  refine ⟨_, getDashboardStats_of_fetched dateParse sql practiceId claims alerts logs hc ha hl,
    ?_⟩
  intro t
  show ∃ cut, ((sortWith (bySubmissionDateDesc dateParse) claims).take 5).filter _ ++ cut = _
  rw [sortWith_bySubmissionDateDesc dateParse claims hvalid]
  refine ⟨((claims.insertionSort (submittedNoEarlier dateParse)).drop 5).filter
    (fun c => decide (submissionTime dateParse c = t)), ?_⟩
  rw [← List.filter_append, List.take_append_drop]
  exact insertionSort_filter_time dateParse claims t

/-- C22, at an example: of six claims submitted on the same day, fetched as `t1` to `t6`,
`recentClaims` holds `t1` to `t5` in that order. -/
theorem getDashboardStats_recentClaims_stable_witness :
    (exampleTiedDb.sql.selectClaims (tenantScope .null) = .ok exampleTiedClaims
      ∧ ∀ c ∈ exampleTiedClaims, hasValidSubmissionDate noDateParse c)
    ∧ (∃ stats, getDashboardStats noDateParse exampleTiedDb.sql .null = .ok stats
      ∧ ∀ t : Int, ∃ cut,
          stats.recentClaims.filter (fun c => decide (submissionTime noDateParse c = t)) ++ cut
            = exampleTiedClaims.filter (fun c => decide (submissionTime noDateParse c = t)))
    ∧ (getDashboardStats noDateParse exampleTiedDb.sql .null).map
        (fun stats => stats.recentClaims.map (fun claim => claim.id))
      = .ok [.string "t1", .string "t2", .string "t3", .string "t4", .string "t5"] := by
  have hvalid : ∀ c ∈ exampleTiedClaims, hasValidSubmissionDate noDateParse c := by
    intro c hc
    simp only [exampleTiedClaims, List.mem_cons, List.mem_singleton, List.not_mem_nil,
      or_false] at hc
    rcases hc with rfl | rfl | rfl | rfl | rfl | rfl <;> rfl
  refine ⟨⟨rfl, hvalid⟩, ?_, ?_⟩
  · exact getDashboardStats_recentClaims_stable noDateParse exampleTiedDb.sql .null
      exampleTiedClaims [] [] rfl rfl rfl hvalid
  · rw [getDashboardStats_of_fetched noDateParse exampleTiedDb.sql .null exampleTiedClaims [] []
      rfl rfl rfl]
    simp only [Except.map, sortWith_bySubmissionDateDesc noDateParse exampleTiedClaims hvalid]
    exact congrArg Except.ok (by decide)

/-! ## The optional gate against the required gate -/

/-- The optional gate always calls `next` once and sends nothing. -/
theorem optionalAuthMiddleware_proceeds (env : Env)
    (jwtVerify : String → String → Except JsError JwtPayload) (sql : SqlHandle) (req : Request) :
    (optionalAuthMiddleware env jwtVerify sql req).nextCalls = 1
    ∧ (optionalAuthMiddleware env jwtVerify sql req).response = none := by
  unfold optionalAuthMiddleware
  cases req.authorization with
  | none => exact ⟨rfl, rfl⟩
  | some authHeader =>
    dsimp only
    split
    · exact ⟨rfl, rfl⟩
    · split
      · exact ⟨rfl, rfl⟩
      · split
        · exact ⟨rfl, rfl⟩
        · split
          · exact ⟨rfl, rfl⟩
          · exact ⟨rfl, rfl⟩
          · split <;> exact ⟨rfl, rfl⟩

/-- Outside the development bypass the two gates agree on the request they leave behind when the
required gate proceeds, and the optional gate leaves the request untouched when the required gate
rejects. -/
theorem gates_compared (env : Env) (jwtVerify : String → String → Except JsError JwtPayload)
    (sql : SqlHandle) (req : Request) (hbypass : ¬ devBypassApplies env req) :
    ((authMiddleware env jwtVerify sql req).nextCalls = 0
      ∧ (optionalAuthMiddleware env jwtVerify sql req).req = req)
    ∨ ((authMiddleware env jwtVerify sql req).nextCalls = 1
      ∧ (optionalAuthMiddleware env jwtVerify sql req).req
        = (authMiddleware env jwtVerify sql req).req) := by
  unfold authMiddleware optionalAuthMiddleware
  rw [if_neg hbypass]
  cases req.authorization with
  | none => exact Or.inl ⟨rfl, rfl⟩
  | some authHeader =>
    dsimp only
    by_cases hbad : authHeader = "" ∨ startsWithBearer authHeader = false
    · rw [if_pos hbad, if_pos hbad]
      exact Or.inl ⟨rfl, rfl⟩
    · rw [if_neg hbad, if_neg hbad]
      by_cases htoken : substring7 authHeader = ""
      · rw [if_pos htoken, if_pos htoken]
        exact Or.inl ⟨rfl, rfl⟩
      · rw [if_neg htoken, if_neg htoken]
        cases jwtVerify (substring7 authHeader) (jwtSecret env) with
        | error e => exact Or.inl ⟨rfl, rfl⟩
        | ok decoded =>
          dsimp only
          cases getUserById sql decoded.userId with
          | error e => exact Or.inl ⟨rfl, rfl⟩
          | ok found =>
            cases found with
            | none => exact Or.inl ⟨rfl, rfl⟩
            | some user =>
              dsimp only
              cases hactive : user.is_active.truthy with
              | false => exact Or.inl ⟨by simp, by simp⟩
              | true => exact Or.inr ⟨by simp, by simp⟩

/-- C23, as stated, fails in development mode: for a request without `authorization` header the
required gate attaches the development identity and calls `next`, while the optional gate calls
`next` with no identity attached. -/
theorem optional_gate_has_no_dev_bypass :
    (authMiddleware developmentEnv rejectingJwtVerify emptyDb.sql {}).req.user = some devUser
    ∧ (authMiddleware developmentEnv rejectingJwtVerify emptyDb.sql {}).nextCalls = 1
    ∧ (optionalAuthMiddleware developmentEnv rejectingJwtVerify emptyDb.sql {}).req.user = none
    ∧ (optionalAuthMiddleware developmentEnv rejectingJwtVerify emptyDb.sql {}).nextCalls = 1 :=
  ⟨by decide, by decide, by decide, by decide⟩

/-- C23, amended. On every input to which the development bypass does not apply and on which
`authMiddleware` attaches an identity and calls `next`, `optionalAuthMiddleware` leaves the same
request, with the same identity attached, and calls `next`; and on every input on which
`authMiddleware` rejects, `optionalAuthMiddleware` calls `next`, sends nothing and leaves the
request as it was, with no identity attached. -/
theorem optional_gate_follows_required_gate (env : Env)
    (jwtVerify : String → String → Except JsError JwtPayload) (sql : SqlHandle) (req : Request) :
    (¬ devBypassApplies env req → (authMiddleware env jwtVerify sql req).nextCalls ≠ 0 →
      (optionalAuthMiddleware env jwtVerify sql req).req
          = (authMiddleware env jwtVerify sql req).req
      ∧ (optionalAuthMiddleware env jwtVerify sql req).nextCalls = 1
      ∧ (optionalAuthMiddleware env jwtVerify sql req).response = none)
    ∧ ((authMiddleware env jwtVerify sql req).nextCalls = 0 →
      (optionalAuthMiddleware env jwtVerify sql req).req = req
      ∧ (optionalAuthMiddleware env jwtVerify sql req).nextCalls = 1
      ∧ (optionalAuthMiddleware env jwtVerify sql req).response = none) := by
  have hproceeds := optionalAuthMiddleware_proceeds env jwtVerify sql req
  constructor
  · intro hbypass hnext
    rcases gates_compared env jwtVerify sql req hbypass with ⟨h0, _⟩ | ⟨_, hreq⟩
    · exact absurd h0 hnext
    · exact ⟨hreq, hproceeds.1, hproceeds.2⟩
  · intro hrejects
    by_cases hbypass : devBypassApplies env req
    · have h1 : (authMiddleware env jwtVerify sql req).nextCalls = 1 := by
        unfold authMiddleware
        rw [if_pos hbypass]
      rw [h1] at hrejects
      exact absurd hrejects Nat.one_ne_zero
    · rcases gates_compared env jwtVerify sql req hbypass with ⟨_, hreq⟩ | ⟨h1, _⟩
      · exact ⟨hreq, hproceeds.1, hproceeds.2⟩
      · rw [h1] at hrejects
        exact absurd hrejects Nat.one_ne_zero

/-- C23 amended, at examples: with the token `good` both gates attach the stored identity of `u1`;
with the token `tampered` the required gate rejects and the optional gate passes the request on
untouched. -/
theorem optional_gate_follows_required_gate_witness :
    (¬ devBypassApplies {} (requestWithHeader "Bearer good")
      ∧ (authMiddleware {} exampleJwtVerify exampleUsersDb.sql
          (requestWithHeader "Bearer good")).nextCalls ≠ 0
      ∧ (authMiddleware {} exampleJwtVerify exampleUsersDb.sql
          (requestWithHeader "Bearer tampered")).nextCalls = 0)
    ∧ ((optionalAuthMiddleware {} exampleJwtVerify exampleUsersDb.sql
          (requestWithHeader "Bearer good")).req
        = (authMiddleware {} exampleJwtVerify exampleUsersDb.sql
          (requestWithHeader "Bearer good")).req
      ∧ (optionalAuthMiddleware {} exampleJwtVerify exampleUsersDb.sql
          (requestWithHeader "Bearer good")).nextCalls = 1
      ∧ (optionalAuthMiddleware {} exampleJwtVerify exampleUsersDb.sql
          (requestWithHeader "Bearer good")).response = none)
    ∧ ((optionalAuthMiddleware {} exampleJwtVerify exampleUsersDb.sql
          (requestWithHeader "Bearer tampered")).req = requestWithHeader "Bearer tampered"
      ∧ (optionalAuthMiddleware {} exampleJwtVerify exampleUsersDb.sql
          (requestWithHeader "Bearer tampered")).nextCalls = 1
      ∧ (optionalAuthMiddleware {} exampleJwtVerify exampleUsersDb.sql
          (requestWithHeader "Bearer tampered")).response = none)
    ∧ (optionalAuthMiddleware {} exampleJwtVerify exampleUsersDb.sql
        (requestWithHeader "Bearer good")).req.user = some (identityOfUser exampleUser) :=
  ⟨⟨by decide, by decide, by decide⟩,
    (optional_gate_follows_required_gate {} exampleJwtVerify exampleUsersDb.sql
      (requestWithHeader "Bearer good")).1 (by decide) (by decide),
    (optional_gate_follows_required_gate {} exampleJwtVerify exampleUsersDb.sql
      (requestWithHeader "Bearer tampered")).2 (by decide),
    by decide⟩

/-! ## Login responses and the account state -/

/-- A login answered `Account is deactivated` found a user whose password compared equal. -/
theorem loginHandler_deactivated (env : Env) (libs : AuthLibs) (sql : RouteSql)
    (req : RouteRequest)
    (h : (loginHandler env libs sql req).response = errorResponse 401 "Account is deactivated") :
    ∃ user, getUserByEmail sql (req.bodyField "email") = .ok (some user)
      ∧ libs.bcryptCompare (req.bodyField "password") user.password_hash = .ok true
      ∧ user.is_active.truthy = false := by
  unfold loginHandler at h
  by_cases hvalid : req.validationErrors.isEmpty = false
  · simp [hvalid, invalidInputResponse, errorResponse] at h
  · simp only [if_neg hvalid] at h
    cases hget : getUserByEmail sql (req.bodyField "email") with
    | error e => simp [hget, errorResponse, errorBody] at h
    | ok found =>
      cases found with
      | none => simp [hget, errorResponse, errorBody] at h
      | some user =>
        simp only [hget] at h
        cases hcompare : libs.bcryptCompare (req.bodyField "password") user.password_hash with
        | error e => simp [hcompare, errorResponse, errorBody] at h
        | ok matched =>
          cases matched with
          | false => simp [hcompare, errorResponse, errorBody] at h
          | true =>
            simp only [hcompare] at h
            by_cases hactive : user.is_active.truthy = false
            · exact ⟨user, rfl, hcompare, hactive⟩
            · simp only [if_neg hactive] at h
              cases hsign : libs.jwtSign (tokenPayload user) (jwtSecret env) "24h" with
              | error e => simp [hsign, errorResponse, errorBody] at h
              | ok token => simp [hsign, errorResponse, dataResponse] at h

/-- C28. For a login request that passed validation and whose password does not compare equal,
the answer is 401 `Invalid credentials` when the email is unknown and when it is the email of a
stored account, whatever that account's `is_active`; and the answer `Account is deactivated` is
given only when a user was found, the password compared equal to the stored hash and the account
is inactive. -/
theorem loginHandler_wrong_password (env : Env) (libs : AuthLibs) (sql : RouteSql)
    (req : RouteRequest) (hvalid : req.validationErrors = []) :
    (sql.selectUserByEmail (sqlParam (req.bodyField "email")) = .ok [] →
      (loginHandler env libs sql req).response = errorResponse 401 "Invalid credentials")
    ∧ (∀ (user : UserRow) (rest : List UserRow) (active : JsValue),
      sql.selectUserByEmail (sqlParam (req.bodyField "email"))
        = .ok ({ user with is_active := active } :: rest) →
      libs.bcryptCompare (req.bodyField "password") user.password_hash = .ok false →
      (loginHandler env libs sql req).response = errorResponse 401 "Invalid credentials")
    ∧ ((loginHandler env libs sql req).response = errorResponse 401 "Account is deactivated" →
      ∃ user rest,
        sql.selectUserByEmail (sqlParam (req.bodyField "email")) = .ok (user :: rest)
        ∧ libs.bcryptCompare (req.bodyField "password") user.password_hash = .ok true
        ∧ user.is_active.truthy = false) := by
  have hempty : req.validationErrors.isEmpty = true := by rw [hvalid]; rfl
  refine ⟨?_, ?_, ?_⟩
  · intro hrows
    simp [loginHandler, hempty, getUserByEmail_of_rows sql _ _ hrows]
  · intro user rest active hrows hcompare
    simp [loginHandler, hempty, getUserByEmail_of_rows sql _ _ hrows, hcompare]
  · intro h
    obtain ⟨user, hget, hcompare, hactive⟩ := loginHandler_deactivated env libs sql req h
    obtain ⟨rest, hrows⟩ := rows_of_getUserByEmail sql _ user hget
    exact ⟨user, rest, hrows, hcompare, hactive⟩

/-- C28, at examples: a wrong password is answered 401 `Invalid credentials` for an unknown email,
for the active example account and for the deactivated one. -/
theorem loginHandler_wrong_password_witness :
    ((loginRequest "u1@example.com" "wrong").validationErrors = []
      ∧ (exampleUsersDb.routeSql exampleInsert).selectUserByEmail
          (sqlParam ((loginRequest "u1@example.com" "wrong").bodyField "email"))
        = .ok [{ exampleUser with is_active := .bool true }]
      ∧ (exampleDeactivatedDb.routeSql exampleInsert).selectUserByEmail
          (sqlParam ((loginRequest "u1@example.com" "wrong").bodyField "email"))
        = .ok [{ exampleUser with is_active := .bool false }]
      ∧ exampleLibs.bcryptCompare ((loginRequest "u1@example.com" "wrong").bodyField "password")
          exampleUser.password_hash = .ok false)
    ∧ (loginHandler {} exampleLibs (exampleUsersDb.routeSql exampleInsert)
        (loginRequest "nobody@example.com" "wrong")).response
      = errorResponse 401 "Invalid credentials"
    ∧ (loginHandler {} exampleLibs (exampleUsersDb.routeSql exampleInsert)
        (loginRequest "u1@example.com" "wrong")).response
      = errorResponse 401 "Invalid credentials"
    ∧ (loginHandler {} exampleLibs (exampleDeactivatedDb.routeSql exampleInsert)
        (loginRequest "u1@example.com" "wrong")).response
      = errorResponse 401 "Invalid credentials" :=
  ⟨⟨rfl, rfl, rfl, rfl⟩,
    (loginHandler_wrong_password {} exampleLibs (exampleUsersDb.routeSql exampleInsert)
      (loginRequest "nobody@example.com" "wrong") rfl).1 rfl,
    (loginHandler_wrong_password {} exampleLibs (exampleUsersDb.routeSql exampleInsert)
      (loginRequest "u1@example.com" "wrong") rfl).2.1 exampleUser [] (.bool true) rfl rfl,
    (loginHandler_wrong_password {} exampleLibs (exampleDeactivatedDb.routeSql exampleInsert)
      (loginRequest "u1@example.com" "wrong") rfl).2.1 exampleUser [] (.bool false) rfl rfl⟩

/-! ## The route table: the authentication routes -/

/-- The mounts never answer with a route of the authentication module. -/
theorem dispatchMounts_ne_auth (method : String) (path : List String) (route : Route)
    (table : List (List String × ApiRouter)) :
    dispatchMounts method path table ≠ .handler .auth route := by
  induction table with
  | nil => simp [dispatchMounts]
  | cons entry rest ih =>
    obtain ⟨mountPath, router⟩ := entry
    unfold dispatchMounts
    split
    · split
      · simp
      · exact ih
    · exact ih

/-- C21, what the code does: `server.js` neither imports nor mounts `routes/auth.js`.  The
requests `POST /auth/login`, `POST /auth/register` and `GET /auth/verify`, and the same paths
under `/api`, are answered by the `*` handler with 404, while `GET /api/claims` reaches its
route; and no request at all is dispatched to a route of the authentication module. -/
theorem auth_routes_not_mounted :
    dispatch "POST" ["auth", "login"] = .notFound
    ∧ dispatch "POST" ["auth", "register"] = .notFound
    ∧ dispatch "GET" ["auth", "verify"] = .notFound
    ∧ dispatch "POST" ["api", "auth", "login"] = .notFound
    ∧ dispatch "POST" ["api", "auth", "register"] = .notFound
    ∧ dispatch "GET" ["api", "auth", "verify"] = .notFound
    ∧ dispatch "GET" ["api", "claims"] = .handler (.api .claims) ⟨"GET", []⟩
    ∧ ∀ (method : String) (path : List String) (route : Route),
        dispatch method path ≠ .handler .auth route := by
  refine ⟨by decide, by decide, by decide, by decide, by decide, by decide, by decide, ?_⟩
  intro method path route
  unfold dispatch
  split
  · simp
  · split
    · simp
    · exact dispatchMounts_ne_auth method path route mounts

/-! ## Creating claims and users -/

/-- The amount of the example bodies as `parseFloat` reads it. -/
theorem parseFloat_example_amount : parseFloat (.string "200.00") = .fin 200 := by
  simp [parseFloat, parseFloatString, unsignedLiteralValue, startsWithChars, isJsWhiteSpace,
    digitsValue, exponentValue, List.takeWhile, List.dropWhile]
  simpa using roundToDouble_intCast 200 (by norm_num)

/-- C24, what the code does: `POST /api/claims` has no chain on `status`.  The example body with
the status `bogus` passes the chains, `createClaim` is called with the status `bogus` and the
answer is 201 with the stored row; the same status sent to `PUT /api/claims/:id` is answered 400
and `updateClaim` is not called. -/
theorem postClaimRoute_accepts_any_status :
    validationErrorsOf exampleValidators (claimsPostChains exampleValidators) bogusStatusBody = []
    ∧ (postClaimRoute exampleValidators "2024-02-01T00:00:00.000Z"
        (emptyDb.apiSql exampleInsert exampleInsertClaim) { body := bogusStatusBody }).calls
      = [.createClaim
          { practice_id := .string "11111111-1111-4111-8111-111111111111"
            patient_id := .string "22222222-2222-4222-8222-222222222222"
            external_claim_id := .null
            insurer_name := .string "Acme"
            treatment_code := .null
            treatment_description := .string "Filling"
            submitted_amount := .number (.fin 200)
            expected_amount := .null
            received_amount := .null
            status := .string "bogus"
            submission_date := .string "2024-02-01T00:00:00.000Z"
            payment_date := .null
            notes := .null }]
    ∧ (postClaimRoute exampleValidators "2024-02-01T00:00:00.000Z"
        (emptyDb.apiSql exampleInsert exampleInsertClaim)
        { body := bogusStatusBody }).response.status = 201
    ∧ (putClaimRoute exampleValidators (exampleFullClaimDb.routeSql exampleInsert)
        { id := "c1", body := [("status", .string "bogus")] }).response.status = 400
    ∧ (putClaimRoute exampleValidators (exampleFullClaimDb.routeSql exampleInsert)
        { id := "c1", body := [("status", .string "bogus")] }).calls = [] := by
  refine ⟨?_, ?_, ?_, ?_, ?_⟩
  · rfl
  · refine Eq.trans
      (b := [ServiceCall.createClaim
        (claimDataOfBody "2024-02-01T00:00:00.000Z" { body := bogusStatusBody })]) rfl ?_
    simp [claimDataOfBody, RouteRequest.bodyField, bogusStatusBody, List.lookup, JsValue.or,
      JsValue.truthy, amountOrNull, parseFloat_example_amount]
  · rfl
  · rfl
  · rfl

/-- C29, what the code does: the handler tests `req.body.expected_amount ? ... : null`, and the
number 0 is falsy.  The example body, accepted by the chains of `POST /api/claims`, has
`expected_amount` and `received_amount` present with the value 0, and the record passed to
`createClaim` has `null` for both. -/
theorem postClaimRoute_zero_amount_becomes_null :
    validationErrorsOf exampleValidators (claimsPostChains exampleValidators) zeroAmountsBody = []
    ∧ zeroAmountsBody.lookup "expected_amount" = some (.number (.fin 0))
    ∧ zeroAmountsBody.lookup "received_amount" = some (.number (.fin 0))
    ∧ (postClaimRoute exampleValidators "2024-02-01T00:00:00.000Z"
        (emptyDb.apiSql exampleInsert exampleInsertClaim) { body := zeroAmountsBody }).calls
      = [.createClaim
          { practice_id := .string "11111111-1111-4111-8111-111111111111"
            patient_id := .string "22222222-2222-4222-8222-222222222222"
            external_claim_id := .null
            insurer_name := .string "Acme"
            treatment_code := .null
            treatment_description := .string "Filling"
            submitted_amount := .number (.fin 200)
            expected_amount := .null
            received_amount := .null
            status := .string "pending"
            submission_date := .string "2024-02-01T00:00:00.000Z"
            payment_date := .null
            notes := .null }] := by
  refine ⟨rfl, rfl, rfl, ?_⟩
  refine Eq.trans
    (b := [ServiceCall.createClaim
      (claimDataOfBody "2024-02-01T00:00:00.000Z" { body := zeroAmountsBody })]) rfl ?_
  simp [claimDataOfBody, RouteRequest.bodyField, zeroAmountsBody, List.lookup, JsValue.or,
    JsValue.truthy, JsNumber.truthy, amountOrNull, parseFloat_example_amount]

/-- C26, what the code does: the handler of `POST /api/users` destructures `firstName`,
`lastName` and `practiceId` from the body, while its chains check `first_name`, `last_name` and
`practice_id`.  The example body passes the chains, and the record passed to `createUser` has
`undefined` for `practice_id`, `first_name` and `last_name`. -/
theorem postUserRoute_drops_validated_fields :
    validationErrorsOf exampleValidators (usersPostChains exampleValidators) snakeCaseUserBody = []
    ∧ snakeCaseUserBody.lookup "practice_id"
      = some (.string "11111111-1111-4111-8111-111111111111")
    ∧ snakeCaseUserBody.lookup "first_name" = some (.string "Ann")
    ∧ snakeCaseUserBody.lookup "last_name" = some (.string "Lee")
    ∧ (postUserRoute exampleValidators exampleLibs.bcryptHash
        (exampleUsersDb.routeSql exampleInsert) { body := snakeCaseUserBody }).calls
      = [.getUserByEmail (.string "new@example.com"), .bcryptHash (.string "secret1") 12,
          .createUser
            { practice_id := .undefined
              email := .string "new@example.com"
              password_hash := .string "hash"
              role := .string "staff"
              first_name := .undefined
              last_name := .undefined }] :=
  ⟨rfl, rfl, rfl, rfl, rfl⟩

/-! ## The list routes and the tenant filter -/

/-- The `LIMIT` and `OFFSET` clause with two counts as parameters. -/
theorem page_of_counts {α : Type} (limit offset : Nat) (rows : List α) :
    page (.fin limit) (.fin offset) rows = .ok ((rows.drop offset).take limit) := by
  simp [page]

/-- The test of the list routes fails for an absent, an empty and a `null` parameter. -/
theorem practiceIdGiven_of_unscoped (practiceId : Option String)
    (h : practiceId = none ∨ practiceId = some "" ∨ practiceId = some "null") :
    practiceIdGiven practiceId = false := by
  rcases h with h | h | h <;> subst h <;> rfl

/-- The test of the list routes holds for every other value, and the `get...ByPractice` methods
then keep the filter. -/
theorem practiceIdGiven_of_value (value : String) (hempty : value ≠ "") (hnull : value ≠ "null") :
    practiceIdGiven (some value) = true ∧ noPracticeFilter (.string value) = false := by
  simp [practiceIdGiven, noPracticeFilter, JsValue.truthy, hempty, hnull]

/-- C25. For each of the five list routes: when the `practiceId` query parameter is absent, empty
or the string `null`, the handler calls the `getAll...` method, and what it sends is made from the
rows of the list statement without a `WHERE practice_id` clause, the records of every tenant; the
handler reads nothing of the caller.  When another value is supplied, the handler calls the
`get...ByPractice` method with exactly that value, and what it sends is made from the rows of the
statement whose `WHERE` clause has that value as tenant. -/
theorem list_handlers_practice_scope (sql : ApiSql) (req : RouteRequest) :
    (req.practiceId = none ∨ req.practiceId = some "" ∨ req.practiceId = some "null" →
      ((getClaimsHandler sql req).calls
          = [.getAllClaims (parseIntQuery 50 req.limit) (parseIntQuery 0 req.offset)]
        ∧ (getClaimsHandler sql req).response
          = claimsListResponse req
              (sql.selectClaimsPage none (parseIntQuery 50 req.limit)
                (parseIntQuery 0 req.offset)))
      ∧ ((getPatientsHandler sql req).calls
          = [.getAllPatients (parseIntQuery 50 req.limit) (parseIntQuery 0 req.offset)]
        ∧ (getPatientsHandler sql req).response
          = patientsListResponse
              (sql.selectPatientsPage none (parseIntQuery 50 req.limit)
                (parseIntQuery 0 req.offset)))
      ∧ ((getAlertsHandler sql req).calls
          = [.getAllAlerts (parseIntQuery 50 req.limit) (parseIntQuery 0 req.offset)]
        ∧ (getAlertsHandler sql req).response
          = alertsListResponse req
              (sql.selectAlertsPage none (parseIntQuery 50 req.limit)
                (parseIntQuery 0 req.offset)))
      ∧ ((getUsersHandler sql req).calls
          = [.getAllUsers (parseIntQuery 50 req.limit) (parseIntQuery 0 req.offset)]
        ∧ (getUsersHandler sql req).response
          = usersListResponse
              (sql.selectUsersPage none (parseIntQuery 50 req.limit)
                (parseIntQuery 0 req.offset)))
      ∧ ((getAutomationLogsHandler sql req).calls
          = [.getAllAutomationLogs (parseIntQuery 50 req.limit) (parseIntQuery 0 req.offset)]
        ∧ (getAutomationLogsHandler sql req).response
          = automationListResponse req
              (sql.selectAutomationLogsPage none (parseIntQuery 50 req.limit)
                (parseIntQuery 0 req.offset))))
    ∧ (∀ value : String, req.practiceId = some value → value ≠ "" → value ≠ "null" →
      ((getClaimsHandler sql req).calls
          = [.getClaimsByPractice (.string value) (parseIntQuery 50 req.limit)
              (parseIntQuery 0 req.offset)]
        ∧ (getClaimsHandler sql req).response
          = claimsListResponse req
              (sql.selectClaimsPage (some (.string value)) (parseIntQuery 50 req.limit)
                (parseIntQuery 0 req.offset)))
      ∧ ((getPatientsHandler sql req).calls
          = [.getPatientsByPractice (.string value) (parseIntQuery 50 req.limit)
              (parseIntQuery 0 req.offset)]
        ∧ (getPatientsHandler sql req).response
          = patientsListResponse
              (sql.selectPatientsPage (some (.string value)) (parseIntQuery 50 req.limit)
                (parseIntQuery 0 req.offset)))
      ∧ ((getAlertsHandler sql req).calls
          = [.getAlertsByPractice (.string value) (parseIntQuery 50 req.limit)
              (parseIntQuery 0 req.offset)]
        ∧ (getAlertsHandler sql req).response
          = alertsListResponse req
              (sql.selectAlertsPage (some (.string value)) (parseIntQuery 50 req.limit)
                (parseIntQuery 0 req.offset)))
      ∧ ((getUsersHandler sql req).calls
          = [.getUsersByPractice (.string value) (parseIntQuery 50 req.limit)
              (parseIntQuery 0 req.offset)]
        ∧ (getUsersHandler sql req).response
          = usersListResponse
              (sql.selectUsersPage (some (.string value)) (parseIntQuery 50 req.limit)
                (parseIntQuery 0 req.offset)))
      ∧ ((getAutomationLogsHandler sql req).calls
          = [.getAutomationLogsByPractice (.string value) (parseIntQuery 50 req.limit)
              (parseIntQuery 0 req.offset)]
        ∧ (getAutomationLogsHandler sql req).response
          = automationListResponse req
              (sql.selectAutomationLogsPage (some (.string value))
                (parseIntQuery 50 req.limit) (parseIntQuery 0 req.offset)))) := by
  constructor
  · intro h
    have hgiven := practiceIdGiven_of_unscoped req.practiceId h
    simp [getClaimsHandler, getPatientsHandler, getAlertsHandler, getUsersHandler,
      getAutomationLogsHandler, hgiven, getAllClaims, getAllPatients, getAllAlerts, getAllUsers,
      getAllAutomationLogs]
  · intro value hvalue hempty hnull
    obtain ⟨hgiven, hfilter⟩ := practiceIdGiven_of_value value hempty hnull
    simp [getClaimsHandler, getPatientsHandler, getAlertsHandler, getUsersHandler,
      getAutomationLogsHandler, hvalue, hgiven, hfilter, queryValue, getClaimsByPractice,
      getPatientsByPractice, getAlertsByPractice, getUsersByPractice,
      getAutomationLogsByPractice, sqlParam]

/-- C25, at examples on the database of two tenants: a request without `practiceId`, from a
caller whose credential is of tenant `p1`, is answered with the claims of `p1` and of `p2`; the
same request with `practiceId=p1` is answered with the three claims of `p1`. -/
theorem list_handlers_practice_scope_witness :
    ((({ authorization := some "Bearer good" } : RouteRequest).practiceId = none
        ∨ ({ authorization := some "Bearer good" } : RouteRequest).practiceId = some ""
        ∨ ({ authorization := some "Bearer good" } : RouteRequest).practiceId = some "null")
      ∧ ({ authorization := some "Bearer good", practiceId := some "p1" } : RouteRequest).practiceId
        = some "p1"
      ∧ "p1" ≠ "" ∧ "p1" ≠ "null")
    ∧ (getClaimsHandler (exampleDbTwoTenants.apiSql exampleInsert exampleInsertClaim)
        { authorization := some "Bearer good" }).calls = [.getAllClaims (.fin 50) (.fin 0)]
    ∧ (getClaimsHandler (exampleDbTwoTenants.apiSql exampleInsert exampleInsertClaim)
        { authorization := some "Bearer good" }).response
      = listResponse (exampleDbTwoTenants.claims.map
          (fun claim => Json.ofFields (ClaimListRow.toObject { claim := claim })))
    ∧ (getClaimsHandler (exampleDbTwoTenants.apiSql exampleInsert exampleInsertClaim)
        { authorization := some "Bearer good", practiceId := some "p1" }).calls
      = [.getClaimsByPractice (.string "p1") (.fin 50) (.fin 0)]
    ∧ (getClaimsHandler (exampleDbTwoTenants.apiSql exampleInsert exampleInsertClaim)
        { authorization := some "Bearer good", practiceId := some "p1" }).response
      = listResponse (exampleClaims.map
          (fun claim => Json.ofFields (ClaimListRow.toObject { claim := claim }))) :=
  ⟨⟨Or.inl rfl, rfl, by decide, by decide⟩,
    ((list_handlers_practice_scope (exampleDbTwoTenants.apiSql exampleInsert exampleInsertClaim)
      { authorization := some "Bearer good" }).1 (Or.inl rfl)).1.1,
    ((list_handlers_practice_scope (exampleDbTwoTenants.apiSql exampleInsert exampleInsertClaim)
      { authorization := some "Bearer good" }).1 (Or.inl rfl)).1.2.trans rfl,
    ((list_handlers_practice_scope (exampleDbTwoTenants.apiSql exampleInsert exampleInsertClaim)
      { authorization := some "Bearer good", practiceId := some "p1" }).2 "p1" rfl
        (by decide) (by decide)).1.1,
    ((list_handlers_practice_scope (exampleDbTwoTenants.apiSql exampleInsert exampleInsertClaim)
      { authorization := some "Bearer good", practiceId := some "p1" }).2 "p1" rfl
        (by decide) (by decide)).1.2.trans rfl⟩

/-- C27, what the code does: `GET /api/users` sends the rows of `SELECT u.*, ...` as fetched.
For the example store the one user object of the response has the property `password_hash` with
the stored hash; for every store the data are the objects of the first 50 stored users, and the
object of every row has `password_hash`. -/
theorem getUsersHandler_sends_password_hash :
    (getUsersHandler (exampleUsersDb.apiSql exampleInsert exampleInsertClaim) {}).response
      = listResponse
          [.object [("id", .string "u1"), ("practice_id", .string "p2"),
            ("email", .string "u1@example.com"), ("password_hash", .string "hash"),
            ("role", .string "admin"), ("first_name", .string "Ann"),
            ("last_name", .string "Lee"), ("is_active", .bool true), ("created_at", .null),
            ("practice_name", .null)]]
    ∧ (∀ db : Database,
        (getUsersHandler (db.apiSql exampleInsert exampleInsertClaim) {}).response
          = listResponse ((db.users.take 50).map (fun user =>
              Json.ofFields (UserListRow.toObject
                { user := user, practice_name := db.practiceName user.practice_id }))))
    ∧ ∀ row : UserListRow, row.toObject.lookup "password_hash" = some row.user.password_hash := by
  refine ⟨rfl, ?_, ?_⟩
  · intro db
    have hpage : ∀ rows : List UserListRow,
        page (.fin ((50 : Nat) : ℚ)) (.fin ((0 : Nat) : ℚ)) rows = .ok (rows.take 50) := by
      intro rows
      rw [page_of_counts]
      rfl
    simp only [getUsersHandler, practiceIdGiven, getAllUsers, parseIntQuery, Database.apiSql,
      scopedRows, hpage, usersListResponse]
    simp [List.map_take]
    rfl
  · intro row
    rfl

/-! ## The logging wrapper -/

/-- C30. For every operation, argument list and state, the function returned by
`withDbLogging(operation)` calls the operation once, with the arguments it was given, and leaves
the state the operation leaves; and, `Logger.database` returning normally, its promise is
fulfilled with the value the operation's promise is fulfilled with, or rejected with the error the
operation's promise is rejected with. -/
theorem withDbLogging_transparent {α σ : Type} (logDatabase : DbLogCall → Except JsError Unit)
    (now : Nat → Int) (name : String) (operation : List JsValue → σ → Except JsError α × σ)
    (args : List JsValue) (state : σ) :
    (withDbLogging logDatabase now name operation args state).operationCalls = [args]
    ∧ (withDbLogging logDatabase now name operation args state).state
      = (operation args state).2
    ∧ ((∀ call, logDatabase call = .ok ()) →
      (withDbLogging logDatabase now name operation args state).outcome
        = (operation args state).1) := by
  unfold withDbLogging
  rcases hop : operation args state with ⟨outcome, after⟩
  cases outcome with
  | ok result =>
    dsimp only
    refine ⟨?_, ?_, ?_⟩
    · split
      · rfl
      · split <;> rfl
    · split
      · rfl
      · split <;> rfl
    · intro hlog
      simp [hlog]
  | error error =>
    dsimp only
    refine ⟨?_, ?_, ?_⟩
    · split <;> rfl
    · split <;> rfl
    · intro hlog
      simp [hlog]

/-- C30, at examples with a logger that returns: the wrapped counting operation is fulfilled with
the number of its arguments, the wrapped failing operation is rejected with the operation's
error, and each has run once. -/
theorem withDbLogging_transparent_witness :
    (∀ call : DbLogCall, (fun _ => Except.ok ()) call = (Except.ok () : Except JsError Unit))
    ∧ (withDbLogging (fun _ => .ok ()) (fun k => 1000 + 7 * k) "getAllClaims" countingOperation
        [.number (.fin 50), .number (.fin 0)] 0).outcome = .ok 2
    ∧ (withDbLogging (fun _ => .ok ()) (fun k => 1000 + 7 * k) "getAllClaims" countingOperation
        [.number (.fin 50), .number (.fin 0)] 0).state = 1
    ∧ (withDbLogging (fun _ => .ok ()) (fun k => 1000 + 7 * k) "getAllClaims" failingOperation
        [] 0).outcome = .error { name := "NeonDbError", message := "connection refused" }
    ∧ (withDbLogging (fun _ => .ok ()) (fun k => 1000 + 7 * k) "getAllClaims" failingOperation
        [] 0).operationCalls = [[]] :=
  ⟨fun _ => rfl,
    (withDbLogging_transparent (fun _ => .ok ()) (fun k => 1000 + 7 * k) "getAllClaims"
      countingOperation [.number (.fin 50), .number (.fin 0)] 0).2.2 (fun _ => rfl),
    (withDbLogging_transparent (fun _ => .ok ()) (fun k => 1000 + 7 * k) "getAllClaims"
      countingOperation [.number (.fin 50), .number (.fin 0)] 0).2.1,
    (withDbLogging_transparent (fun _ => .ok ()) (fun k => 1000 + 7 * k) "getAllClaims"
      failingOperation [] 0).2.2 (fun _ => rfl),
    (withDbLogging_transparent (fun _ => .ok ()) (fun k => 1000 + 7 * k) "getAllClaims"
      failingOperation [] 0).1⟩

end DentalBackend
